import Mathlib

/-!
# USG upstream HID bot detection

A shallow embedding of `Upstream/Src/upstream_hid_botdetect.c`.

* The module globals become the fields of `State`.
* The constants of the headers that are not part of the translated file
  (`build_config.h`, `upstream_hid.h`, `usbd_hid.h`) are the fields of `Config`.
* `HAL_GetTick()` is an external clock: `clk k` is the value returned by the
  `k`-th call since start-up, and the field `TickReads` counts the calls.
* `LED_SetState(x)` is an external sink: the field `LED_Log` records the calls.
* `while (1);` never returns: the functions that can reach it return `none` there.
* `uint8_t`, `uint16_t`, `uint32_t` values are natural numbers reduced modulo
  `2^8`, `2^16`, `2^32` where the C code can overflow.
-/

namespace BotDetect

/-! ## Data model -/

/-- Values of the C enumeration `LockoutStateTypeDef`. -/
inductive LockoutStateTypeDef where
  | LOCKOUT_STATE_INACTIVE
  | LOCKOUT_STATE_TEMPORARY_ACTIVE
  | LOCKOUT_STATE_TEMPORARY_FLASHING
  | LOCKOUT_STATE_PERMANENT_ACTIVE
deriving DecidableEq, Repr

/-- The two LED states this file passes to `LED_SetState`. -/
inductive LedStatusTypeDef where
  | LED_STATUS_OFF
  | LED_STATUS_FLASH_BOTDETECT
deriving DecidableEq, Repr

/-- One record of `KeyTimerLog`: `KeyCode == 0` marks a free record. -/
structure KeyTimerLogTypeDef where
  KeyCode : Nat
  KeyDownStart : Nat
deriving DecidableEq, Repr, Inhabited

/-- Constants taken from headers outside the translated file. The float expression
`sqrtf(x*x + y*y) * MOUSE_BOTDETECT_VELOCITY_MULTIPLIER`, converted to `uint32_t`,
is the field `MouseRawVelocity`. -/
structure Config where
  KEY_A : Nat
  KEY_MODIFIER_BASE : Nat
  HID_MOUSE_INPUT_DATA_LEN : Nat
  HID_FS_BINTERVAL : Nat
  KEYBOARD_BOTDETECT_FAST_BIN_WIDTH_MS : Nat
  KEYBOARD_BOTDETECT_FAST_BIN_COUNT : Nat
  KEYBOARD_BOTDETECT_SLOW_BIN_WIDTH_MS : Nat
  KEYBOARD_BOTDETECT_SLOW_BIN_COUNT : Nat
  KEYBOARD_BOTDETECT_FAST_BIN_DRAIN_DIVIDER : Nat
  KEYBOARD_BOTDETECT_SLOW_BIN_DRAIN_DIVIDER : Nat
  KEYBOARD_BOTDETECT_LOCKOUT_BIN_THRESHOLD : Nat
  KEYBOARD_BOTDETECT_MAX_ACTIVE_KEYS : Nat
  BOTDETECT_TEMPORARY_LOCKOUT_TIME_MS : Nat
  BOTDETECT_TEMPORARY_LOCKOUT_FLASH_TIME_MS : Nat
  MOUSE_BOTDETECT_MOVE_DELAY_LIMIT : Nat
  MOUSE_BOTDETECT_ACCEL_EVENT_THRESHOLD : Nat
  MOUSE_BOTDETECT_LOCKOUT_MINIMUM_ACCEL_TIME_MS : Nat
  MOUSE_BOTDETECT_VELOCITY_HISTORY_SIZE : Nat
  MOUSE_BOTDETECT_VELOCITY_MATCH_ERROR : Nat
  MOUSE_BOTDETECT_VELOCITY_MATCH_BASE : Nat
  MouseRawVelocity : Int → Int → Nat

/-- Modelled from the spec: the HID rollover sentinel `KEY_ROLLOVER` is `0x01`
(its defining header is not part of the translated file). -/
def KEY_ROLLOVER : Nat := 1

/-- Modelled from the spec: a keyboard report is 8 bytes long
(`HID_KEYBOARD_INPUT_DATA_LEN`, defined in a header outside the translated file). -/
def HID_KEYBOARD_INPUT_DATA_LEN : Nat := 8

/-- The module globals, plus the two ghost fields `TickReads` and `LED_Log`. -/
structure State where
  TickReads : Nat
  LED_Log : List LedStatusTypeDef
  TemporaryLockoutTimeMs : Nat
  LockoutState : LockoutStateTypeDef
  LastKeyDownTime : Nat
  KeyTimerLog : List KeyTimerLogTypeDef
  OldKeyboardInData : List Nat
  KeyDelayFastBinDrainDivideCount : Nat
  KeyDelaySlowBinDrainDivideCount : Nat
  KeyDowntimeFastBinDrainDivideCount : Nat
  KeyDowntimeSlowBinDrainDivideCount : Nat
  KeyDelayFastBinArray : List Nat
  KeyDelaySlowBinArray : List Nat
  KeyDowntimeFastBinArray : List Nat
  KeyDowntimeSlowBinArray : List Nat
  LastMouseMoveTime : Nat
  AccelerationEventStartTime : Nat
  PreviousRawVelocity : Nat
  AccelerationEventPolarityActive : Int
  MouseVelocityHistory : List Nat
  PreviousSmoothedAcceleration : Int
  ConstantAccelerationCounter : Nat
  ConstantAccelerationCounterMax : Nat
deriving DecidableEq, Repr

/-- The state after C start-up: every global is zero-initialised and
`LockoutState = LOCKOUT_STATE_INACTIVE`. -/
def initialState (cfg : Config) : State where
  TickReads := 0
  LED_Log := []
  TemporaryLockoutTimeMs := 0
  LockoutState := .LOCKOUT_STATE_INACTIVE
  LastKeyDownTime := 0
  KeyTimerLog := List.replicate cfg.KEYBOARD_BOTDETECT_MAX_ACTIVE_KEYS ⟨0, 0⟩
  OldKeyboardInData := List.replicate HID_KEYBOARD_INPUT_DATA_LEN 0
  KeyDelayFastBinDrainDivideCount := 0
  KeyDelaySlowBinDrainDivideCount := 0
  KeyDowntimeFastBinDrainDivideCount := 0
  KeyDowntimeSlowBinDrainDivideCount := 0
  KeyDelayFastBinArray := List.replicate cfg.KEYBOARD_BOTDETECT_FAST_BIN_COUNT 0
  KeyDelaySlowBinArray := List.replicate cfg.KEYBOARD_BOTDETECT_SLOW_BIN_COUNT 0
  KeyDowntimeFastBinArray := List.replicate cfg.KEYBOARD_BOTDETECT_FAST_BIN_COUNT 0
  KeyDowntimeSlowBinArray := List.replicate cfg.KEYBOARD_BOTDETECT_SLOW_BIN_COUNT 0
  LastMouseMoveTime := 0
  AccelerationEventStartTime := 0
  PreviousRawVelocity := 0
  AccelerationEventPolarityActive := 0
  MouseVelocityHistory := List.replicate cfg.MOUSE_BOTDETECT_VELOCITY_HISTORY_SIZE 0
  PreviousSmoothedAcceleration := 0
  ConstantAccelerationCounter := 0
  ConstantAccelerationCounterMax := 0

/-- The arrays have their declared lengths. -/
def State.WF (cfg : Config) (s : State) : Prop :=
  s.KeyTimerLog.length = cfg.KEYBOARD_BOTDETECT_MAX_ACTIVE_KEYS ∧
  s.OldKeyboardInData.length = HID_KEYBOARD_INPUT_DATA_LEN ∧
  s.KeyDelayFastBinArray.length = cfg.KEYBOARD_BOTDETECT_FAST_BIN_COUNT ∧
  s.KeyDelaySlowBinArray.length = cfg.KEYBOARD_BOTDETECT_SLOW_BIN_COUNT ∧
  s.KeyDowntimeFastBinArray.length = cfg.KEYBOARD_BOTDETECT_FAST_BIN_COUNT ∧
  s.KeyDowntimeSlowBinArray.length = cfg.KEYBOARD_BOTDETECT_SLOW_BIN_COUNT ∧
  s.MouseVelocityHistory.length = cfg.MOUSE_BOTDETECT_VELOCITY_HISTORY_SIZE

instance (cfg : Config) (s : State) : Decidable (s.WF cfg) := by
  unfold State.WF; infer_instance

/-! ## Machine arithmetic and loops -/

/-- Unsigned 32-bit subtraction `a - b`. -/
def sub32 (a b : Nat) : Nat := (a + (4294967296 - b % 4294967296)) % 4294967296

/-- Conversion of a byte to `int8_t`. -/
def toInt8 (n : Nat) : Int := if n % 256 < 128 then ((n % 256 : Nat) : Int) else ((n % 256 : Nat) : Int) - 256

/-- Conversion of a 32-bit word to `int32_t`. -/
def toInt32 (n : Nat) : Int :=
  if n % 4294967296 < 2147483648 then ((n % 4294967296 : Nat) : Int)
  else ((n % 4294967296 : Nat) : Int) - 4294967296

/-- Conversion of an integer to `uint32_t`. -/
def ofInt32 (z : Int) : Nat := (z % 4294967296).toNat

/-- The loop `for (i = lo; i < lo + n; i++) body(i)`. -/
def forLoop {σ : Type} (body : Nat → σ → σ) : Nat → Nat → σ → σ
  | _, 0, s => s
  | i, n + 1, s => forLoop body (i + 1) n (body i s)

/-- The loop `for (i = lo; i < lo + n; i++) body(i)` whose body may never return. -/
def forLoopM {σ : Type} (body : Nat → σ → Option σ) : Nat → Nat → σ → Option σ
  | _, 0, s => some s
  | i, n + 1, s =>
    match body i s with
    | none => none
    | some s1 => forLoopM body (i + 1) n s1

/-- The loop `for (i = lo; i < lo + n; i++) if (p(i)) break;`: the value of `i` after it. -/
def breakLoop (p : Nat → Bool) : Nat → Nat → Nat
  | i, 0 => i
  | i, n + 1 => if p i then i else breakLoop p (i + 1) n

/-- The external clock: the value of the next `HAL_GetTick()` call. -/
def HAL_GetTick (clk : Nat → Nat) (s : State) : Nat := clk s.TickReads % 4294967296

/-- The external LED sink `LED_SetState`. -/
def LED_SetState (x : LedStatusTypeDef) (s : State) : State :=
  { s with LED_Log := s.LED_Log ++ [x] }

/-- The test `(LockoutState == LOCKOUT_STATE_TEMPORARY_ACTIVE) ||
(LockoutState == LOCKOUT_STATE_PERMANENT_ACTIVE)` used before zeroing a report. -/
def hostSuppressed (s : State) : Bool :=
  s.LockoutState == .LOCKOUT_STATE_TEMPORARY_ACTIVE ||
  s.LockoutState == .LOCKOUT_STATE_PERMANENT_ACTIVE

/-- The loop `for (i = 0; i < n; i++) data[i] = 0;`. -/
def zeroFill (n : Nat) (data : List Nat) : List Nat :=
  forLoop (fun i d => d.set i 0) 0 n data

/-- The loop `for (i = 0; i < n; i++) dst[i] = src[i];`. -/
def copyBytes (n : Nat) (src dst : List Nat) : List Nat :=
  forLoop (fun i d => d.set i (src.getD i 0)) 0 n dst

/-! ## Keyboard -/

/-- The body `if (bins[i] > 0) bins[i]--;` of the drain loops. -/
def drainStep (i : Nat) (bins : List Nat) : List Nat :=
  if bins.getD i 0 > 0 then bins.set i (bins.getD i 0 - 1) else bins

/-- The block repeated four times in `KeyDown` and `KeyUp`: `bins[idx]++` on a
`uint8_t`, `drainCount++` on a `uint8_t`, and when the count reaches the divider,
reset it and decrement every positive bin. Returns the bins and the drain count. -/
def incrementAndDrain (binCount drainDivider idx : Nat) (bins : List Nat) (drainCount : Nat) :
    List Nat × Nat :=
  let bins1 := bins.set idx ((bins.getD idx 0 + 1) % 256)
  let count1 := (drainCount + 1) % 256
  if count1 ≥ drainDivider then (forLoop drainStep 0 binCount bins1, 0) else (bins1, count1)

/-- Lines 263-295 of `KeyDown`: the histogram update and `LastKeyDownTime = now`. -/
def keyDownHistogram (cfg : Config) (now : Nat) (s : State) : State :=
  let keyDelay := sub32 now s.LastKeyDownTime
  let s1 :=
    if keyDelay < cfg.KEYBOARD_BOTDETECT_FAST_BIN_WIDTH_MS * cfg.KEYBOARD_BOTDETECT_FAST_BIN_COUNT then
      let r := incrementAndDrain cfg.KEYBOARD_BOTDETECT_FAST_BIN_COUNT
        cfg.KEYBOARD_BOTDETECT_FAST_BIN_DRAIN_DIVIDER
        (keyDelay / cfg.KEYBOARD_BOTDETECT_FAST_BIN_WIDTH_MS)
        s.KeyDelayFastBinArray s.KeyDelayFastBinDrainDivideCount
      { s with KeyDelayFastBinArray := r.1, KeyDelayFastBinDrainDivideCount := r.2 }
    else
      let keyDelay1 := keyDelay %
        (cfg.KEYBOARD_BOTDETECT_SLOW_BIN_WIDTH_MS * cfg.KEYBOARD_BOTDETECT_SLOW_BIN_COUNT)
      let r := incrementAndDrain cfg.KEYBOARD_BOTDETECT_SLOW_BIN_COUNT
        cfg.KEYBOARD_BOTDETECT_SLOW_BIN_DRAIN_DIVIDER
        (keyDelay1 / cfg.KEYBOARD_BOTDETECT_SLOW_BIN_WIDTH_MS)
        s.KeyDelaySlowBinArray s.KeyDelaySlowBinDrainDivideCount
      { s with KeyDelaySlowBinArray := r.1, KeyDelaySlowBinDrainDivideCount := r.2 }
  { s1 with LastKeyDownTime := now }

/-- The C function `Upstream_HID_BotDetectKeyboard_KeyDown`; `none` is the `while (1);`
reached when `KeyTimerLog` has no free record. -/
def Upstream_HID_BotDetectKeyboard_KeyDown (cfg : Config) (clk : Nat → Nat) (keyCode : Nat)
    (s : State) : Option State :=
  let now := HAL_GetTick clk s
  let s1 := keyDownHistogram cfg now { s with TickReads := s.TickReads + 1 }
  let i := breakLoop (fun i => (s1.KeyTimerLog.getD i default).KeyCode == 0) 0
    cfg.KEYBOARD_BOTDETECT_MAX_ACTIVE_KEYS
  if i ≥ cfg.KEYBOARD_BOTDETECT_MAX_ACTIVE_KEYS then none
  else some { s1 with KeyTimerLog := s1.KeyTimerLog.set i ⟨keyCode, now⟩ }

/-- Lines 321-351 of `KeyUp`: the histogram update for a key held for `keyDowntime`. -/
def keyUpHistogram (cfg : Config) (keyDowntime : Nat) (s : State) : State :=
  if keyDowntime < cfg.KEYBOARD_BOTDETECT_FAST_BIN_WIDTH_MS * cfg.KEYBOARD_BOTDETECT_FAST_BIN_COUNT then
    let r := incrementAndDrain cfg.KEYBOARD_BOTDETECT_FAST_BIN_COUNT
      cfg.KEYBOARD_BOTDETECT_FAST_BIN_DRAIN_DIVIDER
      (keyDowntime / cfg.KEYBOARD_BOTDETECT_FAST_BIN_WIDTH_MS)
      s.KeyDowntimeFastBinArray s.KeyDowntimeFastBinDrainDivideCount
    { s with KeyDowntimeFastBinArray := r.1, KeyDowntimeFastBinDrainDivideCount := r.2 }
  else
    let keyDowntime1 := keyDowntime %
      (cfg.KEYBOARD_BOTDETECT_SLOW_BIN_WIDTH_MS * cfg.KEYBOARD_BOTDETECT_SLOW_BIN_COUNT)
    let r := incrementAndDrain cfg.KEYBOARD_BOTDETECT_SLOW_BIN_COUNT
      cfg.KEYBOARD_BOTDETECT_SLOW_BIN_DRAIN_DIVIDER
      (keyDowntime1 / cfg.KEYBOARD_BOTDETECT_SLOW_BIN_WIDTH_MS)
      s.KeyDowntimeSlowBinArray s.KeyDowntimeSlowBinDrainDivideCount
    { s with KeyDowntimeSlowBinArray := r.1, KeyDowntimeSlowBinDrainDivideCount := r.2 }

/-- Lines 313-316 of `KeyUp`: the index left by the search for the record of `keyCode`. -/
def keyUpSlot (cfg : Config) (keyCode : Nat) (s : State) : Nat :=
  breakLoop (fun i => (s.KeyTimerLog.getD i default).KeyCode == keyCode) 0
    cfg.KEYBOARD_BOTDETECT_MAX_ACTIVE_KEYS

/-- Line 320 of `KeyUp`: `keyDowntime = HAL_GetTick() - KeyTimerLog[i].KeyDownStart`. -/
def keyUpDowntime (cfg : Config) (clk : Nat → Nat) (keyCode : Nat) (s : State) : Nat :=
  sub32 (HAL_GetTick clk s) (s.KeyTimerLog.getD (keyUpSlot cfg keyCode s) default).KeyDownStart

/-- The C function `Upstream_HID_BotDetectKeyboard_KeyUp`; `none` is the `while (1);`
reached when no record of `KeyTimerLog` holds `keyCode`. -/
def Upstream_HID_BotDetectKeyboard_KeyUp (cfg : Config) (clk : Nat → Nat) (keyCode : Nat)
    (s : State) : Option State :=
  let i := keyUpSlot cfg keyCode s
  if i ≥ cfg.KEYBOARD_BOTDETECT_MAX_ACTIVE_KEYS then none
  else
    let start := (s.KeyTimerLog.getD i default).KeyDownStart
    let s1 := { s with KeyTimerLog := s.KeyTimerLog.set i ⟨0, start⟩, TickReads := s.TickReads + 1 }
    some (keyUpHistogram cfg (keyUpDowntime cfg clk keyCode s) s1)

/-- The C function `Upstream_HID_BotDetectKeyboard_DoLockout`. -/
def Upstream_HID_BotDetectKeyboard_DoLockout (cfg : Config) (s : State) : State :=
  if s.LockoutState = .LOCKOUT_STATE_PERMANENT_ACTIVE then s
  else if s.LockoutState = .LOCKOUT_STATE_TEMPORARY_ACTIVE ∨
      s.LockoutState = .LOCKOUT_STATE_TEMPORARY_FLASHING then
    { s with LockoutState := .LOCKOUT_STATE_PERMANENT_ACTIVE }
  else
    let s1 := forLoop (fun i (t : State) =>
        { t with KeyDelayFastBinArray := t.KeyDelayFastBinArray.set i 0,
                 KeyDowntimeFastBinArray := t.KeyDowntimeFastBinArray.set i 0 })
      0 cfg.KEYBOARD_BOTDETECT_FAST_BIN_COUNT s
    let s2 := forLoop (fun i (t : State) =>
        { t with KeyDelaySlowBinArray := t.KeyDelaySlowBinArray.set i 0,
                 KeyDowntimeSlowBinArray := t.KeyDowntimeSlowBinArray.set i 0 })
      0 cfg.KEYBOARD_BOTDETECT_SLOW_BIN_COUNT s1
    LED_SetState .LED_STATUS_FLASH_BOTDETECT
      { s2 with TemporaryLockoutTimeMs := 0, LockoutState := .LOCKOUT_STATE_TEMPORARY_ACTIVE }

/-- The C function `Upstream_HID_BotDetectKeyboard_RolloverCheck`: its return value and
the report buffer after the call. -/
def Upstream_HID_BotDetectKeyboard_RolloverCheck (s : State) (keyboardInData : List Nat) :
    Nat × List Nat :=
  let i := breakLoop (fun i => keyboardInData.getD i 0 == KEY_ROLLOVER) 2
    (HID_KEYBOARD_INPUT_DATA_LEN - 2)
  if i ≥ HID_KEYBOARD_INPUT_DATA_LEN then (0, keyboardInData)
  else if hostSuppressed s then (1, zeroFill HID_KEYBOARD_INPUT_DATA_LEN keyboardInData)
  else (1, copyBytes HID_KEYBOARD_INPUT_DATA_LEN s.OldKeyboardInData keyboardInData)

/-- One iteration of the modifier loop (lines 96-108) on the pair
`(tempModifier, state)`. -/
def modifierStep (cfg : Config) (clk : Nat → Nat) (i : Nat) (ts : Nat × State) :
    Option (Nat × State) :=
  let tempModifier := ts.1
  let down := if tempModifier % 2 = 1 ∧ ts.2.OldKeyboardInData.getD 0 0 % 2 = 0
    then Upstream_HID_BotDetectKeyboard_KeyDown cfg clk ((cfg.KEY_MODIFIER_BASE + i) % 256) ts.2
    else some ts.2
  match down with
  | none => none
  | some s1 =>
    let up := if tempModifier % 2 = 0 ∧ s1.OldKeyboardInData.getD 0 0 % 2 = 1
      then Upstream_HID_BotDetectKeyboard_KeyUp cfg clk ((cfg.KEY_MODIFIER_BASE + i) % 256) s1
      else some s1
    match up with
    | none => none
    | some s2 =>
      some (tempModifier / 2,
        { s2 with OldKeyboardInData :=
            s2.OldKeyboardInData.set 0 (s2.OldKeyboardInData.getD 0 0 / 2) })

/-- One iteration of the key-down scan (lines 112-125). -/
def keyDownScanStep (cfg : Config) (clk : Nat → Nat) (keyboardInData : List Nat) (i : Nat)
    (s : State) : Option State :=
  if keyboardInData.getD i 0 ≥ cfg.KEY_A then
    let j := breakLoop (fun j => keyboardInData.getD i 0 == s.OldKeyboardInData.getD j 0) 2
      (HID_KEYBOARD_INPUT_DATA_LEN - 2)
    if j ≥ HID_KEYBOARD_INPUT_DATA_LEN then
      Upstream_HID_BotDetectKeyboard_KeyDown cfg clk (keyboardInData.getD i 0) s
    else some s
  else some s

/-- One iteration of the key-up scan (lines 128-141). -/
def keyUpScanStep (cfg : Config) (clk : Nat → Nat) (keyboardInData : List Nat) (i : Nat)
    (s : State) : Option State :=
  if s.OldKeyboardInData.getD i 0 ≥ cfg.KEY_A then
    let j := breakLoop (fun j => s.OldKeyboardInData.getD i 0 == keyboardInData.getD j 0) 2
      (HID_KEYBOARD_INPUT_DATA_LEN - 2)
    if j ≥ HID_KEYBOARD_INPUT_DATA_LEN then
      Upstream_HID_BotDetectKeyboard_KeyUp cfg clk (s.OldKeyboardInData.getD i 0) s
    else some s
  else some s

/-- Lines 94-141: the modifier loop, the key-down scan and the key-up scan. -/
def applyReportEvents (cfg : Config) (clk : Nat → Nat) (keyboardInData : List Nat) (s : State) :
    Option State :=
  match forLoopM (modifierStep cfg clk) 0 8 (keyboardInData.getD 0 0, s) with
  | none => none
  | some ts =>
    match forLoopM (keyDownScanStep cfg clk keyboardInData) 2 (HID_KEYBOARD_INPUT_DATA_LEN - 2) ts.2 with
    | none => none
    | some s2 =>
      forLoopM (keyUpScanStep cfg clk keyboardInData) 2 (HID_KEYBOARD_INPUT_DATA_LEN - 2) s2

/-- The fast-bin scan (lines 144-155), from index `i` for `n` iterations. -/
def fastBinScan (cfg : Config) : Nat → Nat → State → State
  | _, 0, s => s
  | i, n + 1, s =>
    if s.KeyDelayFastBinArray.getD i 0 > cfg.KEYBOARD_BOTDETECT_LOCKOUT_BIN_THRESHOLD ∨
        s.KeyDowntimeFastBinArray.getD i 0 > cfg.KEYBOARD_BOTDETECT_LOCKOUT_BIN_THRESHOLD
    then Upstream_HID_BotDetectKeyboard_DoLockout cfg s
    else fastBinScan cfg (i + 1) n s

/-- The slow-bin scan (lines 156-167), from index `i` for `n` iterations. -/
def slowBinScan (cfg : Config) : Nat → Nat → State → State
  | _, 0, s => s
  | i, n + 1, s =>
    if s.KeyDelaySlowBinArray.getD i 0 > cfg.KEYBOARD_BOTDETECT_LOCKOUT_BIN_THRESHOLD ∨
        s.KeyDowntimeSlowBinArray.getD i 0 > cfg.KEYBOARD_BOTDETECT_LOCKOUT_BIN_THRESHOLD
    then Upstream_HID_BotDetectKeyboard_DoLockout cfg s
    else slowBinScan cfg (i + 1) n s

/-- Lines 143-167: the fast-bin scan followed by the slow-bin scan. -/
def checkBins (cfg : Config) (s : State) : State :=
  slowBinScan cfg 0 cfg.KEYBOARD_BOTDETECT_SLOW_BIN_COUNT
    (fastBinScan cfg 0 cfg.KEYBOARD_BOTDETECT_FAST_BIN_COUNT s)

/-- Lines 169-173: copy the report into the shadow. -/
def updateShadow (keyboardInData : List Nat) (s : State) : State :=
  { s with OldKeyboardInData :=
      copyBytes HID_KEYBOARD_INPUT_DATA_LEN keyboardInData s.OldKeyboardInData }

/-- The C function `Upstream_HID_BotDetectKeyboard`: the state after the call and the
report buffer handed on to the host; `none` when a `while (1);` is reached. -/
def Upstream_HID_BotDetectKeyboard (cfg : Config) (clk : Nat → Nat) (keyboardInData : List Nat)
    (s : State) : Option (State × List Nat) :=
  let rc := Upstream_HID_BotDetectKeyboard_RolloverCheck s keyboardInData
  if rc.1 ≠ 0 then some (s, rc.2)
  else
    match applyReportEvents cfg clk keyboardInData s with
    | none => none
    | some s1 =>
      let s2 := updateShadow keyboardInData (checkBins cfg s1)
      some (s2, if hostSuppressed s2 then zeroFill HID_KEYBOARD_INPUT_DATA_LEN keyboardInData
                else keyboardInData)

/-! ## Mouse -/

/-- The loop `for (i = hi; i > 0; i--) body(i)`. -/
def forLoopDown {σ : Type} (body : Nat → σ → σ) : Nat → σ → σ
  | 0, s => s
  | i + 1, s => forLoopDown body i (body (i + 1) s)

/-- The C function `Upstream_HID_BotDetectMouse_DoLockout`. -/
def Upstream_HID_BotDetectMouse_DoLockout (cfg : Config) (s : State) : State :=
  if s.LockoutState = .LOCKOUT_STATE_PERMANENT_ACTIVE then s
  else if s.LockoutState = .LOCKOUT_STATE_TEMPORARY_ACTIVE ∨
      s.LockoutState = .LOCKOUT_STATE_TEMPORARY_FLASHING then
    { s with LockoutState := .LOCKOUT_STATE_PERMANENT_ACTIVE }
  else
    LED_SetState .LED_STATUS_FLASH_BOTDETECT
      { s with MouseVelocityHistory :=
                 zeroFill cfg.MOUSE_BOTDETECT_VELOCITY_HISTORY_SIZE s.MouseVelocityHistory,
               ConstantAccelerationCounter := 0,
               TemporaryLockoutTimeMs := 0,
               LockoutState := .LOCKOUT_STATE_TEMPORARY_ACTIVE }

/-- The C function `Upstream_HID_BotDetectMouse_AccelEventStart`. -/
def Upstream_HID_BotDetectMouse_AccelEventStart (clk : Nat → Nat) (rawAcceleration : Int)
    (s : State) : State :=
  { s with TickReads := s.TickReads + 1,
           AccelerationEventStartTime := HAL_GetTick clk s,
           AccelerationEventPolarityActive := if rawAcceleration > 0 then 1 else -1 }

/-- The C function `Upstream_HID_BotDetectMouse_AccelEventStop`. -/
def Upstream_HID_BotDetectMouse_AccelEventStop (cfg : Config) (accelStopTime : Nat)
    (s : State) : State :=
  let s1 :=
    if sub32 accelStopTime s.AccelerationEventStartTime <
        cfg.MOUSE_BOTDETECT_LOCKOUT_MINIMUM_ACCEL_TIME_MS
    then Upstream_HID_BotDetectMouse_DoLockout cfg s else s
  { s1 with AccelerationEventPolarityActive := 0 }

/-- Line 413: `moveDelay` before the quiescence clamp. The sum and the quotient are
`int` (quotient truncated toward zero), the result is stored in a `uint32_t`. -/
def mouseMoveDelay (cfg : Config) (now : Nat) (s : State) : Nat :=
  ofInt32 (Int.tdiv (toInt32 (sub32 now s.LastMouseMoveTime) + ((cfg.HID_FS_BINTERVAL / 2 : Nat) : Int))
    (cfg.HID_FS_BINTERVAL : Int))

/-- Lines 417-425: the quiescence test. Returns the clamped `moveDelay` and the state. -/
def mouseQuiescence (cfg : Config) (moveDelay : Nat) (s : State) : Nat × State :=
  if moveDelay > cfg.MOUSE_BOTDETECT_MOVE_DELAY_LIMIT then
    let s1 := { s with PreviousRawVelocity := 0 }
    (cfg.MOUSE_BOTDETECT_MOVE_DELAY_LIMIT,
      if s1.AccelerationEventPolarityActive ≠ 0
      then Upstream_HID_BotDetectMouse_AccelEventStop cfg s1.LastMouseMoveTime s1 else s1)
  else (moveDelay, s)

/-- Lines 430-446: start, or stop and restart, an acceleration event. -/
def mouseAccelEvent (cfg : Config) (clk : Nat → Nat) (now : Nat) (rawAcceleration : Int)
    (s : State) : State :=
  if s.AccelerationEventPolarityActive = 0 then
    if rawAcceleration.natAbs > cfg.MOUSE_BOTDETECT_ACCEL_EVENT_THRESHOLD
    then Upstream_HID_BotDetectMouse_AccelEventStart clk rawAcceleration s else s
  else if (s.AccelerationEventPolarityActive = 1 ∧
        rawAcceleration < -(cfg.MOUSE_BOTDETECT_ACCEL_EVENT_THRESHOLD : Int)) ∨
      (s.AccelerationEventPolarityActive = -1 ∧
        rawAcceleration > (cfg.MOUSE_BOTDETECT_ACCEL_EVENT_THRESHOLD : Int)) then
    Upstream_HID_BotDetectMouse_AccelEventStart clk rawAcceleration
      (Upstream_HID_BotDetectMouse_AccelEventStop cfg now s)
  else s

/-- Lines 459-494: the constant-acceleration test on a full velocity history. -/
def mouseConstantAcceleration (cfg : Config) (s : State) : State :=
  let size := cfg.MOUSE_BOTDETECT_VELOCITY_HISTORY_SIZE
  if s.MouseVelocityHistory.getD (size - 1) 0 > 0 then
    let sumNew := forLoop (fun i v => (v + s.MouseVelocityHistory.getD i 0) % 4294967296)
      0 (size / 2) 0
    let newSmoothedVelocity := (sumNew * 8 % 4294967296) / (size / 2)
    let sumOld := forLoop (fun i v => (v + s.MouseVelocityHistory.getD i 0) % 4294967296)
      (size / 2) (size - size / 2) 0
    let oldSmoothedVelocity := (sumOld * 8 % 4294967296) / (size / 2)
    let newSmoothedAcceleration := toInt32 (sub32 newSmoothedVelocity oldSmoothedVelocity)
    let smoothedAccelerationMatchError := toInt32
      ((oldSmoothedVelocity * cfg.MOUSE_BOTDETECT_VELOCITY_MATCH_ERROR % 4294967296) /
        cfg.MOUSE_BOTDETECT_VELOCITY_MATCH_BASE)
    let s1 :=
      if s.PreviousSmoothedAcceleration + smoothedAccelerationMatchError ≥ newSmoothedAcceleration ∧
          s.PreviousSmoothedAcceleration - smoothedAccelerationMatchError ≤ newSmoothedAcceleration
      then
        let c := (s.ConstantAccelerationCounter + 1) % 256
        { s with ConstantAccelerationCounter := c,
                 ConstantAccelerationCounterMax :=
                   if c > s.ConstantAccelerationCounterMax then c
                   else s.ConstantAccelerationCounterMax }
      else { s with ConstantAccelerationCounter := 0 }
    { s1 with PreviousSmoothedAcceleration := newSmoothedAcceleration }
  else s

/-- The C function `Upstream_HID_BotDetectMouse`: the state after the call and the
report buffer handed on to the host. A zero divisor in `velocity / moveDelay` yields
quotient 0 here. -/
def Upstream_HID_BotDetectMouse (cfg : Config) (clk : Nat → Nat) (mouseInData : List Nat)
    (s : State) : State × List Nat :=
  let now := HAL_GetTick clk s
  let s0 := { s with TickReads := s.TickReads + 1 }
  let mouseX := toInt8 (mouseInData.getD 1 0)
  let mouseY := toInt8 (mouseInData.getD 2 0)
  let velocity := cfg.MouseRawVelocity mouseX mouseY % 4294967296
  let q := mouseQuiescence cfg (mouseMoveDelay cfg now s0) s0
  let moveDelay := q.1
  let rawAcceleration := toInt32 (sub32 velocity q.2.PreviousRawVelocity)
  let s2 := { q.2 with PreviousRawVelocity := velocity }
  let velocity1 := velocity / moveDelay
  let s3 := mouseAccelEvent cfg clk now rawAcceleration s2
  if velocity1 ≠ 0 then
    let hist := forLoopDown (fun i (h : List Nat) => h.set i (h.getD (i - 1) 0))
      (cfg.MOUSE_BOTDETECT_VELOCITY_HISTORY_SIZE - 1) s3.MouseVelocityHistory
    let s4 := { s3 with LastMouseMoveTime := now,
                        MouseVelocityHistory := hist.set 0 (velocity1 % 65536) }
    let s5 := mouseConstantAcceleration cfg s4
    (s5, if hostSuppressed s5 then zeroFill cfg.HID_MOUSE_INPUT_DATA_LEN mouseInData
         else mouseInData)
  else
    let data := (mouseInData.set 1 0).set 2 0
    (s3, if hostSuppressed s3 then zeroFill cfg.HID_MOUSE_INPUT_DATA_LEN data else data)

/-! ## Lockout timer -/

/-- The C function `Upstream_HID_BotDetect_Systick`. The test
`TemporaryLockoutTimeMs++ > LIMIT` compares the value before the increment. -/
def Upstream_HID_BotDetect_Systick (cfg : Config) (s : State) : State :=
  if s.LockoutState = .LOCKOUT_STATE_TEMPORARY_ACTIVE then
    let s1 := { s with TemporaryLockoutTimeMs := (s.TemporaryLockoutTimeMs + 1) % 4294967296 }
    if s.TemporaryLockoutTimeMs > cfg.BOTDETECT_TEMPORARY_LOCKOUT_TIME_MS then
      { s1 with LockoutState := .LOCKOUT_STATE_TEMPORARY_FLASHING }
    else s1
  else if s.LockoutState = .LOCKOUT_STATE_TEMPORARY_FLASHING then
    let s1 := { s with TemporaryLockoutTimeMs := (s.TemporaryLockoutTimeMs + 1) % 4294967296 }
    if s.TemporaryLockoutTimeMs > cfg.BOTDETECT_TEMPORARY_LOCKOUT_FLASH_TIME_MS then
      { LED_SetState .LED_STATUS_OFF s1 with LockoutState := .LOCKOUT_STATE_INACTIVE }
    else s1
  else s

/-! ## Sample constants and states used to evaluate the definitions -/

/-- Integer square root by upward search: `isqrtFrom n fuel k` is the largest `j` with
`k ≤ j ≤ k + fuel` and `j * j ≤ n` (for `k * k ≤ n`). -/
def isqrtFrom (n : Nat) : Nat → Nat → Nat
  | 0, k => k
  | fuel + 1, k => if (k + 1) * (k + 1) ≤ n then isqrtFrom n fuel (k + 1) else k

/-- The constants of the end-to-end scenarios of the specification, completed with the
usual HID values (`KEY_A = 4`, modifier codes from `0xE0`, 4-byte mouse reports) and an
integer stand-in for the float velocity, `floor (8 * sqrt (x*x + y*y))`. -/
def sampleConfig : Config where
  KEY_A := 4
  KEY_MODIFIER_BASE := 224
  HID_MOUSE_INPUT_DATA_LEN := 4
  HID_FS_BINTERVAL := 10
  KEYBOARD_BOTDETECT_FAST_BIN_WIDTH_MS := 8
  KEYBOARD_BOTDETECT_FAST_BIN_COUNT := 8
  KEYBOARD_BOTDETECT_SLOW_BIN_WIDTH_MS := 32
  KEYBOARD_BOTDETECT_SLOW_BIN_COUNT := 8
  KEYBOARD_BOTDETECT_FAST_BIN_DRAIN_DIVIDER := 4
  KEYBOARD_BOTDETECT_SLOW_BIN_DRAIN_DIVIDER := 4
  KEYBOARD_BOTDETECT_LOCKOUT_BIN_THRESHOLD := 5
  KEYBOARD_BOTDETECT_MAX_ACTIVE_KEYS := 14
  BOTDETECT_TEMPORARY_LOCKOUT_TIME_MS := 3000
  BOTDETECT_TEMPORARY_LOCKOUT_FLASH_TIME_MS := 5000
  MOUSE_BOTDETECT_MOVE_DELAY_LIMIT := 10
  MOUSE_BOTDETECT_ACCEL_EVENT_THRESHOLD := 20
  MOUSE_BOTDETECT_LOCKOUT_MINIMUM_ACCEL_TIME_MS := 20
  MOUSE_BOTDETECT_VELOCITY_HISTORY_SIZE := 8
  MOUSE_BOTDETECT_VELOCITY_MATCH_ERROR := 6
  MOUSE_BOTDETECT_VELOCITY_MATCH_BASE := 1024
  MouseRawVelocity := fun x y =>
    isqrtFrom (64 * (x.natAbs * x.natAbs + y.natAbs * y.natAbs))
      (64 * (x.natAbs * x.natAbs + y.natAbs * y.natAbs)) 0

/-- The initial state of `sampleConfig` with `LockoutState` replaced. -/
def sampleStateIn (l : LockoutStateTypeDef) : State :=
  { initialState sampleConfig with LockoutState := l }

/-- A clock that always reads 100 ms. -/
def sampleClock : Nat → Nat := fun _ => 100

/-- A report has `0x01` in one of its bytes 2..7. -/
def hasRollover (r : List Nat) : Prop := ∃ i < 8, 2 ≤ i ∧ r.getD i 0 = KEY_ROLLOVER

instance (r : List Nat) : Decidable (hasRollover r) := by
  unfold hasRollover; infer_instance

/-- The fields that no keyboard event touches. -/
def sameOutsideClassifier (s s' : State) : Prop :=
  s'.OldKeyboardInData = s.OldKeyboardInData ∧ s'.LockoutState = s.LockoutState ∧
  s'.TemporaryLockoutTimeMs = s.TemporaryLockoutTimeMs ∧ s'.LED_Log = s.LED_Log

/-- The fields preserved by every step of the three event loops: the lockout state,
its timer, the LED log, the shadow's length and the shadow's bytes 1..7. -/
def eventLoopFrame (s s' : State) : Prop :=
  s'.LockoutState = s.LockoutState ∧ s'.TemporaryLockoutTimeMs = s.TemporaryLockoutTimeMs ∧
  s'.LED_Log = s.LED_Log ∧ s'.OldKeyboardInData.length = s.OldKeyboardInData.length ∧
  ∀ k, 1 ≤ k → s'.OldKeyboardInData.getD k 0 = s.OldKeyboardInData.getD k 0

/-- A sequence of keyboard reports handed one after the other to
`Upstream_HID_BotDetectKeyboard`; `none` when one of the calls never returns. -/
def runKeyboard (cfg : Config) (clk : Nat → Nat) : List (List Nat) → State → Option State
  | [], s => some s
  | r :: rs, s =>
    match Upstream_HID_BotDetectKeyboard cfg clk r s with
    | none => none
    | some p => runKeyboard cfg clk rs p.1

/-- The last report without rollover code of a sequence, or `shadow` when there is none. -/
def lastNonRollover (shadow : List Nat) : List (List Nat) → List Nat
  | [] => shadow
  | r :: rs => lastNonRollover (if hasRollover r then shadow else r) rs

/-- The 1-ms tick delivered `n` times in a row, nothing else happening in between. -/
def runTicks (cfg : Config) : Nat → State → State
  | 0, s => s
  | n + 1, s => runTicks cfg n (Upstream_HID_BotDetect_Systick cfg s)

/-- Some bin of one of the four histograms is strictly greater than
`KEYBOARD_BOTDETECT_LOCKOUT_BIN_THRESHOLD`. -/
def anyBinExceeds (cfg : Config) (s : State) : Prop :=
  (∃ i < cfg.KEYBOARD_BOTDETECT_FAST_BIN_COUNT,
    s.KeyDelayFastBinArray.getD i 0 > cfg.KEYBOARD_BOTDETECT_LOCKOUT_BIN_THRESHOLD ∨
    s.KeyDowntimeFastBinArray.getD i 0 > cfg.KEYBOARD_BOTDETECT_LOCKOUT_BIN_THRESHOLD) ∨
  (∃ i < cfg.KEYBOARD_BOTDETECT_SLOW_BIN_COUNT,
    s.KeyDelaySlowBinArray.getD i 0 > cfg.KEYBOARD_BOTDETECT_LOCKOUT_BIN_THRESHOLD ∨
    s.KeyDowntimeSlowBinArray.getD i 0 > cfg.KEYBOARD_BOTDETECT_LOCKOUT_BIN_THRESHOLD)

instance (cfg : Config) (s : State) : Decidable (anyBinExceeds cfg s) := by
  unfold anyBinExceeds; infer_instance

/-- The lockout trigger rule in the words of the specification: after the events of a
report, invoke the keyboard lockout trigger once if some bin of the four histograms
strictly exceeds the threshold, and do nothing otherwise. -/
def lockoutTriggerRule (cfg : Config) (s : State) : State :=
  if anyBinExceeds cfg s then Upstream_HID_BotDetectKeyboard_DoLockout cfg s else s

/-- A state in permanent lockout (where the histograms keep counting) whose bin 0 of
`KeyDelayFastBinArray` and of `KeyDowntimeFastBinArray` holds 255, with key 4 held
since `t = 100`. -/
def sampleFullBinState : State :=
  { sampleStateIn .LOCKOUT_STATE_PERMANENT_ACTIVE with
    LastKeyDownTime := 100,
    KeyTimerLog := ⟨4, 100⟩ :: List.replicate 13 ⟨0, 0⟩,
    KeyDelayFastBinArray := [255, 0, 0, 0, 0, 0, 0, 0],
    KeyDowntimeFastBinArray := [255, 0, 0, 0, 0, 0, 0, 0] }

/-- The initial state of `sampleConfig` with a fast bin and a slow bin above the
threshold 5. -/
def sampleOverThresholdState : State :=
  { initialState sampleConfig with
    KeyDelayFastBinArray := [6, 0, 0, 0, 0, 0, 0, 0],
    KeyDowntimeSlowBinArray := [0, 7, 0, 0, 0, 0, 0, 0] }

/-- The key codes recorded in `KeyTimerLog` (the records that are not free). -/
def liveCodes (s : State) : List Nat :=
  (s.KeyTimerLog.map (fun e => e.KeyCode)).filter (fun c => c ≠ 0)

/-- The bytes `data[i], ..., data[i + n - 1]` of a report. -/
def keyBytesFrom (data : List Nat) : Nat → Nat → List Nat
  | _, 0 => []
  | i, n + 1 => data.getD i 0 :: keyBytesFrom data (i + 1) n

/-- The key array of a report: its bytes 2..7. -/
def keyBytes (data : List Nat) : List Nat :=
  keyBytesFrom data 2 (HID_KEYBOARD_INPUT_DATA_LEN - 2)

/-- The codes of the key array that stand for a key (`>= KEY_A`). -/
def arrayCodes (cfg : Config) (data : List Nat) : List Nat :=
  (keyBytes data).filter (fun c => c ≥ cfg.KEY_A)

/-- The codes `KEY_MODIFIER_BASE + j` (as `uint8_t`) of the bits set among the `n` low bits
of `b`, bit 0 of `b` standing for modifier number `i`. -/
def modifierCodes (cfg : Config) : Nat → Nat → Nat → List Nat
  | _, 0, _ => []
  | i, n + 1, b =>
    (if b % 2 = 1 then [(cfg.KEY_MODIFIER_BASE + i) % 256] else []) ++
      modifierCodes cfg (i + 1) n (b / 2)

/-- HID semantics of a keyboard report: 8 bytes, and no key code (`>= KEY_A`) repeated
among bytes 2..7. -/
def validReport (cfg : Config) (r : List Nat) : Prop :=
  r.length = HID_KEYBOARD_INPUT_DATA_LEN ∧ (arrayCodes cfg r).Nodup

instance (cfg : Config) (r : List Nat) : Decidable (validReport cfg r) := by
  unfold validReport; infer_instance

/-- The constants are usable key codes: `KEY_A` is not the free-record marker 0 and the
eight modifier codes `KEY_MODIFIER_BASE + i` are non-zero bytes. -/
def validKeyCodes (cfg : Config) : Prop :=
  0 < cfg.KEY_A ∧ 0 < cfg.KEY_MODIFIER_BASE ∧ cfg.KEY_MODIFIER_BASE + 7 < 256

instance (cfg : Config) : Decidable (validKeyCodes cfg) := by
  unfold validKeyCodes; infer_instance

/-- The invariant between two keyboard reports: `KeyTimerLog` holds exactly one record
for each modifier bit set in the shadow and for each key of the shadow's key array. -/
def logMatchesShadow (cfg : Config) (s : State) : Prop :=
  s.KeyTimerLog.length = cfg.KEYBOARD_BOTDETECT_MAX_ACTIVE_KEYS ∧
  s.OldKeyboardInData.length = HID_KEYBOARD_INPUT_DATA_LEN ∧
  (arrayCodes cfg s.OldKeyboardInData).Nodup ∧
  (liveCodes s).Perm
    (modifierCodes cfg 0 8 (s.OldKeyboardInData.getD 0 0) ++ arrayCodes cfg s.OldKeyboardInData)

/-- A state of `sampleConfig` in `INACTIVE` in which both channels have counted:
keyboard histograms and drain counters are non-zero, the mouse velocity history is full
and `ConstantAccelerationCounter` is 5. -/
def sampleBusyState : State :=
  { initialState sampleConfig with
    KeyDelayFastBinArray := [1, 2, 6, 0, 0, 0, 0, 0],
    KeyDowntimeFastBinArray := [0, 3, 0, 0, 0, 0, 0, 0],
    KeyDelaySlowBinArray := [0, 0, 0, 4, 0, 0, 0, 0],
    KeyDowntimeSlowBinArray := [2, 0, 0, 0, 0, 0, 0, 0],
    KeyDelayFastBinDrainDivideCount := 3,
    KeyDowntimeFastBinDrainDivideCount := 2,
    KeyDelaySlowBinDrainDivideCount := 1,
    KeyDowntimeSlowBinDrainDivideCount := 1,
    MouseVelocityHistory := [10, 12, 14, 16, 18, 20, 22, 24],
    ConstantAccelerationCounter := 5 }

/-- Lines 428-510 of `Upstream_HID_BotDetectMouse`: what follows the computation of
`rawAcceleration`, given `now`, the raw `velocity`, the divisor `moveDelay`,
`rawAcceleration` and the state after the quiescence test. -/
def mouseTail (cfg : Config) (clk : Nat → Nat) (mouseInData : List Nat)
    (now velocity moveDelay : Nat) (rawAcceleration : Int) (s : State) : State × List Nat :=
  let s2 := { s with PreviousRawVelocity := velocity }
  let velocity1 := velocity / moveDelay
  let s3 := mouseAccelEvent cfg clk now rawAcceleration s2
  if velocity1 ≠ 0 then
    let hist := forLoopDown (fun i (h : List Nat) => h.set i (h.getD (i - 1) 0))
      (cfg.MOUSE_BOTDETECT_VELOCITY_HISTORY_SIZE - 1) s3.MouseVelocityHistory
    let s4 := { s3 with LastMouseMoveTime := now,
                        MouseVelocityHistory := hist.set 0 (velocity1 % 65536) }
    let s5 := mouseConstantAcceleration cfg s4
    (s5, if hostSuppressed s5 then zeroFill cfg.HID_MOUSE_INPUT_DATA_LEN mouseInData
         else mouseInData)
  else
    let data := (mouseInData.set 1 0).set 2 0
    (s3, if hostSuppressed s3 then zeroFill cfg.HID_MOUSE_INPUT_DATA_LEN data else data)

/-- Lines 409-412 of `Upstream_HID_BotDetectMouse`: the raw velocity of a report. -/
def mouseVelocity (cfg : Config) (mouseInData : List Nat) : Nat :=
  cfg.MouseRawVelocity (toInt8 (mouseInData.getD 1 0)) (toInt8 (mouseInData.getD 2 0)) %
    4294967296

/-- The state of `Upstream_HID_BotDetectMouse` once `now` is read (line 393). -/
def mouseEntry (s : State) : State := { s with TickReads := s.TickReads + 1 }

/-- The value of `moveDelay` at line 429, where it divides `velocity`: line 413 followed
by the quiescence clamp of lines 417-425. -/
def mouseDivisor (cfg : Config) (clk : Nat → Nat) (s : State) : Nat :=
  (mouseQuiescence cfg (mouseMoveDelay cfg (HAL_GetTick clk s) (mouseEntry s)) (mouseEntry s)).1

/-- The state at line 427, after the quiescence test of lines 417-425. -/
def mouseAfterQuiescence (cfg : Config) (clk : Nat → Nat) (s : State) : State :=
  (mouseQuiescence cfg (mouseMoveDelay cfg (HAL_GetTick clk s) (mouseEntry s)) (mouseEntry s)).2

/-- The value of `rawAcceleration` computed at line 427. -/
def mouseRawAcceleration (cfg : Config) (clk : Nat → Nat) (mouseInData : List Nat)
    (s : State) : Int :=
  toInt32 (sub32 (mouseVelocity cfg mouseInData) (mouseAfterQuiescence cfg clk s).PreviousRawVelocity)

/-- A mouse state of `sampleConfig` with an acceleration event of polarity 1 started at
`t = 95` and the last movement at `t = 100`. -/
def sampleIdleMouseState : State :=
  { initialState sampleConfig with
    LastMouseMoveTime := 100,
    AccelerationEventStartTime := 95,
    AccelerationEventPolarityActive := 1,
    PreviousRawVelocity := 64 }

/-- A clock that always reads 205 ms: 105 ms after the last movement of
`sampleIdleMouseState`, which is 11 poll intervals of 10 ms, one more than
`MOUSE_BOTDETECT_MOVE_DELAY_LIMIT = 10`. -/
def sampleIdleClock : Nat → Nat := fun _ => 205

/-- The lockout state is `INACTIVE`, or it is `TEMPORARY_ACTIVE` with no acceleration
event in progress: what the quiescence test leaves when entered in `INACTIVE`. -/
def atMostWarned (s : State) : Prop :=
  s.LockoutState = .LOCKOUT_STATE_INACTIVE ∨
  (s.LockoutState = .LOCKOUT_STATE_TEMPORARY_ACTIVE ∧ s.AccelerationEventPolarityActive = 0)

/-- Line 263 of `KeyDown`: `keyDelay = now - LastKeyDownTime`, for the clock value that
the call reads. -/
def keyDownDelay (clk : Nat → Nat) (s : State) : Nat :=
  sub32 (HAL_GetTick clk s) s.LastKeyDownTime

/-- The initial state of `sampleConfig` with the last key-down 6 ms before the 32-bit
millisecond counter wraps. -/
def sampleWrapState : State :=
  { initialState sampleConfig with LastKeyDownTime := 4294967290 }

/-- A clock that always reads 10 ms: 16 ms after the last key-down of `sampleWrapState`. -/
def sampleWrapClock : Nat → Nat := fun _ => 10

/-- The state a `KeyDown` of `keyCode` leaves when it is the first event after start-up:
the histogram update of lines 263-295 and record 0 of `KeyTimerLog` taken. -/
def firstKeyDownState (cfg : Config) (clk : Nat → Nat) (keyCode : Nat) : State :=
  { keyDownHistogram cfg (clk 0 % 4294967296) { initialState cfg with TickReads := 1 } with
    KeyTimerLog := (initialState cfg).KeyTimerLog.set 0 ⟨keyCode, clk 0 % 4294967296⟩ }

/-- A clock whose readings are 80 ms apart, starting at 1000 ms. -/
def samplePressClock : Nat → Nat := fun k => 1000 + 80 * k

/-- A call of `Upstream_HID_BotDetectKeyboard_KeyDown` or of
`Upstream_HID_BotDetectKeyboard_KeyUp`, with its `uint8_t` argument. -/
inductive KeyEvent where
  | KeyDown (keyCode : Nat)
  | KeyUp (keyCode : Nat)
deriving DecidableEq, Repr

/-- One event applied to the state. -/
def applyEvent (cfg : Config) (clk : Nat → Nat) : KeyEvent → State → Option State
  | .KeyDown c, s => Upstream_HID_BotDetectKeyboard_KeyDown cfg clk c s
  | .KeyUp c, s => Upstream_HID_BotDetectKeyboard_KeyUp cfg clk c s

/-- A list of events applied in order; `none` when one of the calls never returns. -/
def applyEvents (cfg : Config) (clk : Nat → Nat) : List KeyEvent → State → Option State
  | [], s => some s
  | e :: es, s =>
    match applyEvent cfg clk e s with
    | none => none
    | some s1 => applyEvents cfg clk es s1

/-- The event of modifier bit `i` in the words of the specification: a key-down of
`KEY_MODIFIER_BASE + i` (as `uint8_t`) when the bit is 1 in the report and 0 in the
shadow, a key-up when it is 0 in the report and 1 in the shadow, nothing otherwise. -/
def modifierEvent (cfg : Config) (reportByte shadowByte i : Nat) : List KeyEvent :=
  if reportByte / 2 ^ i % 2 = 1 ∧ shadowByte / 2 ^ i % 2 = 0 then
    [.KeyDown ((cfg.KEY_MODIFIER_BASE + i) % 256)]
  else if reportByte / 2 ^ i % 2 = 0 ∧ shadowByte / 2 ^ i % 2 = 1 then
    [.KeyUp ((cfg.KEY_MODIFIER_BASE + i) % 256)]
  else []

/-- The modifier events of bits `i, ..., i + n - 1`, ascending. -/
def modifierEventsFrom (cfg : Config) (reportByte shadowByte : Nat) : Nat → Nat → List KeyEvent
  | _, 0 => []
  | i, n + 1 =>
    modifierEvent cfg reportByte shadowByte i ++
      modifierEventsFrom cfg reportByte shadowByte (i + 1) n

/-- The events of a report against a shadow in the words of the specification: the
modifier events of bits 0..7 ascending; then, for each report slot 2..7 in order, a
key-down of its code iff the code is `>= KEY_A` and in no shadow slot 2..7; then, for each
shadow slot 2..7 in order, a key-up of its code iff the code is `>= KEY_A` and in no
report slot 2..7. -/
def extractEvents (cfg : Config) (report shadow : List Nat) : List KeyEvent :=
  modifierEventsFrom cfg (report.getD 0 0) (shadow.getD 0 0) 0 8 ++
  (((keyBytes report).filter
      (fun c => decide (c ≥ cfg.KEY_A) && decide (c ∉ keyBytes shadow))).map KeyEvent.KeyDown ++
   ((keyBytes shadow).filter
      (fun c => decide (c ≥ cfg.KEY_A) && decide (c ∉ keyBytes report))).map KeyEvent.KeyUp)

/-- The shadow after `n` iterations of `OldKeyboardInData[0] >>= 1` (line 107). -/
def shiftShadowByte : Nat → List Nat → List Nat
  | 0, old => old
  | n + 1, old => shiftShadowByte n (old.set 0 (old.getD 0 0 / 2))

/-- A state of `sampleConfig` in which the shadow holds modifier bit 0 and keys 4 and 5,
with their three records in `KeyTimerLog`. -/
def sampleHeldState : State :=
  { initialState sampleConfig with
    OldKeyboardInData := [1, 0, 4, 5, 0, 0, 0, 0],
    LastKeyDownTime := 50,
    KeyTimerLog := ⟨224, 50⟩ :: ⟨4, 50⟩ :: ⟨5, 50⟩ :: List.replicate 11 ⟨0, 0⟩ }

/-- The keyboard statistics of two states agree: the four histograms, the four drain
counters, `KeyTimerLog`, `LastKeyDownTime` and the number of clock reads. -/
def sameKeyboardStatistics (s t : State) : Prop :=
  t.KeyDelayFastBinArray = s.KeyDelayFastBinArray ∧
  t.KeyDelaySlowBinArray = s.KeyDelaySlowBinArray ∧
  t.KeyDowntimeFastBinArray = s.KeyDowntimeFastBinArray ∧
  t.KeyDowntimeSlowBinArray = s.KeyDowntimeSlowBinArray ∧
  t.KeyDelayFastBinDrainDivideCount = s.KeyDelayFastBinDrainDivideCount ∧
  t.KeyDelaySlowBinDrainDivideCount = s.KeyDelaySlowBinDrainDivideCount ∧
  t.KeyDowntimeFastBinDrainDivideCount = s.KeyDowntimeFastBinDrainDivideCount ∧
  t.KeyDowntimeSlowBinDrainDivideCount = s.KeyDowntimeSlowBinDrainDivideCount ∧
  t.KeyTimerLog = s.KeyTimerLog ∧
  t.LastKeyDownTime = s.LastKeyDownTime ∧
  t.TickReads = s.TickReads

/-- The bin check has nothing left to zero: no bin exceeds the threshold, or the lockout
state is not `INACTIVE`. -/
def binCheckSettled (cfg : Config) (s : State) : Prop :=
  ¬ anyBinExceeds cfg s ∨ s.LockoutState ≠ .LOCKOUT_STATE_INACTIVE

/-- A clock whose successive reads are 16 ms apart: 16, 32, 48, ... -/
def chatterClock : Nat → Nat := fun k => 16 * (k + 1)

/-- Seven keyboard reports, each carrying one key-down more than the one before it: keys
4..9 one by one, then modifier bit 0. -/
def chatterReports : List (List Nat) :=
  [[0, 0, 4, 0, 0, 0, 0, 0], [0, 0, 4, 5, 0, 0, 0, 0], [0, 0, 4, 5, 6, 0, 0, 0],
   [0, 0, 4, 5, 6, 7, 0, 0], [0, 0, 4, 5, 6, 7, 8, 0], [0, 0, 4, 5, 6, 7, 8, 9],
   [1, 0, 4, 5, 6, 7, 8, 9]]

/-- The event is a key-down. -/
def isKeyDown : KeyEvent → Bool
  | .KeyDown _ => true
  | .KeyUp _ => false

/-- The report `r` is 8 bytes without rollover code and carries, against the shadow,
exactly one event, a key-down. -/
def oneKeyDown (cfg : Config) (shadow r : List Nat) : Prop :=
  r.length = HID_KEYBOARD_INPUT_DATA_LEN ∧ ¬ hasRollover r ∧
  (extractEvents cfg r shadow).length = 1 ∧ (extractEvents cfg r shadow).all isKeyDown = true

/-- Every report of the sequence carries exactly one key-down against the report before
it (the first one against `shadow`). -/
def oneKeyDownEach (cfg : Config) : List Nat → List (List Nat) → Prop
  | _, [] => True
  | shadow, r :: rs => oneKeyDown cfg shadow r ∧ oneKeyDownEach cfg r rs

/-- The fast key-delay histogram of 8 bins after `n` key-downs in bin 2 with the drain
firing on every fourth of them: bin 2 holds `n - n / 4`, the other bins 0. -/
def chatterBins (n : Nat) : List Nat := (List.replicate 8 0).set 2 (n - n / 4)

/-- The state of the detector `k` key-downs into the chatter: the fast key-delay
histogram is `chatterBins k`, its drain count is `k mod 4`, the three other histograms are
zero and the lockout state is `INACTIVE`. -/
def chatterState (cfg : Config) (k : Nat) (s : State) : Prop :=
  s.KeyDelayFastBinArray = chatterBins k ∧
  s.KeyDelayFastBinDrainDivideCount = k % 4 ∧
  s.KeyDelaySlowBinArray = List.replicate cfg.KEYBOARD_BOTDETECT_SLOW_BIN_COUNT 0 ∧
  s.KeyDowntimeFastBinArray = List.replicate cfg.KEYBOARD_BOTDETECT_FAST_BIN_COUNT 0 ∧
  s.KeyDowntimeSlowBinArray = List.replicate cfg.KEYBOARD_BOTDETECT_SLOW_BIN_COUNT 0 ∧
  s.LockoutState = .LOCKOUT_STATE_INACTIVE ∧
  s.OldKeyboardInData.length = HID_KEYBOARD_INPUT_DATA_LEN ∧
  s.KeyTimerLog.length = cfg.KEYBOARD_BOTDETECT_MAX_ACTIVE_KEYS

instance (cfg : Config) (shadow r : List Nat) : Decidable (oneKeyDown cfg shadow r) := by
  unfold oneKeyDown; infer_instance

instance oneKeyDownEachDecidable (cfg : Config) (shadow : List Nat) (rs : List (List Nat)) :
    Decidable (oneKeyDownEach cfg shadow rs) := by
  induction rs generalizing shadow with
  | nil => exact isTrue trivial
  | cons r rs ih =>
    unfold oneKeyDownEach
    exact @instDecidableAnd _ _ _ (ih r)

/-- The array subscript that `KeyDown` (lines 263, 265, 280, 281) and `KeyUp` (lines 321,
323, 338, 339) compute from a delay: `true` with `delay / FAST_BIN_WIDTH_MS` on the fast
path, `false` with `(delay % (SLOW_BIN_WIDTH_MS * SLOW_BIN_COUNT)) / SLOW_BIN_WIDTH_MS` on
the slow path. -/
def binSubscript (cfg : Config) (delay : Nat) : Bool × Nat :=
  if delay < cfg.KEYBOARD_BOTDETECT_FAST_BIN_WIDTH_MS * cfg.KEYBOARD_BOTDETECT_FAST_BIN_COUNT then
    (true, delay / cfg.KEYBOARD_BOTDETECT_FAST_BIN_WIDTH_MS)
  else
    (false,
      delay % (cfg.KEYBOARD_BOTDETECT_SLOW_BIN_WIDTH_MS * cfg.KEYBOARD_BOTDETECT_SLOW_BIN_COUNT) /
        cfg.KEYBOARD_BOTDETECT_SLOW_BIN_WIDTH_MS)

/-- A state of `sampleConfig` with key 4 held since `t = 0` and the last key-down at
`t = 0`. -/
def sampleLongHoldState : State :=
  { initialState sampleConfig with
    KeyTimerLog := ⟨4, 0⟩ :: List.replicate 13 ⟨0, 0⟩ }

/-- A clock that always reads `2^32 - 1`, the largest 32-bit tick value. -/
def sampleLastTickClock : Nat → Nat := fun _ => 4294967295

/-! # Theorems -/

/-! ## Loops -/

theorem breakLoop_le (p : Nat → Bool) (n lo : Nat) : breakLoop p lo n ≤ lo + n := by
  induction n generalizing lo with
  | zero => simp [breakLoop]
  | succ n ih =>
    simp only [breakLoop]
    split
    · omega
    · have := ih (lo + 1); omega

theorem breakLoop_ge (p : Nat → Bool) (n lo : Nat) : lo ≤ breakLoop p lo n := by
  induction n generalizing lo with
  | zero => simp [breakLoop]
  | succ n ih =>
    simp only [breakLoop]
    split
    · omega
    · have := ih (lo + 1); omega

theorem breakLoop_found (p : Nat → Bool) (n lo : Nat) (h : breakLoop p lo n < lo + n) :
    p (breakLoop p lo n) = true := by
  induction n generalizing lo with
  | zero => simp [breakLoop] at h
  | succ n ih =>
    simp only [breakLoop] at h ⊢
    split
    · assumption
    · rename_i hp
      rw [if_neg hp] at h
      exact ih (lo + 1) (by omega)

theorem breakLoop_before (p : Nat → Bool) (n lo j : Nat) (h1 : lo ≤ j)
    (h2 : j < breakLoop p lo n) : p j = false := by
  induction n generalizing lo with
  | zero => simp [breakLoop] at h2; omega
  | succ n ih =>
    simp only [breakLoop] at h2
    split at h2
    · omega
    · rename_i hp
      by_cases hj : j = lo
      · subst hj; simpa using hp
      · exact ih (lo + 1) (by omega) h2

theorem breakLoop_lt_iff (p : Nat → Bool) (n lo : Nat) :
    breakLoop p lo n < lo + n ↔ ∃ i, lo ≤ i ∧ i < lo + n ∧ p i = true := by
  constructor
  · intro h
    exact ⟨_, breakLoop_ge p n lo, h, breakLoop_found p n lo h⟩
  · rintro ⟨i, h1, h2, h3⟩
    by_contra hc
    have := breakLoop_before p n lo i h1 (by omega)
    simp [this] at h3

theorem forLoop_set_length {f : Nat → List Nat → Nat} (n lo : Nat) (d : List Nat) :
    (forLoop (fun i d => d.set i (f i d)) lo n d).length = d.length := by
  induction n generalizing lo d with
  | zero => simp [forLoop]
  | succ n ih => simp [forLoop, ih]

theorem forLoop_set_getElem? (f : Nat → Nat) (n lo : Nat) (d : List Nat) (k : Nat) :
    (forLoop (fun i d => d.set i (f i)) lo n d)[k]? =
      if lo ≤ k ∧ k < lo + n ∧ k < d.length then some (f k) else d[k]? := by
  induction n generalizing lo d with
  | zero =>
    simp only [forLoop]
    rw [if_neg (by omega)]
  | succ n ih =>
    simp only [forLoop]
    rw [ih, List.length_set, List.getElem?_set]
    by_cases hk : lo = k
    · subst hk
      by_cases hl : lo < d.length
      · simp [hl]
      · simp [hl]; omega
    · simp only [hk, if_false]
      by_cases h1 : lo + 1 ≤ k ∧ k < lo + 1 + n ∧ k < d.length
      · rw [if_pos h1, if_pos (by omega)]
      · rw [if_neg h1, if_neg (by omega)]

theorem zeroFill_eq (n : Nat) (data : List Nat) (h : data.length = n) :
    zeroFill n data = List.replicate n 0 := by
  apply List.ext_getElem?
  intro k
  unfold zeroFill
  rw [forLoop_set_getElem? (fun _ => 0)]
  by_cases hk : k < n
  · rw [if_pos (by omega)]; simp [hk]
  · rw [if_neg (by omega)]
    rw [List.getElem?_eq_none (by omega), List.getElem?_eq_none (by simp; omega)]

theorem copyBytes_eq (n : Nat) (src dst : List Nat) (h1 : src.length = n) (h2 : dst.length = n) :
    copyBytes n src dst = src := by
  apply List.ext_getElem?
  intro k
  unfold copyBytes
  rw [forLoop_set_getElem? (fun i => src.getD i 0)]
  by_cases hk : k < n
  · rw [if_pos (by omega)]
    rw [List.getD_eq_getElem?_getD, List.getElem?_eq_getElem (by omega)]
    simp
  · rw [if_neg (by omega)]
    rw [List.getElem?_eq_none (by omega), List.getElem?_eq_none (by omega)]


/-! ## Frame lemmas for the keyboard events -/

theorem keyDownHistogram_frame (cfg : Config) (now : Nat) (s : State) :
    (keyDownHistogram cfg now s).OldKeyboardInData = s.OldKeyboardInData ∧
    (keyDownHistogram cfg now s).LockoutState = s.LockoutState ∧
    (keyDownHistogram cfg now s).TemporaryLockoutTimeMs = s.TemporaryLockoutTimeMs ∧
    (keyDownHistogram cfg now s).LED_Log = s.LED_Log ∧
    (keyDownHistogram cfg now s).KeyTimerLog = s.KeyTimerLog := by
  unfold keyDownHistogram
  dsimp only
  split <;> simp

theorem keyUpHistogram_frame (cfg : Config) (d : Nat) (s : State) :
    (keyUpHistogram cfg d s).OldKeyboardInData = s.OldKeyboardInData ∧
    (keyUpHistogram cfg d s).LockoutState = s.LockoutState ∧
    (keyUpHistogram cfg d s).TemporaryLockoutTimeMs = s.TemporaryLockoutTimeMs ∧
    (keyUpHistogram cfg d s).LED_Log = s.LED_Log ∧
    (keyUpHistogram cfg d s).KeyTimerLog = s.KeyTimerLog := by
  unfold keyUpHistogram
  split <;> simp

theorem KeyDown_frame (cfg : Config) (clk : Nat → Nat) (c : Nat) (s s' : State)
    (h : Upstream_HID_BotDetectKeyboard_KeyDown cfg clk c s = some s') :
    sameOutsideClassifier s s' := by
  unfold Upstream_HID_BotDetectKeyboard_KeyDown at h
  simp only at h
  split at h
  · simp at h
  · simp only [Option.some.injEq] at h
    subst h
    rw [sameOutsideClassifier]
    dsimp only
    rw [(keyDownHistogram_frame cfg _ _).1, (keyDownHistogram_frame cfg _ _).2.1,
      (keyDownHistogram_frame cfg _ _).2.2.1, (keyDownHistogram_frame cfg _ _).2.2.2.1]
    exact ⟨rfl, rfl, rfl, rfl⟩

theorem KeyUp_frame (cfg : Config) (clk : Nat → Nat) (c : Nat) (s s' : State)
    (h : Upstream_HID_BotDetectKeyboard_KeyUp cfg clk c s = some s') :
    sameOutsideClassifier s s' := by
  unfold Upstream_HID_BotDetectKeyboard_KeyUp at h
  simp only at h
  split at h
  · simp at h
  · simp only [Option.some.injEq] at h
    subst h
    rw [sameOutsideClassifier, (keyUpHistogram_frame cfg _ _).1, (keyUpHistogram_frame cfg _ _).2.1,
      (keyUpHistogram_frame cfg _ _).2.2.1, (keyUpHistogram_frame cfg _ _).2.2.2.1]
    exact ⟨rfl, rfl, rfl, rfl⟩

theorem forLoopM_invariant {σ : Type} (body : Nat → σ → Option σ) (P : σ → Prop)
    (hstep : ∀ i s s', body i s = some s' → P s → P s') (n lo : Nat) (s s' : σ)
    (h : forLoopM body lo n s = some s') (hs : P s) : P s' := by
  induction n generalizing lo s with
  | zero =>
    simp only [forLoopM, Option.some.injEq] at h
    exact h ▸ hs
  | succ n ih =>
    simp only [forLoopM] at h
    split at h
    · simp at h
    · rename_i s1 hb
      exact ih (lo + 1) s1 h (hstep _ _ _ hb hs)

theorem eventLoopFrame_refl (s : State) : eventLoopFrame s s :=
  ⟨rfl, rfl, rfl, rfl, fun _ _ => rfl⟩

theorem eventLoopFrame_trans {a b c : State} (h1 : eventLoopFrame a b)
    (h2 : eventLoopFrame b c) : eventLoopFrame a c := by
  obtain ⟨a1, a2, a3, a4, a5⟩ := h1
  obtain ⟨b1, b2, b3, b4, b5⟩ := h2
  exact ⟨b1.trans a1, b2.trans a2, b3.trans a3, b4.trans a4,
    fun k hk => (b5 k hk).trans (a5 k hk)⟩

theorem eventLoopFrame_of_same {s s' : State} (h : sameOutsideClassifier s s') :
    eventLoopFrame s s' := by
  obtain ⟨h1, h2, h3, h4⟩ := h
  exact ⟨h2, h3, h4, by rw [h1], fun k _ => by rw [h1]⟩

theorem modifierStep_frame (cfg : Config) (clk : Nat → Nat) (i : Nat) (ts ts' : Nat × State)
    (h : modifierStep cfg clk i ts = some ts') : eventLoopFrame ts.2 ts'.2 := by
  unfold modifierStep at h
  simp only at h
  split at h
  · simp at h
  · rename_i s1 hd
    have f1 : eventLoopFrame ts.2 s1 := by
      split at hd
      · exact eventLoopFrame_of_same (KeyDown_frame _ _ _ _ _ hd)
      · simp only [Option.some.injEq] at hd; subst hd; exact eventLoopFrame_refl _
    split at h
    · simp at h
    · rename_i s2 hu
      have f2 : eventLoopFrame s1 s2 := by
        split at hu
        · exact eventLoopFrame_of_same (KeyUp_frame _ _ _ _ _ hu)
        · simp only [Option.some.injEq] at hu; subst hu; exact eventLoopFrame_refl _
      simp only [Option.some.injEq] at h
      subst h
      refine eventLoopFrame_trans (eventLoopFrame_trans f1 f2) ?_
      refine ⟨rfl, rfl, rfl, by simp, ?_⟩
      intro k hk
      simp only [List.getD_eq_getElem?_getD]
      rw [List.getElem?_set_ne (by omega)]

theorem keyDownScanStep_frame (cfg : Config) (clk : Nat → Nat) (r : List Nat) (i : Nat)
    (s s' : State) (h : keyDownScanStep cfg clk r i s = some s') : eventLoopFrame s s' := by
  unfold keyDownScanStep at h
  simp only at h
  split at h
  · split at h
    · exact eventLoopFrame_of_same (KeyDown_frame _ _ _ _ _ h)
    · simp only [Option.some.injEq] at h; subst h; exact eventLoopFrame_refl _
  · simp only [Option.some.injEq] at h; subst h; exact eventLoopFrame_refl _

theorem keyUpScanStep_frame (cfg : Config) (clk : Nat → Nat) (r : List Nat) (i : Nat)
    (s s' : State) (h : keyUpScanStep cfg clk r i s = some s') : eventLoopFrame s s' := by
  unfold keyUpScanStep at h
  simp only at h
  split at h
  · split at h
    · exact eventLoopFrame_of_same (KeyUp_frame _ _ _ _ _ h)
    · simp only [Option.some.injEq] at h; subst h; exact eventLoopFrame_refl _
  · simp only [Option.some.injEq] at h; subst h; exact eventLoopFrame_refl _

theorem forLoopM_frame {σ : Type} (body : Nat → σ → Option σ) (proj : σ → State)
    (hstep : ∀ i s s', body i s = some s' → eventLoopFrame (proj s) (proj s')) (n lo : Nat)
    (s s' : σ) (h : forLoopM body lo n s = some s') : eventLoopFrame (proj s) (proj s') :=
  forLoopM_invariant body (fun t => eventLoopFrame (proj s) (proj t))
    (fun i a b hb ha => eventLoopFrame_trans ha (hstep i a b hb)) n lo s s' h
    (eventLoopFrame_refl _)

theorem applyReportEvents_frame (cfg : Config) (clk : Nat → Nat) (r : List Nat) (s s' : State)
    (h : applyReportEvents cfg clk r s = some s') : eventLoopFrame s s' := by
  unfold applyReportEvents at h
  split at h
  · simp at h
  · rename_i ts h1
    split at h
    · simp at h
    · rename_i s2 h2
      have f1 := forLoopM_frame (modifierStep cfg clk) Prod.snd
        (fun i a b hb => modifierStep_frame cfg clk i a b hb) _ _ _ _ h1
      have f2 := forLoopM_frame (keyDownScanStep cfg clk r) id
        (fun i a b hb => keyDownScanStep_frame cfg clk r i a b hb) _ _ _ _ h2
      have f3 := forLoopM_frame (keyUpScanStep cfg clk r) id
        (fun i a b hb => keyUpScanStep_frame cfg clk r i a b hb) _ _ _ _ h
      exact eventLoopFrame_trans (eventLoopFrame_trans f1 f2) f3


/-! ## The keyboard entry point, case by case -/

theorem forLoop_invariant {σ : Type} (body : Nat → σ → σ) (P : σ → Prop)
    (hstep : ∀ i s, P s → P (body i s)) (n lo : Nat) (s : σ) (hs : P s) :
    P (forLoop body lo n s) := by
  induction n generalizing lo s with
  | zero => simpa [forLoop] using hs
  | succ n ih =>
    simp only [forLoop]
    exact ih (lo + 1) _ (hstep _ _ hs)

theorem rolloverCheck_of_hasRollover (s : State) (r : List Nat) (h : hasRollover r) :
    Upstream_HID_BotDetectKeyboard_RolloverCheck s r =
      if hostSuppressed s then (1, zeroFill HID_KEYBOARD_INPUT_DATA_LEN r)
      else (1, copyBytes HID_KEYBOARD_INPUT_DATA_LEN s.OldKeyboardInData r) := by
  unfold Upstream_HID_BotDetectKeyboard_RolloverCheck
  have hlt : breakLoop (fun i => r.getD i 0 == KEY_ROLLOVER) 2 (HID_KEYBOARD_INPUT_DATA_LEN - 2) <
      HID_KEYBOARD_INPUT_DATA_LEN := by
    have := (breakLoop_lt_iff (fun i => r.getD i 0 == KEY_ROLLOVER) (HID_KEYBOARD_INPUT_DATA_LEN - 2) 2).2
      (by
        obtain ⟨i, h1, h2, h3⟩ := h
        exact ⟨i, h2, by simp [HID_KEYBOARD_INPUT_DATA_LEN]; omega, by simpa using h3⟩)
    simpa [HID_KEYBOARD_INPUT_DATA_LEN] using this
  simp only []
  rw [if_neg (by omega)]

theorem rolloverCheck_of_not_hasRollover (s : State) (r : List Nat) (h : ¬ hasRollover r) :
    Upstream_HID_BotDetectKeyboard_RolloverCheck s r = (0, r) := by
  unfold Upstream_HID_BotDetectKeyboard_RolloverCheck
  have hge : breakLoop (fun i => r.getD i 0 == KEY_ROLLOVER) 2 (HID_KEYBOARD_INPUT_DATA_LEN - 2) ≥
      HID_KEYBOARD_INPUT_DATA_LEN := by
    by_contra hc
    have := (breakLoop_lt_iff (fun i => r.getD i 0 == KEY_ROLLOVER) (HID_KEYBOARD_INPUT_DATA_LEN - 2) 2).1
      (by simp [HID_KEYBOARD_INPUT_DATA_LEN] at hc ⊢; omega)
    obtain ⟨i, h1, h2, h3⟩ := this
    exact h ⟨i, by simp [HID_KEYBOARD_INPUT_DATA_LEN] at h2; omega, h1, by simpa using h3⟩
  simp only []
  rw [if_pos hge]

theorem Keyboard_of_hasRollover (cfg : Config) (clk : Nat → Nat) (r : List Nat) (s : State)
    (h : hasRollover r) :
    Upstream_HID_BotDetectKeyboard cfg clk r s =
      some (s, if hostSuppressed s then zeroFill HID_KEYBOARD_INPUT_DATA_LEN r
               else copyBytes HID_KEYBOARD_INPUT_DATA_LEN s.OldKeyboardInData r) := by
  unfold Upstream_HID_BotDetectKeyboard
  simp only [rolloverCheck_of_hasRollover s r h]
  split <;> simp

theorem Keyboard_of_not_hasRollover (cfg : Config) (clk : Nat → Nat) (r : List Nat) (s : State)
    (h : ¬ hasRollover r) :
    Upstream_HID_BotDetectKeyboard cfg clk r s =
      match applyReportEvents cfg clk r s with
      | none => none
      | some s1 =>
        some (updateShadow r (checkBins cfg s1),
          if hostSuppressed (updateShadow r (checkBins cfg s1))
          then zeroFill HID_KEYBOARD_INPUT_DATA_LEN r else r) := by
  unfold Upstream_HID_BotDetectKeyboard
  simp only [rolloverCheck_of_not_hasRollover s r h]
  simp

theorem KeyboardDoLockout_Old (cfg : Config) (s : State) :
    (Upstream_HID_BotDetectKeyboard_DoLockout cfg s).OldKeyboardInData = s.OldKeyboardInData := by
  unfold Upstream_HID_BotDetectKeyboard_DoLockout
  split
  · rfl
  · split
    · rfl
    · simp only [LED_SetState]
      have h1 := forLoop_invariant (fun i (t : State) =>
        { t with KeyDelayFastBinArray := t.KeyDelayFastBinArray.set i 0,
                 KeyDowntimeFastBinArray := t.KeyDowntimeFastBinArray.set i 0 })
        (fun t => t.OldKeyboardInData = s.OldKeyboardInData) (fun i t ht => ht)
        cfg.KEYBOARD_BOTDETECT_FAST_BIN_COUNT 0 s rfl
      exact forLoop_invariant (fun i (t : State) =>
        { t with KeyDelaySlowBinArray := t.KeyDelaySlowBinArray.set i 0,
                 KeyDowntimeSlowBinArray := t.KeyDowntimeSlowBinArray.set i 0 })
        (fun t => t.OldKeyboardInData = s.OldKeyboardInData) (fun i t ht => ht)
        cfg.KEYBOARD_BOTDETECT_SLOW_BIN_COUNT 0 _ h1

theorem fastBinScan_Old (cfg : Config) (n i : Nat) (s : State) :
    (fastBinScan cfg i n s).OldKeyboardInData = s.OldKeyboardInData := by
  induction n generalizing i with
  | zero => rfl
  | succ n ih =>
    simp only [fastBinScan]
    split
    · exact KeyboardDoLockout_Old cfg s
    · exact ih (i + 1)

theorem slowBinScan_Old (cfg : Config) (n i : Nat) (s : State) :
    (slowBinScan cfg i n s).OldKeyboardInData = s.OldKeyboardInData := by
  induction n generalizing i with
  | zero => rfl
  | succ n ih =>
    simp only [slowBinScan]
    split
    · exact KeyboardDoLockout_Old cfg s
    · exact ih (i + 1)

theorem checkBins_Old (cfg : Config) (s : State) :
    (checkBins cfg s).OldKeyboardInData = s.OldKeyboardInData := by
  unfold checkBins
  rw [slowBinScan_Old, fastBinScan_Old]

theorem updateShadow_Old (cfg : Config) (clk : Nat → Nat) (r : List Nat) (s s1 : State)
    (hr : r.length = HID_KEYBOARD_INPUT_DATA_LEN)
    (hs : s.OldKeyboardInData.length = HID_KEYBOARD_INPUT_DATA_LEN)
    (h : applyReportEvents cfg clk r s = some s1) :
    (updateShadow r (checkBins cfg s1)).OldKeyboardInData = r := by
  unfold updateShadow
  simp only
  apply copyBytes_eq _ _ _ hr
  rw [checkBins_Old, (applyReportEvents_frame cfg clk r s s1 h).2.2.2.1, hs]

/-! ## Report suppression, rollover passthrough, transparency, shadow -/

theorem length_set_set (d : List Nat) (a b x y : Nat) : ((d.set a x).set b y).length = d.length := by
  simp

/-- C1: when `LockoutState` is `TEMPORARY_ACTIVE` or `PERMANENT_ACTIVE` on return from
`Upstream_HID_BotDetectKeyboard` (report with or without rollover code) or from
`Upstream_HID_BotDetectMouse`, every byte of the outgoing report buffer (8 keyboard bytes,
`HID_MOUSE_INPUT_DATA_LEN` mouse bytes) is 0. -/
theorem C1_locked_report_is_zero (cfg : Config) (clk : Nat → Nat) (s : State) :
    (∀ r s' out, r.length = HID_KEYBOARD_INPUT_DATA_LEN →
      Upstream_HID_BotDetectKeyboard cfg clk r s = some (s', out) →
      (s'.LockoutState = .LOCKOUT_STATE_TEMPORARY_ACTIVE ∨
        s'.LockoutState = .LOCKOUT_STATE_PERMANENT_ACTIVE) →
      out = List.replicate HID_KEYBOARD_INPUT_DATA_LEN 0) ∧
    (∀ m, m.length = cfg.HID_MOUSE_INPUT_DATA_LEN →
      ((Upstream_HID_BotDetectMouse cfg clk m s).1.LockoutState = .LOCKOUT_STATE_TEMPORARY_ACTIVE ∨
        (Upstream_HID_BotDetectMouse cfg clk m s).1.LockoutState = .LOCKOUT_STATE_PERMANENT_ACTIVE) →
      (Upstream_HID_BotDetectMouse cfg clk m s).2 =
        List.replicate cfg.HID_MOUSE_INPUT_DATA_LEN 0) := by
  constructor
  · intro r s' out hr h hl
    have hsup : hostSuppressed s' = true := by
      unfold hostSuppressed; rcases hl with hl | hl <;> simp [hl]
    by_cases hroll : hasRollover r
    · rw [Keyboard_of_hasRollover cfg clk r s hroll] at h
      simp only [Option.some.injEq, Prod.mk.injEq] at h
      obtain ⟨h1, h2⟩ := h
      subst h1
      rw [if_pos hsup] at h2
      rw [← h2]
      exact zeroFill_eq _ _ hr
    · rw [Keyboard_of_not_hasRollover cfg clk r s hroll] at h
      split at h
      · simp at h
      · simp only [Option.some.injEq, Prod.mk.injEq] at h
        obtain ⟨h1, h2⟩ := h
        rw [h1, if_pos hsup] at h2
        rw [← h2]
        exact zeroFill_eq _ _ hr
  · intro m hm hl
    have hsup : hostSuppressed (Upstream_HID_BotDetectMouse cfg clk m s).1 = true := by
      unfold hostSuppressed; rcases hl with hl | hl <;> simp [hl]
    unfold Upstream_HID_BotDetectMouse at hsup ⊢
    simp only at hsup ⊢
    split
    · rename_i hv
      rw [if_pos hv] at hsup
      simp only at hsup
      rw [if_pos hsup]
      exact zeroFill_eq _ _ hm
    · rename_i hv
      rw [if_neg hv] at hsup
      simp only at hsup
      rw [if_pos hsup]
      exact zeroFill_eq _ _ (by rw [length_set_set]; exact hm)

/-- Witness of C1: a key report and a mouse report handed over in permanent lockout
both leave as all-zero buffers. -/
theorem C1_locked_report_is_zero_witness :
    (Upstream_HID_BotDetectKeyboard sampleConfig sampleClock [2, 0, 4, 0, 0, 0, 0, 0]
        (sampleStateIn .LOCKOUT_STATE_PERMANENT_ACTIVE)).map Prod.snd =
      some [0, 0, 0, 0, 0, 0, 0, 0] ∧
    (Upstream_HID_BotDetectMouse sampleConfig sampleClock [1, 3, 4, 0]
        (sampleStateIn .LOCKOUT_STATE_PERMANENT_ACTIVE)).2 = [0, 0, 0, 0] := by
  constructor
  · have hl : (Upstream_HID_BotDetectKeyboard sampleConfig sampleClock [2, 0, 4, 0, 0, 0, 0, 0]
        (sampleStateIn .LOCKOUT_STATE_PERMANENT_ACTIVE)).map (fun p => p.1.LockoutState) =
        some .LOCKOUT_STATE_PERMANENT_ACTIVE := by decide
    cases h : Upstream_HID_BotDetectKeyboard sampleConfig sampleClock [2, 0, 4, 0, 0, 0, 0, 0]
        (sampleStateIn .LOCKOUT_STATE_PERMANENT_ACTIVE) with
    | none => rw [h] at hl; simp at hl
    | some p =>
      rw [h] at hl
      simp only [Option.map_some', Option.some.injEq] at hl
      have := (C1_locked_report_is_zero sampleConfig sampleClock
        (sampleStateIn .LOCKOUT_STATE_PERMANENT_ACTIVE)).1 [2, 0, 4, 0, 0, 0, 0, 0] p.1 p.2 rfl h
        (Or.inr hl)
      simp [this, HID_KEYBOARD_INPUT_DATA_LEN]
  · exact (C1_locked_report_is_zero sampleConfig sampleClock
      (sampleStateIn .LOCKOUT_STATE_PERMANENT_ACTIVE)).2 [1, 3, 4, 0] rfl (Or.inr (by decide))

/-! ## Permanent lockout is terminal -/

theorem KeyboardDoLockout_of_permanent (cfg : Config) (s : State)
    (h : s.LockoutState = .LOCKOUT_STATE_PERMANENT_ACTIVE) :
    Upstream_HID_BotDetectKeyboard_DoLockout cfg s = s := by
  unfold Upstream_HID_BotDetectKeyboard_DoLockout
  rw [if_pos h]

theorem MouseDoLockout_of_permanent (cfg : Config) (s : State)
    (h : s.LockoutState = .LOCKOUT_STATE_PERMANENT_ACTIVE) :
    Upstream_HID_BotDetectMouse_DoLockout cfg s = s := by
  unfold Upstream_HID_BotDetectMouse_DoLockout
  rw [if_pos h]

theorem fastBinScan_of_permanent (cfg : Config) (n i : Nat) (s : State)
    (h : s.LockoutState = .LOCKOUT_STATE_PERMANENT_ACTIVE) : fastBinScan cfg i n s = s := by
  induction n generalizing i with
  | zero => rfl
  | succ n ih =>
    simp only [fastBinScan]
    split
    · exact KeyboardDoLockout_of_permanent cfg s h
    · exact ih (i + 1)

theorem slowBinScan_of_permanent (cfg : Config) (n i : Nat) (s : State)
    (h : s.LockoutState = .LOCKOUT_STATE_PERMANENT_ACTIVE) : slowBinScan cfg i n s = s := by
  induction n generalizing i with
  | zero => rfl
  | succ n ih =>
    simp only [slowBinScan]
    split
    · exact KeyboardDoLockout_of_permanent cfg s h
    · exact ih (i + 1)

theorem checkBins_of_permanent (cfg : Config) (s : State)
    (h : s.LockoutState = .LOCKOUT_STATE_PERMANENT_ACTIVE) : checkBins cfg s = s := by
  unfold checkBins
  rw [fastBinScan_of_permanent cfg _ _ s h, slowBinScan_of_permanent cfg _ _ s h]

theorem AccelEventStop_permanent (cfg : Config) (t : Nat) (s : State)
    (h : s.LockoutState = .LOCKOUT_STATE_PERMANENT_ACTIVE) :
    (Upstream_HID_BotDetectMouse_AccelEventStop cfg t s).LockoutState =
      .LOCKOUT_STATE_PERMANENT_ACTIVE := by
  unfold Upstream_HID_BotDetectMouse_AccelEventStop
  simp only [MouseDoLockout_of_permanent cfg s h, ite_self]
  exact h

theorem mouseQuiescence_permanent (cfg : Config) (d : Nat) (s : State)
    (h : s.LockoutState = .LOCKOUT_STATE_PERMANENT_ACTIVE) :
    (mouseQuiescence cfg d s).2.LockoutState = .LOCKOUT_STATE_PERMANENT_ACTIVE := by
  unfold mouseQuiescence
  split
  · simp only
    split
    · exact AccelEventStop_permanent cfg _ _ h
    · exact h
  · exact h

theorem mouseAccelEvent_permanent (cfg : Config) (clk : Nat → Nat) (now : Nat) (a : Int)
    (s : State) (h : s.LockoutState = .LOCKOUT_STATE_PERMANENT_ACTIVE) :
    (mouseAccelEvent cfg clk now a s).LockoutState = .LOCKOUT_STATE_PERMANENT_ACTIVE := by
  unfold mouseAccelEvent
  split
  · split
    · exact h
    · exact h
  · split
    · exact AccelEventStop_permanent cfg now s h
    · exact h

theorem mouseConstantAcceleration_LockoutState (cfg : Config) (s : State) :
    (mouseConstantAcceleration cfg s).LockoutState = s.LockoutState := by
  unfold mouseConstantAcceleration
  simp only
  split
  · split <;> rfl
  · rfl

theorem Mouse_permanent (cfg : Config) (clk : Nat → Nat) (m : List Nat) (s : State)
    (h : s.LockoutState = .LOCKOUT_STATE_PERMANENT_ACTIVE) :
    (Upstream_HID_BotDetectMouse cfg clk m s).1.LockoutState =
      .LOCKOUT_STATE_PERMANENT_ACTIVE := by
  have h3 : ∀ v a, (mouseAccelEvent cfg clk (HAL_GetTick clk s) a
      { (mouseQuiescence cfg (mouseMoveDelay cfg (HAL_GetTick clk s)
          { s with TickReads := s.TickReads + 1 }) { s with TickReads := s.TickReads + 1 }).2 with
        PreviousRawVelocity := v }).LockoutState = .LOCKOUT_STATE_PERMANENT_ACTIVE := by
    intro v a
    apply mouseAccelEvent_permanent
    exact mouseQuiescence_permanent cfg _ { s with TickReads := s.TickReads + 1 } h
  unfold Upstream_HID_BotDetectMouse
  simp only
  split
  · simp only [mouseConstantAcceleration_LockoutState]
    exact h3 _ _
  · exact h3 _ _

theorem Systick_of_permanent (cfg : Config) (s : State)
    (h : s.LockoutState = .LOCKOUT_STATE_PERMANENT_ACTIVE) :
    Upstream_HID_BotDetect_Systick cfg s = s := by
  unfold Upstream_HID_BotDetect_Systick
  rw [if_neg (by rw [h]; decide), if_neg (by rw [h]; decide)]

/-- C2: `LOCKOUT_STATE_PERMANENT_ACTIVE` is terminal. From a state in permanent lockout, a
keyboard report, a mouse report, the 1-ms tick and either lockout trigger all leave
`LockoutState = LOCKOUT_STATE_PERMANENT_ACTIVE`. -/
theorem C2_permanent_is_terminal (cfg : Config) (clk : Nat → Nat) (s : State)
    (h : s.LockoutState = .LOCKOUT_STATE_PERMANENT_ACTIVE) :
    (∀ r p, Upstream_HID_BotDetectKeyboard cfg clk r s = some p →
      p.1.LockoutState = .LOCKOUT_STATE_PERMANENT_ACTIVE) ∧
    (∀ m, (Upstream_HID_BotDetectMouse cfg clk m s).1.LockoutState =
      .LOCKOUT_STATE_PERMANENT_ACTIVE) ∧
    (Upstream_HID_BotDetect_Systick cfg s).LockoutState = .LOCKOUT_STATE_PERMANENT_ACTIVE ∧
    (Upstream_HID_BotDetectKeyboard_DoLockout cfg s).LockoutState =
      .LOCKOUT_STATE_PERMANENT_ACTIVE ∧
    (Upstream_HID_BotDetectMouse_DoLockout cfg s).LockoutState =
      .LOCKOUT_STATE_PERMANENT_ACTIVE := by
  refine ⟨?_, fun m => Mouse_permanent cfg clk m s h, ?_, ?_, ?_⟩
  · intro r p hp
    by_cases hroll : hasRollover r
    · rw [Keyboard_of_hasRollover cfg clk r s hroll] at hp
      simp only [Option.some.injEq] at hp
      rw [← hp]; exact h
    · rw [Keyboard_of_not_hasRollover cfg clk r s hroll] at hp
      split at hp
      · simp at hp
      · rename_i s1 he
        simp only [Option.some.injEq] at hp
        have h1 : s1.LockoutState = .LOCKOUT_STATE_PERMANENT_ACTIVE := by
          rw [(applyReportEvents_frame cfg clk r s s1 he).1]; exact h
        rw [← hp, checkBins_of_permanent cfg s1 h1]
        exact h1
  · rw [Systick_of_permanent cfg s h]; exact h
  · rw [KeyboardDoLockout_of_permanent cfg s h]; exact h
  · rw [MouseDoLockout_of_permanent cfg s h]; exact h

/-- Witness of C2: in permanent lockout a key report with a key and a modifier pressed
is processed to the end and the state is still permanent lockout, as it is after a mouse
report, a tick and both triggers. -/
theorem C2_permanent_is_terminal_witness :
    (Upstream_HID_BotDetectKeyboard sampleConfig sampleClock [2, 0, 4, 0, 0, 0, 0, 0]
        (sampleStateIn .LOCKOUT_STATE_PERMANENT_ACTIVE)).map (fun p => p.1.LockoutState) =
      some .LOCKOUT_STATE_PERMANENT_ACTIVE ∧
    (Upstream_HID_BotDetectMouse sampleConfig sampleClock [1, 3, 4, 0]
        (sampleStateIn .LOCKOUT_STATE_PERMANENT_ACTIVE)).1.LockoutState =
      .LOCKOUT_STATE_PERMANENT_ACTIVE ∧
    (Upstream_HID_BotDetect_Systick sampleConfig
        (sampleStateIn .LOCKOUT_STATE_PERMANENT_ACTIVE)).LockoutState =
      .LOCKOUT_STATE_PERMANENT_ACTIVE := by
  have hc := C2_permanent_is_terminal sampleConfig sampleClock
    (sampleStateIn .LOCKOUT_STATE_PERMANENT_ACTIVE) rfl
  refine ⟨?_, hc.2.1 _, hc.2.2.1⟩
  cases h : Upstream_HID_BotDetectKeyboard sampleConfig sampleClock [2, 0, 4, 0, 0, 0, 0, 0]
      (sampleStateIn .LOCKOUT_STATE_PERMANENT_ACTIVE) with
  | none => exact absurd h (by decide)
  | some p => simp [hc.1 _ p h]

/-! ## Shadow, rollover passthrough, transparency -/

theorem Keyboard_shadow (cfg : Config) (clk : Nat → Nat) (r : List Nat) (s : State)
    (p : State × List Nat) (hr : r.length = HID_KEYBOARD_INPUT_DATA_LEN)
    (hs : s.OldKeyboardInData.length = HID_KEYBOARD_INPUT_DATA_LEN)
    (h : Upstream_HID_BotDetectKeyboard cfg clk r s = some p) :
    p.1.OldKeyboardInData = if hasRollover r then s.OldKeyboardInData else r := by
  by_cases hroll : hasRollover r
  · rw [Keyboard_of_hasRollover cfg clk r s hroll] at h
    simp only [Option.some.injEq] at h
    rw [if_pos hroll, ← h]
  · rw [Keyboard_of_not_hasRollover cfg clk r s hroll] at h
    split at h
    · simp at h
    · rename_i s1 he
      simp only [Option.some.injEq] at h
      rw [if_neg hroll, ← h]
      exact updateShadow_Old cfg clk r s s1 hr hs he

/-- C3: after any sequence of keyboard reports, each processed to the end by
`Upstream_HID_BotDetectKeyboard`, the shadow `OldKeyboardInData` equals byte for byte the
last report without rollover code, as it was received; reports with a rollover code leave
the shadow as it was. -/
theorem C3_shadow_is_last_non_rollover (cfg : Config) (clk : Nat → Nat)
    (reports : List (List Nat)) (s s' : State)
    (hs : s.OldKeyboardInData.length = HID_KEYBOARD_INPUT_DATA_LEN)
    (hr : ∀ r ∈ reports, r.length = HID_KEYBOARD_INPUT_DATA_LEN)
    (h : runKeyboard cfg clk reports s = some s') :
    s'.OldKeyboardInData = lastNonRollover s.OldKeyboardInData reports := by
  induction reports generalizing s with
  | nil =>
    simp only [runKeyboard, Option.some.injEq] at h
    rw [← h]; rfl
  | cons r rs ih =>
    simp only [runKeyboard] at h
    split at h
    · simp at h
    · rename_i p hp
      have hsh := Keyboard_shadow cfg clk r s p (hr r (List.mem_cons_self _ _)) hs hp
      have hlen : p.1.OldKeyboardInData.length = HID_KEYBOARD_INPUT_DATA_LEN := by
        rw [hsh]; split
        · exact hs
        · exact hr r (List.mem_cons_self _ _)
      have := ih p.1 hlen (fun x hx => hr x (List.mem_cons_of_mem _ hx)) h
      rw [this, hsh]
      rfl

/-- Witness of C3: in temporary lockout (the host receives zeros) a report with modifier
byte 3 and key 4, then a rollover report, leave the shadow equal to the first report. -/
theorem C3_shadow_is_last_non_rollover_witness :
    (runKeyboard sampleConfig sampleClock
        [[3, 0, 4, 0, 0, 0, 0, 0], [3, 0, 1, 1, 1, 1, 1, 1]]
        (sampleStateIn .LOCKOUT_STATE_TEMPORARY_ACTIVE)).map (fun t => t.OldKeyboardInData) =
      some [3, 0, 4, 0, 0, 0, 0, 0] := by
  cases h : runKeyboard sampleConfig sampleClock
      [[3, 0, 4, 0, 0, 0, 0, 0], [3, 0, 1, 1, 1, 1, 1, 1]]
      (sampleStateIn .LOCKOUT_STATE_TEMPORARY_ACTIVE) with
  | none => exact absurd h (by decide)
  | some t =>
    have := C3_shadow_is_last_non_rollover sampleConfig sampleClock
      [[3, 0, 4, 0, 0, 0, 0, 0], [3, 0, 1, 1, 1, 1, 1, 1]]
      (sampleStateIn .LOCKOUT_STATE_TEMPORARY_ACTIVE) t rfl (by decide) h
    rw [Option.map_some', this]
    decide

/-- C4: a keyboard report with `0x01` in one of bytes 2..7, received while the host is not
suppressed, returns with the outgoing buffer equal to the shadow of the previous call and
with the whole state unchanged: no event is applied, and the shadow, `KeyTimerLog`, the
four histograms, the drain counters, `LastKeyDownTime`, `LockoutState` and
`TemporaryLockoutTimeMs` are as before. -/
theorem C4_rollover_passthrough (cfg : Config) (clk : Nat → Nat) (r : List Nat) (s : State)
    (hr : r.length = HID_KEYBOARD_INPUT_DATA_LEN)
    (hs : s.OldKeyboardInData.length = HID_KEYBOARD_INPUT_DATA_LEN)
    (hroll : hasRollover r) (hsup : hostSuppressed s = false) :
    Upstream_HID_BotDetectKeyboard cfg clk r s = some (s, s.OldKeyboardInData) := by
  rw [Keyboard_of_hasRollover cfg clk r s hroll, hsup]
  simp only [Bool.false_eq_true, if_false]
  rw [copyBytes_eq _ _ _ hs hr]

/-- Witness of C4: after the shadow holds `[2, 0, 4, 5, 0, 0, 0, 0]`, a rollover report
is replaced by that shadow. -/
theorem C4_rollover_passthrough_witness :
    Upstream_HID_BotDetectKeyboard sampleConfig sampleClock [2, 0, 1, 1, 1, 1, 1, 1]
        { sampleStateIn .LOCKOUT_STATE_TEMPORARY_FLASHING with
          OldKeyboardInData := [2, 0, 4, 5, 0, 0, 0, 0] } =
      some ({ sampleStateIn .LOCKOUT_STATE_TEMPORARY_FLASHING with
          OldKeyboardInData := [2, 0, 4, 5, 0, 0, 0, 0] }, [2, 0, 4, 5, 0, 0, 0, 0]) :=
  C4_rollover_passthrough sampleConfig sampleClock [2, 0, 1, 1, 1, 1, 1, 1]
    { sampleStateIn .LOCKOUT_STATE_TEMPORARY_FLASHING with
      OldKeyboardInData := [2, 0, 4, 5, 0, 0, 0, 0] } rfl rfl (by decide) rfl

/-- C5: for a keyboard report without rollover code, when `LockoutState` on return is
`INACTIVE` or `TEMPORARY_FLASHING`, the outgoing buffer is the report as received. -/
theorem C5_transparent_when_not_suppressed (cfg : Config) (clk : Nat → Nat) (r : List Nat)
    (s : State) (p : State × List Nat) (hroll : ¬ hasRollover r)
    (h : Upstream_HID_BotDetectKeyboard cfg clk r s = some p)
    (hl : p.1.LockoutState = .LOCKOUT_STATE_INACTIVE ∨
      p.1.LockoutState = .LOCKOUT_STATE_TEMPORARY_FLASHING) :
    p.2 = r := by
  have hsup : hostSuppressed p.1 = false := by
    unfold hostSuppressed; rcases hl with hl | hl <;> simp [hl]
  rw [Keyboard_of_not_hasRollover cfg clk r s hroll] at h
  split at h
  · simp at h
  · simp only [Option.some.injEq] at h
    rw [← h] at hsup ⊢
    simp only at hsup ⊢
    rw [hsup]
    simp

/-- Witness of C5: during the flashing phase a report with a modifier and two keys goes
through unchanged. -/
theorem C5_transparent_when_not_suppressed_witness :
    (Upstream_HID_BotDetectKeyboard sampleConfig sampleClock [2, 0, 4, 5, 0, 0, 0, 0]
        (sampleStateIn .LOCKOUT_STATE_TEMPORARY_FLASHING)).map Prod.snd =
      some [2, 0, 4, 5, 0, 0, 0, 0] := by
  have hl : (Upstream_HID_BotDetectKeyboard sampleConfig sampleClock [2, 0, 4, 5, 0, 0, 0, 0]
      (sampleStateIn .LOCKOUT_STATE_TEMPORARY_FLASHING)).map (fun p => p.1.LockoutState) =
      some .LOCKOUT_STATE_TEMPORARY_FLASHING := by decide
  cases h : Upstream_HID_BotDetectKeyboard sampleConfig sampleClock [2, 0, 4, 5, 0, 0, 0, 0]
      (sampleStateIn .LOCKOUT_STATE_TEMPORARY_FLASHING) with
  | none => rw [h] at hl; simp at hl
  | some p =>
    rw [h] at hl
    simp only [Option.map_some', Option.some.injEq] at hl
    rw [Option.map_some', C5_transparent_when_not_suppressed sampleConfig sampleClock _ _ p
      (by decide) h (Or.inr hl)]

/-! ## The 1-ms tick -/

/-- C9: one call of `Upstream_HID_BotDetect_Systick` makes at most one transition and
adds at most 1 to `TemporaryLockoutTimeMs`. In `TEMPORARY_ACTIVE` it moves to
`TEMPORARY_FLASHING` exactly when the counter (its value when the tick arrives) exceeds
`BOTDETECT_TEMPORARY_LOCKOUT_TIME_MS`; in `TEMPORARY_FLASHING` it moves to `INACTIVE`,
calling `LED_SetState(LED_STATUS_OFF)`, exactly when the counter exceeds
`BOTDETECT_TEMPORARY_LOCKOUT_FLASH_TIME_MS`; in both it adds exactly 1 to the 32-bit
counter; in `INACTIVE` and `PERMANENT_ACTIVE` the state is unchanged. -/
theorem C9_tick_transition_rule (cfg : Config) (s : State) :
    (s.LockoutState = .LOCKOUT_STATE_TEMPORARY_ACTIVE →
      (Upstream_HID_BotDetect_Systick cfg s).TemporaryLockoutTimeMs =
        (s.TemporaryLockoutTimeMs + 1) % 4294967296 ∧
      (s.TemporaryLockoutTimeMs + 1 < 4294967296 →
        (Upstream_HID_BotDetect_Systick cfg s).TemporaryLockoutTimeMs =
          s.TemporaryLockoutTimeMs + 1) ∧
      (Upstream_HID_BotDetect_Systick cfg s).LED_Log = s.LED_Log ∧
      (Upstream_HID_BotDetect_Systick cfg s).LockoutState =
        (if s.TemporaryLockoutTimeMs > cfg.BOTDETECT_TEMPORARY_LOCKOUT_TIME_MS
         then .LOCKOUT_STATE_TEMPORARY_FLASHING else .LOCKOUT_STATE_TEMPORARY_ACTIVE)) ∧
    (s.LockoutState = .LOCKOUT_STATE_TEMPORARY_FLASHING →
      (Upstream_HID_BotDetect_Systick cfg s).TemporaryLockoutTimeMs =
        (s.TemporaryLockoutTimeMs + 1) % 4294967296 ∧
      (s.TemporaryLockoutTimeMs + 1 < 4294967296 →
        (Upstream_HID_BotDetect_Systick cfg s).TemporaryLockoutTimeMs =
          s.TemporaryLockoutTimeMs + 1) ∧
      (Upstream_HID_BotDetect_Systick cfg s).LED_Log =
        (if s.TemporaryLockoutTimeMs > cfg.BOTDETECT_TEMPORARY_LOCKOUT_FLASH_TIME_MS
         then s.LED_Log ++ [.LED_STATUS_OFF] else s.LED_Log) ∧
      (Upstream_HID_BotDetect_Systick cfg s).LockoutState =
        (if s.TemporaryLockoutTimeMs > cfg.BOTDETECT_TEMPORARY_LOCKOUT_FLASH_TIME_MS
         then .LOCKOUT_STATE_INACTIVE else .LOCKOUT_STATE_TEMPORARY_FLASHING)) ∧
    (s.LockoutState = .LOCKOUT_STATE_INACTIVE ∨
      s.LockoutState = .LOCKOUT_STATE_PERMANENT_ACTIVE →
      Upstream_HID_BotDetect_Systick cfg s = s) := by
  refine ⟨?_, ?_, ?_⟩
  · intro h
    unfold Upstream_HID_BotDetect_Systick
    rw [if_pos h]
    simp only
    refine ⟨by split <;> rfl, fun hlt => ?_, by split <;> rfl,
      by split <;> first | rfl | exact h⟩
    split <;> exact Nat.mod_eq_of_lt hlt
  · intro h
    unfold Upstream_HID_BotDetect_Systick
    rw [if_neg (by rw [h]; decide), if_pos h]
    simp only [LED_SetState]
    refine ⟨by split <;> rfl, fun hlt => ?_, by split <;> rfl,
      by split <;> first | rfl | exact h⟩
    split <;> exact Nat.mod_eq_of_lt hlt
  · intro h
    unfold Upstream_HID_BotDetect_Systick
    rcases h with h | h
    · rw [if_neg (by rw [h]; decide), if_neg (by rw [h]; decide)]
    · rw [if_neg (by rw [h]; decide), if_neg (by rw [h]; decide)]

/-- Witness of C9: with `BOTDETECT_TEMPORARY_LOCKOUT_TIME_MS = 3000`, a tick arriving in
`TEMPORARY_ACTIVE` with the counter at 3001 moves to `TEMPORARY_FLASHING` and leaves the
counter at 3002; with `BOTDETECT_TEMPORARY_LOCKOUT_FLASH_TIME_MS = 5000`, a tick arriving
in `TEMPORARY_FLASHING` with the counter at 5001 moves to `INACTIVE`; a tick in
`INACTIVE` changes nothing. -/
theorem C9_tick_transition_rule_witness :
    ((Upstream_HID_BotDetect_Systick sampleConfig
        { sampleStateIn .LOCKOUT_STATE_TEMPORARY_ACTIVE with
          TemporaryLockoutTimeMs := 3001 }).TemporaryLockoutTimeMs = 3002 ∧
      (Upstream_HID_BotDetect_Systick sampleConfig
        { sampleStateIn .LOCKOUT_STATE_TEMPORARY_ACTIVE with
          TemporaryLockoutTimeMs := 3001 }).LockoutState = .LOCKOUT_STATE_TEMPORARY_FLASHING) ∧
    (Upstream_HID_BotDetect_Systick sampleConfig
        { sampleStateIn .LOCKOUT_STATE_TEMPORARY_FLASHING with
          TemporaryLockoutTimeMs := 5001 }).LockoutState = .LOCKOUT_STATE_INACTIVE ∧
    Upstream_HID_BotDetect_Systick sampleConfig (sampleStateIn .LOCKOUT_STATE_INACTIVE) =
      sampleStateIn .LOCKOUT_STATE_INACTIVE :=
  ⟨⟨((C9_tick_transition_rule sampleConfig { sampleStateIn .LOCKOUT_STATE_TEMPORARY_ACTIVE with
        TemporaryLockoutTimeMs := 3001 }).1 rfl).2.1 (by decide),
     ((C9_tick_transition_rule sampleConfig { sampleStateIn .LOCKOUT_STATE_TEMPORARY_ACTIVE with
        TemporaryLockoutTimeMs := 3001 }).1 rfl).2.2.2⟩,
   ((C9_tick_transition_rule sampleConfig { sampleStateIn .LOCKOUT_STATE_TEMPORARY_FLASHING with
        TemporaryLockoutTimeMs := 5001 }).2.1 rfl).2.2.2,
   (C9_tick_transition_rule sampleConfig (sampleStateIn .LOCKOUT_STATE_INACTIVE)).2.2
     (Or.inl rfl)⟩

theorem runTicks_add (cfg : Config) (m n : Nat) (s : State) :
    runTicks cfg (m + n) s = runTicks cfg n (runTicks cfg m s) := by
  induction m generalizing s with
  | zero => simp [runTicks]
  | succ m ih =>
    rw [Nat.succ_add]
    simp only [runTicks]
    exact ih _

theorem runTicks_temporary_active (cfg : Config) (n : Nat) (s : State)
    (h : s.LockoutState = .LOCKOUT_STATE_TEMPORARY_ACTIVE)
    (hn : s.TemporaryLockoutTimeMs + n ≤ cfg.BOTDETECT_TEMPORARY_LOCKOUT_TIME_MS + 1)
    (hw : cfg.BOTDETECT_TEMPORARY_LOCKOUT_TIME_MS + 1 < 4294967296) :
    runTicks cfg n s = { s with TemporaryLockoutTimeMs := s.TemporaryLockoutTimeMs + n } := by
  induction n generalizing s with
  | zero => rfl
  | succ n ih =>
    simp only [runTicks]
    have hstep : Upstream_HID_BotDetect_Systick cfg s =
        { s with TemporaryLockoutTimeMs := s.TemporaryLockoutTimeMs + 1 } := by
      unfold Upstream_HID_BotDetect_Systick
      rw [if_pos h]
      simp only
      rw [if_neg (by omega), Nat.mod_eq_of_lt (by omega)]
    rw [hstep, ih { s with TemporaryLockoutTimeMs := s.TemporaryLockoutTimeMs + 1 } h
      (by simp only; omega)]
    simp only [State.mk.injEq, true_and, and_true]
    omega

theorem Systick_leaves_temporary_active (cfg : Config) (s : State)
    (h : s.LockoutState = .LOCKOUT_STATE_TEMPORARY_ACTIVE)
    (ht : s.TemporaryLockoutTimeMs > cfg.BOTDETECT_TEMPORARY_LOCKOUT_TIME_MS) :
    (Upstream_HID_BotDetect_Systick cfg s).LockoutState =
      .LOCKOUT_STATE_TEMPORARY_FLASHING := by
  unfold Upstream_HID_BotDetect_Systick
  rw [if_pos h]
  simp only
  rw [if_pos ht]

/-- C10 does not hold as written: with `BOTDETECT_TEMPORARY_LOCKOUT_TIME_MS = 3000`,
3001 ticks after the keyboard trigger fired in `INACTIVE` the state is still
`TEMPORARY_ACTIVE`, not `TEMPORARY_FLASHING`. -/
theorem C10_counterexample :
    (Upstream_HID_BotDetectKeyboard_DoLockout sampleConfig
        (initialState sampleConfig)).LockoutState = .LOCKOUT_STATE_TEMPORARY_ACTIVE ∧
    (Upstream_HID_BotDetectKeyboard_DoLockout sampleConfig
        (initialState sampleConfig)).TemporaryLockoutTimeMs = 0 ∧
    sampleConfig.BOTDETECT_TEMPORARY_LOCKOUT_TIME_MS = 3000 ∧
    (runTicks sampleConfig 3001 (Upstream_HID_BotDetectKeyboard_DoLockout sampleConfig
        (initialState sampleConfig))).LockoutState ≠ .LOCKOUT_STATE_TEMPORARY_FLASHING := by
  refine ⟨by decide, by decide, rfl, ?_⟩
  rw [runTicks_temporary_active sampleConfig 3001 _ (by decide) (by decide) (by decide)]
  decide

/-- C10 as amended: with `BOTDETECT_TEMPORARY_LOCKOUT_TIME_MS = 3000`, from a state with
`LockoutState = TEMPORARY_ACTIVE` and `TemporaryLockoutTimeMs = 0` and with no further
trigger, the state is `TEMPORARY_ACTIVE` after every number of ticks up to 3001 and is
`TEMPORARY_FLASHING` after exactly 3002 ticks. -/
theorem C10_lockout_timing (cfg : Config) (s : State)
    (hc : cfg.BOTDETECT_TEMPORARY_LOCKOUT_TIME_MS = 3000)
    (hl : s.LockoutState = .LOCKOUT_STATE_TEMPORARY_ACTIVE)
    (ht : s.TemporaryLockoutTimeMs = 0) :
    (∀ n ≤ 3001, (runTicks cfg n s).LockoutState = .LOCKOUT_STATE_TEMPORARY_ACTIVE) ∧
    (runTicks cfg 3002 s).LockoutState = .LOCKOUT_STATE_TEMPORARY_FLASHING := by
  constructor
  · intro n hn
    rw [runTicks_temporary_active cfg n s hl (by omega) (by omega)]
    exact hl
  · rw [show (3002 : Nat) = 3001 + 1 from rfl, runTicks_add,
      runTicks_temporary_active cfg 3001 s hl (by omega) (by omega)]
    simp only [runTicks]
    apply Systick_leaves_temporary_active
    · exact hl
    · simp only; omega

/-- Witness of C10 as amended, at the state the keyboard trigger leaves when it fires in
the initial state: `TEMPORARY_ACTIVE` after 3001 ticks, `TEMPORARY_FLASHING` after 3002. -/
theorem C10_lockout_timing_witness :
    (runTicks sampleConfig 3001 (Upstream_HID_BotDetectKeyboard_DoLockout sampleConfig
        (initialState sampleConfig))).LockoutState = .LOCKOUT_STATE_TEMPORARY_ACTIVE ∧
    (runTicks sampleConfig 3002 (Upstream_HID_BotDetectKeyboard_DoLockout sampleConfig
        (initialState sampleConfig))).LockoutState = .LOCKOUT_STATE_TEMPORARY_FLASHING :=
  ⟨(C10_lockout_timing sampleConfig
      (Upstream_HID_BotDetectKeyboard_DoLockout sampleConfig (initialState sampleConfig))
      rfl (by decide) (by decide)).1 3001 (le_refl _),
   (C10_lockout_timing sampleConfig
      (Upstream_HID_BotDetectKeyboard_DoLockout sampleConfig (initialState sampleConfig))
      rfl (by decide) (by decide)).2⟩

/-! ## Histogram increments -/

theorem incrementAndDrain_no_drain (n div idx : Nat) (bins : List Nat) (cnt : Nat)
    (h : (cnt + 1) % 256 < div) :
    incrementAndDrain n div idx bins cnt =
      (bins.set idx ((bins.getD idx 0 + 1) % 256), (cnt + 1) % 256) := by
  unfold incrementAndDrain
  simp only
  rw [if_neg (by omega)]

theorem getD_set_self (bins : List Nat) (idx v : Nat) (h : idx < bins.length) :
    (bins.set idx v).getD idx 0 = v := by
  rw [List.getD_eq_getElem?_getD, List.getElem?_set_self h]
  rfl

theorem KeyDown_eq (cfg : Config) (clk : Nat → Nat) (c : Nat) (s s' : State)
    (h : Upstream_HID_BotDetectKeyboard_KeyDown cfg clk c s = some s') :
    ∃ i, s' = { keyDownHistogram cfg (HAL_GetTick clk s) { s with TickReads := s.TickReads + 1 } with
      KeyTimerLog := (keyDownHistogram cfg (HAL_GetTick clk s)
        { s with TickReads := s.TickReads + 1 }).KeyTimerLog.set i ⟨c, HAL_GetTick clk s⟩ } := by
  unfold Upstream_HID_BotDetectKeyboard_KeyDown at h
  simp only at h
  split at h
  · simp at h
  · simp only [Option.some.injEq] at h
    exact ⟨_, h.symm⟩

theorem KeyUp_eq (cfg : Config) (clk : Nat → Nat) (c : Nat) (s s' : State)
    (h : Upstream_HID_BotDetectKeyboard_KeyUp cfg clk c s = some s') :
    ∃ l, s' = keyUpHistogram cfg (keyUpDowntime cfg clk c s)
      { s with KeyTimerLog := l, TickReads := s.TickReads + 1 } := by
  unfold Upstream_HID_BotDetectKeyboard_KeyUp at h
  simp only at h
  split at h
  · simp at h
  · simp only [Option.some.injEq] at h
    exact ⟨_, h.symm⟩

theorem fast_index_lt {d w n : Nat} (h : d < w * n) : d / w < n := by
  have hw : 0 < w := by
    rcases Nat.eq_zero_or_pos w with h0 | h0
    · subst h0; simp at h
    · exact h0
  exact (Nat.div_lt_iff_lt_mul hw).2 (by rw [Nat.mul_comm] at h; exact h)

theorem slow_index_lt {d w n : Nat} (h : 0 < w * n) : d % (w * n) / w < n :=
  fast_index_lt (Nat.mod_lt _ h)

/-- C7 does not hold as written: in a state whose bin 0 of `KeyDelayFastBinArray` holds
255, a `KeyDown` that selects bin 0 (key delay 0) and does not fire the drain (the drain
count goes from 0 to 1, the divider is 4) leaves 0 in that bin, not 255. -/
theorem C7_counterexample :
    sub32 (HAL_GetTick sampleClock (sampleStateIn .LOCKOUT_STATE_PERMANENT_ACTIVE)) 100 /
      sampleConfig.KEYBOARD_BOTDETECT_FAST_BIN_WIDTH_MS = 0 ∧
    (Upstream_HID_BotDetectKeyboard_KeyDown sampleConfig sampleClock 4
      { sampleStateIn .LOCKOUT_STATE_PERMANENT_ACTIVE with
        LastKeyDownTime := 100,
        KeyDelayFastBinArray := [255, 0, 0, 0, 0, 0, 0, 0] }).map
      (fun t => (t.KeyDelayFastBinArray, t.KeyDelayFastBinDrainDivideCount)) =
      some ([0, 0, 0, 0, 0, 0, 0, 0], 1) := by
  decide

/-- C7 as amended: the histogram increments are plain `uint8_t` increments and wrap. When
the event does not fire a drain, the bin selected by a `KeyDown` (in `KeyDelayFastBinArray`
or `KeyDelaySlowBinArray`) or by a `KeyUp` (in `KeyDowntimeFastBinArray` or
`KeyDowntimeSlowBinArray`) holds its old value plus 1 modulo 256 after the event: a bin
holding 255 holds 0. -/
theorem C7_increment_wraps (cfg : Config) (clk : Nat → Nat) (keyCode : Nat) (s s' : State)
    (hwf : s.WF cfg) :
    (Upstream_HID_BotDetectKeyboard_KeyDown cfg clk keyCode s = some s' →
      (sub32 (HAL_GetTick clk s) s.LastKeyDownTime <
          cfg.KEYBOARD_BOTDETECT_FAST_BIN_WIDTH_MS * cfg.KEYBOARD_BOTDETECT_FAST_BIN_COUNT →
        (s.KeyDelayFastBinDrainDivideCount + 1) % 256 <
          cfg.KEYBOARD_BOTDETECT_FAST_BIN_DRAIN_DIVIDER →
        s'.KeyDelayFastBinArray.getD (sub32 (HAL_GetTick clk s) s.LastKeyDownTime /
            cfg.KEYBOARD_BOTDETECT_FAST_BIN_WIDTH_MS) 0 =
          (s.KeyDelayFastBinArray.getD (sub32 (HAL_GetTick clk s) s.LastKeyDownTime /
            cfg.KEYBOARD_BOTDETECT_FAST_BIN_WIDTH_MS) 0 + 1) % 256) ∧
      (¬ sub32 (HAL_GetTick clk s) s.LastKeyDownTime <
          cfg.KEYBOARD_BOTDETECT_FAST_BIN_WIDTH_MS * cfg.KEYBOARD_BOTDETECT_FAST_BIN_COUNT →
        0 < cfg.KEYBOARD_BOTDETECT_SLOW_BIN_WIDTH_MS * cfg.KEYBOARD_BOTDETECT_SLOW_BIN_COUNT →
        (s.KeyDelaySlowBinDrainDivideCount + 1) % 256 <
          cfg.KEYBOARD_BOTDETECT_SLOW_BIN_DRAIN_DIVIDER →
        s'.KeyDelaySlowBinArray.getD (sub32 (HAL_GetTick clk s) s.LastKeyDownTime %
            (cfg.KEYBOARD_BOTDETECT_SLOW_BIN_WIDTH_MS * cfg.KEYBOARD_BOTDETECT_SLOW_BIN_COUNT) /
            cfg.KEYBOARD_BOTDETECT_SLOW_BIN_WIDTH_MS) 0 =
          (s.KeyDelaySlowBinArray.getD (sub32 (HAL_GetTick clk s) s.LastKeyDownTime %
            (cfg.KEYBOARD_BOTDETECT_SLOW_BIN_WIDTH_MS * cfg.KEYBOARD_BOTDETECT_SLOW_BIN_COUNT) /
            cfg.KEYBOARD_BOTDETECT_SLOW_BIN_WIDTH_MS) 0 + 1) % 256)) ∧
    (Upstream_HID_BotDetectKeyboard_KeyUp cfg clk keyCode s = some s' →
      (keyUpDowntime cfg clk keyCode s <
          cfg.KEYBOARD_BOTDETECT_FAST_BIN_WIDTH_MS * cfg.KEYBOARD_BOTDETECT_FAST_BIN_COUNT →
        (s.KeyDowntimeFastBinDrainDivideCount + 1) % 256 <
          cfg.KEYBOARD_BOTDETECT_FAST_BIN_DRAIN_DIVIDER →
        s'.KeyDowntimeFastBinArray.getD (keyUpDowntime cfg clk keyCode s /
            cfg.KEYBOARD_BOTDETECT_FAST_BIN_WIDTH_MS) 0 =
          (s.KeyDowntimeFastBinArray.getD (keyUpDowntime cfg clk keyCode s /
            cfg.KEYBOARD_BOTDETECT_FAST_BIN_WIDTH_MS) 0 + 1) % 256) ∧
      (¬ keyUpDowntime cfg clk keyCode s <
          cfg.KEYBOARD_BOTDETECT_FAST_BIN_WIDTH_MS * cfg.KEYBOARD_BOTDETECT_FAST_BIN_COUNT →
        0 < cfg.KEYBOARD_BOTDETECT_SLOW_BIN_WIDTH_MS * cfg.KEYBOARD_BOTDETECT_SLOW_BIN_COUNT →
        (s.KeyDowntimeSlowBinDrainDivideCount + 1) % 256 <
          cfg.KEYBOARD_BOTDETECT_SLOW_BIN_DRAIN_DIVIDER →
        s'.KeyDowntimeSlowBinArray.getD (keyUpDowntime cfg clk keyCode s %
            (cfg.KEYBOARD_BOTDETECT_SLOW_BIN_WIDTH_MS * cfg.KEYBOARD_BOTDETECT_SLOW_BIN_COUNT) /
            cfg.KEYBOARD_BOTDETECT_SLOW_BIN_WIDTH_MS) 0 =
          (s.KeyDowntimeSlowBinArray.getD (keyUpDowntime cfg clk keyCode s %
            (cfg.KEYBOARD_BOTDETECT_SLOW_BIN_WIDTH_MS * cfg.KEYBOARD_BOTDETECT_SLOW_BIN_COUNT) /
            cfg.KEYBOARD_BOTDETECT_SLOW_BIN_WIDTH_MS) 0 + 1) % 256)) := by
  obtain ⟨-, -, w1, w2, w3, w4, -⟩ := hwf
  constructor
  · intro h
    obtain ⟨i, rfl⟩ := KeyDown_eq cfg clk keyCode s s' h
    constructor
    · intro hf hd
      simp only [keyDownHistogram]
      rw [if_pos hf]
      simp only [incrementAndDrain_no_drain _ _ _ _ _ hd]
      exact getD_set_self _ _ _ (by rw [w1]; exact fast_index_lt hf)
    · intro hf hpos hd
      simp only [keyDownHistogram]
      rw [if_neg hf]
      simp only [incrementAndDrain_no_drain _ _ _ _ _ hd]
      exact getD_set_self _ _ _ (by rw [w2]; exact slow_index_lt hpos)
  · intro h
    obtain ⟨l, rfl⟩ := KeyUp_eq cfg clk keyCode s s' h
    constructor
    · intro hf hd
      simp only [keyUpHistogram]
      rw [if_pos hf]
      simp only [incrementAndDrain_no_drain _ _ _ _ _ hd]
      exact getD_set_self _ _ _ (by rw [w3]; exact fast_index_lt hf)
    · intro hf hpos hd
      simp only [keyUpHistogram]
      rw [if_neg hf]
      simp only [incrementAndDrain_no_drain _ _ _ _ _ hd]
      exact getD_set_self _ _ _ (by rw [w4]; exact slow_index_lt hpos)

/-- Witness of C7 as amended: in `sampleFullBinState` a `KeyDown` of key 5 and a `KeyUp`
of key 4 at `t = 100` both select bin 0, do not drain, and leave 0 in the bin that
held 255. -/
theorem C7_increment_wraps_witness :
    (Upstream_HID_BotDetectKeyboard_KeyDown sampleConfig sampleClock 5 sampleFullBinState).map
      (fun t => t.KeyDelayFastBinArray.getD 0 0) = some 0 ∧
    (Upstream_HID_BotDetectKeyboard_KeyUp sampleConfig sampleClock 4 sampleFullBinState).map
      (fun t => t.KeyDowntimeFastBinArray.getD 0 0) = some 0 := by
  constructor
  · cases h : Upstream_HID_BotDetectKeyboard_KeyDown sampleConfig sampleClock 5
        sampleFullBinState with
    | none => exact absurd h (by decide)
    | some t =>
      have := ((C7_increment_wraps sampleConfig sampleClock 5 sampleFullBinState t
        (by decide)).1 h).1 (by decide) (by decide)
      have e : sub32 (HAL_GetTick sampleClock sampleFullBinState)
          sampleFullBinState.LastKeyDownTime /
          sampleConfig.KEYBOARD_BOTDETECT_FAST_BIN_WIDTH_MS = 0 := by decide
      rw [e] at this
      rw [Option.map_some', this]
      decide
  · cases h : Upstream_HID_BotDetectKeyboard_KeyUp sampleConfig sampleClock 4
        sampleFullBinState with
    | none => exact absurd h (by decide)
    | some t =>
      have := ((C7_increment_wraps sampleConfig sampleClock 4 sampleFullBinState t
        (by decide)).2 h).1 (by decide) (by decide)
      have e : keyUpDowntime sampleConfig sampleClock 4 sampleFullBinState /
          sampleConfig.KEYBOARD_BOTDETECT_FAST_BIN_WIDTH_MS = 0 := by decide
      rw [e] at this
      rw [Option.map_some', this]
      decide

/-! ## The lockout trigger after a report -/

theorem zeroFill_getD (n k : Nat) (d : List Nat) (hk : k < n) : (zeroFill n d).getD k 0 = 0 := by
  unfold zeroFill
  rw [List.getD_eq_getElem?_getD, forLoop_set_getElem? (fun _ => 0)]
  by_cases hl : k < d.length
  · rw [if_pos (by omega)]; rfl
  · rw [if_neg (by omega), List.getElem?_eq_none (by omega)]; rfl

theorem forLoop_zero_fast (n lo : Nat) (s : State) :
    forLoop (fun i (t : State) =>
        { t with KeyDelayFastBinArray := t.KeyDelayFastBinArray.set i 0,
                 KeyDowntimeFastBinArray := t.KeyDowntimeFastBinArray.set i 0 }) lo n s =
      { s with KeyDelayFastBinArray := forLoop (fun i d => d.set i 0) lo n s.KeyDelayFastBinArray,
               KeyDowntimeFastBinArray :=
                 forLoop (fun i d => d.set i 0) lo n s.KeyDowntimeFastBinArray } := by
  induction n generalizing lo s with
  | zero => rfl
  | succ n ih => simp only [forLoop]; rw [ih]

theorem forLoop_zero_slow (n lo : Nat) (s : State) :
    forLoop (fun i (t : State) =>
        { t with KeyDelaySlowBinArray := t.KeyDelaySlowBinArray.set i 0,
                 KeyDowntimeSlowBinArray := t.KeyDowntimeSlowBinArray.set i 0 }) lo n s =
      { s with KeyDelaySlowBinArray := forLoop (fun i d => d.set i 0) lo n s.KeyDelaySlowBinArray,
               KeyDowntimeSlowBinArray :=
                 forLoop (fun i d => d.set i 0) lo n s.KeyDowntimeSlowBinArray } := by
  induction n generalizing lo s with
  | zero => rfl
  | succ n ih => simp only [forLoop]; rw [ih]

/-- The keyboard lockout trigger fired in `INACTIVE`, field by field. -/
theorem KeyboardDoLockout_of_inactive (cfg : Config) (s : State)
    (h : s.LockoutState = .LOCKOUT_STATE_INACTIVE) :
    Upstream_HID_BotDetectKeyboard_DoLockout cfg s =
      { s with
        KeyDelayFastBinArray := zeroFill cfg.KEYBOARD_BOTDETECT_FAST_BIN_COUNT s.KeyDelayFastBinArray,
        KeyDowntimeFastBinArray :=
          zeroFill cfg.KEYBOARD_BOTDETECT_FAST_BIN_COUNT s.KeyDowntimeFastBinArray,
        KeyDelaySlowBinArray := zeroFill cfg.KEYBOARD_BOTDETECT_SLOW_BIN_COUNT s.KeyDelaySlowBinArray,
        KeyDowntimeSlowBinArray :=
          zeroFill cfg.KEYBOARD_BOTDETECT_SLOW_BIN_COUNT s.KeyDowntimeSlowBinArray,
        TemporaryLockoutTimeMs := 0,
        LockoutState := .LOCKOUT_STATE_TEMPORARY_ACTIVE,
        LED_Log := s.LED_Log ++ [.LED_STATUS_FLASH_BOTDETECT] } := by
  unfold Upstream_HID_BotDetectKeyboard_DoLockout
  rw [if_neg (by rw [h]; decide), if_neg (by rw [h]; decide)]
  simp only [forLoop_zero_fast, forLoop_zero_slow, LED_SetState, zeroFill]

/-- The keyboard lockout trigger fired in a temporary phase. -/
theorem KeyboardDoLockout_of_temporary (cfg : Config) (s : State)
    (h : s.LockoutState = .LOCKOUT_STATE_TEMPORARY_ACTIVE ∨
      s.LockoutState = .LOCKOUT_STATE_TEMPORARY_FLASHING) :
    Upstream_HID_BotDetectKeyboard_DoLockout cfg s =
      { s with LockoutState := .LOCKOUT_STATE_PERMANENT_ACTIVE } := by
  unfold Upstream_HID_BotDetectKeyboard_DoLockout
  rw [if_neg (by rcases h with h | h <;> rw [h] <;> decide), if_pos h]

theorem fastBinScan_eq (cfg : Config) (n i : Nat) (s : State) :
    fastBinScan cfg i n s =
      if ∃ k < i + n, i ≤ k ∧
          (s.KeyDelayFastBinArray.getD k 0 > cfg.KEYBOARD_BOTDETECT_LOCKOUT_BIN_THRESHOLD ∨
           s.KeyDowntimeFastBinArray.getD k 0 > cfg.KEYBOARD_BOTDETECT_LOCKOUT_BIN_THRESHOLD)
      then Upstream_HID_BotDetectKeyboard_DoLockout cfg s else s := by
  induction n generalizing i with
  | zero =>
    simp only [fastBinScan]
    rw [if_neg]
    rintro ⟨k, h1, h2, -⟩
    omega
  | succ n ih =>
    simp only [fastBinScan]
    split
    · rename_i hx
      rw [if_pos ⟨i, by omega, le_refl _, hx⟩]
    · rename_i hx
      rw [ih (i + 1)]
      by_cases hy : ∃ k < i + 1 + n, i + 1 ≤ k ∧
          (s.KeyDelayFastBinArray.getD k 0 > cfg.KEYBOARD_BOTDETECT_LOCKOUT_BIN_THRESHOLD ∨
           s.KeyDowntimeFastBinArray.getD k 0 > cfg.KEYBOARD_BOTDETECT_LOCKOUT_BIN_THRESHOLD)
      · rw [if_pos hy]
        obtain ⟨k, h1, h2, h3⟩ := hy
        rw [if_pos ⟨k, by omega, by omega, h3⟩]
      · rw [if_neg hy, if_neg]
        rintro ⟨k, h1, h2, h3⟩
        by_cases hk : k = i
        · subst hk; exact hx h3
        · exact hy ⟨k, by omega, by omega, h3⟩

theorem slowBinScan_eq (cfg : Config) (n i : Nat) (s : State) :
    slowBinScan cfg i n s =
      if ∃ k < i + n, i ≤ k ∧
          (s.KeyDelaySlowBinArray.getD k 0 > cfg.KEYBOARD_BOTDETECT_LOCKOUT_BIN_THRESHOLD ∨
           s.KeyDowntimeSlowBinArray.getD k 0 > cfg.KEYBOARD_BOTDETECT_LOCKOUT_BIN_THRESHOLD)
      then Upstream_HID_BotDetectKeyboard_DoLockout cfg s else s := by
  induction n generalizing i with
  | zero =>
    simp only [slowBinScan]
    rw [if_neg]
    rintro ⟨k, h1, h2, -⟩
    omega
  | succ n ih =>
    simp only [slowBinScan]
    split
    · rename_i hx
      rw [if_pos ⟨i, by omega, le_refl _, hx⟩]
    · rename_i hx
      rw [ih (i + 1)]
      by_cases hy : ∃ k < i + 1 + n, i + 1 ≤ k ∧
          (s.KeyDelaySlowBinArray.getD k 0 > cfg.KEYBOARD_BOTDETECT_LOCKOUT_BIN_THRESHOLD ∨
           s.KeyDowntimeSlowBinArray.getD k 0 > cfg.KEYBOARD_BOTDETECT_LOCKOUT_BIN_THRESHOLD)
      · rw [if_pos hy]
        obtain ⟨k, h1, h2, h3⟩ := hy
        rw [if_pos ⟨k, by omega, by omega, h3⟩]
      · rw [if_neg hy, if_neg]
        rintro ⟨k, h1, h2, h3⟩
        by_cases hk : k = i
        · subst hk; exact hx h3
        · exact hy ⟨k, by omega, by omega, h3⟩

/-- The keyboard lockout trigger applied twice is the trigger applied once whenever the
second application comes from the slow-bin scan: after a trigger fired in `INACTIVE` no
slow bin exceeds the threshold, and after any other trigger the state is permanent. -/
theorem slowBinScan_after_DoLockout (cfg : Config) (s : State) :
    slowBinScan cfg 0 cfg.KEYBOARD_BOTDETECT_SLOW_BIN_COUNT
        (Upstream_HID_BotDetectKeyboard_DoLockout cfg s) =
      Upstream_HID_BotDetectKeyboard_DoLockout cfg s := by
  cases hl : s.LockoutState with
  | LOCKOUT_STATE_INACTIVE =>
    rw [slowBinScan_eq, if_neg]
    rintro ⟨k, h2, -, h3⟩
    rw [KeyboardDoLockout_of_inactive cfg s hl] at h3
    simp only [zero_add] at h2
    simp only [zeroFill_getD _ _ _ h2] at h3
    omega
  | LOCKOUT_STATE_TEMPORARY_ACTIVE =>
    rw [KeyboardDoLockout_of_temporary cfg s (Or.inl hl)]
    exact slowBinScan_of_permanent cfg _ _ _ rfl
  | LOCKOUT_STATE_TEMPORARY_FLASHING =>
    rw [KeyboardDoLockout_of_temporary cfg s (Or.inr hl)]
    exact slowBinScan_of_permanent cfg _ _ _ rfl
  | LOCKOUT_STATE_PERMANENT_ACTIVE =>
    rw [KeyboardDoLockout_of_permanent cfg s hl]
    exact slowBinScan_of_permanent cfg _ _ _ hl

/-- The two scans of lines 143-167 are the trigger rule of the specification. -/
theorem checkBins_eq_lockoutTriggerRule (cfg : Config) (s : State) :
    checkBins cfg s = lockoutTriggerRule cfg s := by
  unfold checkBins lockoutTriggerRule anyBinExceeds
  rw [fastBinScan_eq]
  by_cases hf : ∃ k < 0 + cfg.KEYBOARD_BOTDETECT_FAST_BIN_COUNT, 0 ≤ k ∧
      (s.KeyDelayFastBinArray.getD k 0 > cfg.KEYBOARD_BOTDETECT_LOCKOUT_BIN_THRESHOLD ∨
       s.KeyDowntimeFastBinArray.getD k 0 > cfg.KEYBOARD_BOTDETECT_LOCKOUT_BIN_THRESHOLD)
  · rw [if_pos hf, slowBinScan_after_DoLockout, if_pos]
    obtain ⟨k, h2, -, h3⟩ := hf
    exact Or.inl ⟨k, by omega, h3⟩
  · rw [if_neg hf, slowBinScan_eq]
    by_cases hsl : ∃ k < 0 + cfg.KEYBOARD_BOTDETECT_SLOW_BIN_COUNT, 0 ≤ k ∧
        (s.KeyDelaySlowBinArray.getD k 0 > cfg.KEYBOARD_BOTDETECT_LOCKOUT_BIN_THRESHOLD ∨
         s.KeyDowntimeSlowBinArray.getD k 0 > cfg.KEYBOARD_BOTDETECT_LOCKOUT_BIN_THRESHOLD)
    · rw [if_pos hsl, if_pos]
      obtain ⟨k, h2, -, h3⟩ := hsl
      exact Or.inr ⟨k, by omega, h3⟩
    · rw [if_neg hsl, if_neg]
      rintro (⟨k, h2, h3⟩ | ⟨k, h2, h3⟩)
      · exact hf ⟨k, by omega, Nat.zero_le _, h3⟩
      · exact hsl ⟨k, by omega, Nat.zero_le _, h3⟩

/-- C8: for a keyboard report without rollover code, once all its events are applied
(state `s1`), the call returns the state that the trigger rule of the specification gives
from `s1` (the keyboard lockout trigger invoked exactly once if some bin of the four
histograms is strictly greater than the threshold, nothing otherwise) with the shadow
updated: lockout state, timer, LED calls and histograms are those of the rule. The fast
scan and the slow scan together never make two escalation steps: from `INACTIVE` the call
never ends in `PERMANENT_ACTIVE`. -/
theorem C8_lockout_trigger_rule (cfg : Config) (clk : Nat → Nat) (r : List Nat) (s s1 : State)
    (hroll : ¬ hasRollover r) (he : applyReportEvents cfg clk r s = some s1) :
    ∃ p, Upstream_HID_BotDetectKeyboard cfg clk r s = some p ∧
      p.1 = updateShadow r (lockoutTriggerRule cfg s1) ∧
      p.1.LockoutState = (lockoutTriggerRule cfg s1).LockoutState ∧
      p.1.KeyDelayFastBinArray = (lockoutTriggerRule cfg s1).KeyDelayFastBinArray ∧
      p.1.KeyDowntimeFastBinArray = (lockoutTriggerRule cfg s1).KeyDowntimeFastBinArray ∧
      p.1.KeyDelaySlowBinArray = (lockoutTriggerRule cfg s1).KeyDelaySlowBinArray ∧
      p.1.KeyDowntimeSlowBinArray = (lockoutTriggerRule cfg s1).KeyDowntimeSlowBinArray ∧
      (s.LockoutState = .LOCKOUT_STATE_INACTIVE →
        p.1.LockoutState ≠ .LOCKOUT_STATE_PERMANENT_ACTIVE) := by
  rw [Keyboard_of_not_hasRollover cfg clk r s hroll, he]
  simp only [checkBins_eq_lockoutTriggerRule]
  refine ⟨_, rfl, rfl, rfl, rfl, rfl, rfl, rfl, ?_⟩
  intro hi
  have h1 : s1.LockoutState = .LOCKOUT_STATE_INACTIVE := by
    rw [(applyReportEvents_frame cfg clk r s s1 he).1]; exact hi
  simp only [updateShadow, lockoutTriggerRule]
  split
  · rw [KeyboardDoLockout_of_inactive cfg s1 h1]
    simp
  · rw [h1]; decide

/-- Witness of C8: in `sampleOverThresholdState` (`INACTIVE`, a fast bin at 6 and a slow
bin at 7, threshold 5) an all-zero report applies no event and returns in
`TEMPORARY_ACTIVE`, one escalation step, with the histograms zeroed. -/
theorem C8_lockout_trigger_rule_witness :
    (Upstream_HID_BotDetectKeyboard sampleConfig sampleClock [0, 0, 0, 0, 0, 0, 0, 0]
        sampleOverThresholdState).map
      (fun p => (p.1.LockoutState, p.1.KeyDelayFastBinArray, p.1.KeyDowntimeSlowBinArray)) =
    some (.LOCKOUT_STATE_TEMPORARY_ACTIVE, [0, 0, 0, 0, 0, 0, 0, 0],
      [0, 0, 0, 0, 0, 0, 0, 0]) := by
  obtain ⟨p, hp, -, h1, h2, -, -, h3, -⟩ :=
    C8_lockout_trigger_rule sampleConfig sampleClock [0, 0, 0, 0, 0, 0, 0, 0]
      sampleOverThresholdState sampleOverThresholdState (by decide) (by decide)
  rw [hp, Option.map_some', h1, h2, h3]
  decide

/-! ## The key log: searching and updating records -/

theorem breakLoop_split (q : Nat → Bool) (l pre : List KeyTimerLogTypeDef)
    (h : ∃ x ∈ l, q x.KeyCode = true) :
    ∃ l1 x l2, l = l1 ++ x :: l2 ∧ q x.KeyCode = true ∧
      breakLoop (fun i => q ((pre ++ l).getD i default).KeyCode) pre.length l.length =
        pre.length + l1.length := by
  induction l generalizing pre with
  | nil => simp at h
  | cons y ys ih =>
    by_cases hy : q y.KeyCode = true
    · refine ⟨[], y, ys, rfl, hy, ?_⟩
      simp only [List.length_cons, breakLoop, List.length_nil, Nat.add_zero]
      rw [if_pos]
      rw [List.getD_eq_getElem?_getD, List.getElem?_append_right (le_refl _)]
      simpa using hy
    · have h' : ∃ x ∈ ys, q x.KeyCode = true := by
        obtain ⟨x, hx, hq⟩ := h
        rcases List.mem_cons.1 hx with rfl | hx
        · exact absurd hq hy
        · exact ⟨x, hx, hq⟩
      obtain ⟨l1, x, l2, e1, e2, e3⟩ := ih (pre ++ [y]) h'
      refine ⟨y :: l1, x, l2, by rw [e1]; rfl, e2, ?_⟩
      simp only [List.length_cons, breakLoop]
      rw [if_neg]
      · have e4 : pre ++ y :: ys = (pre ++ [y]) ++ ys := by simp
        rw [e4]
        have e5 : (pre ++ [y]).length = pre.length + 1 := by simp
        rw [e5] at e3
        rw [e3]; omega
      · rw [List.getD_eq_getElem?_getD, List.getElem?_append_right (le_refl _)]
        simpa using hy

theorem set_append_mid (l1 l2 : List KeyTimerLogTypeDef) (x v : KeyTimerLogTypeDef) :
    (l1 ++ x :: l2).set l1.length v = l1 ++ v :: l2 := by
  induction l1 with
  | nil => rfl
  | cons y ys ih => simp [List.set, ih]

theorem getD_append_mid (l1 l2 : List KeyTimerLogTypeDef) (x : KeyTimerLogTypeDef) :
    (l1 ++ x :: l2).getD l1.length default = x := by
  induction l1 with
  | nil => rfl
  | cons y ys ih => simpa using ih

theorem exists_free_of_length_lt (l : List KeyTimerLogTypeDef)
    (h : ((l.map (fun e => e.KeyCode)).filter (fun c => c ≠ 0)).length < l.length) :
    ∃ x ∈ l, (x.KeyCode == 0) = true := by
  by_contra hc
  have hall : ∀ c ∈ l.map (fun e => e.KeyCode), (decide (c ≠ 0)) = true := by
    intro c hcm
    obtain ⟨x, hx, rfl⟩ := List.mem_map.1 hcm
    have : ¬ (x.KeyCode == 0) = true := fun hq => hc ⟨x, hx, hq⟩
    simpa using this
  rw [List.filter_eq_self.2 hall] at h
  simp at h

theorem KeyDown_ok (cfg : Config) (clk : Nat → Nat) (c : Nat) (s : State)
    (hlen : s.KeyTimerLog.length = cfg.KEYBOARD_BOTDETECT_MAX_ACTIVE_KEYS)
    (hroom : (liveCodes s).length < cfg.KEYBOARD_BOTDETECT_MAX_ACTIVE_KEYS) (hc : c ≠ 0) :
    ∃ s', Upstream_HID_BotDetectKeyboard_KeyDown cfg clk c s = some s' ∧
      s'.KeyTimerLog.length = cfg.KEYBOARD_BOTDETECT_MAX_ACTIVE_KEYS ∧
      (liveCodes s').Perm (c :: liveCodes s) := by
  have hlog : (keyDownHistogram cfg (HAL_GetTick clk s)
      { s with TickReads := s.TickReads + 1 }).KeyTimerLog = s.KeyTimerLog :=
    (keyDownHistogram_frame cfg _ _).2.2.2.2
  obtain ⟨l1, x, l2, e1, e2, e3⟩ := breakLoop_split (fun c => c == 0) s.KeyTimerLog []
    (exists_free_of_length_lt _ (by unfold liveCodes at hroom; omega))
  simp only [List.nil_append, List.length_nil, Nat.zero_add] at e3
  rw [hlen] at e3
  have hl1 : l1.length < cfg.KEYBOARD_BOTDETECT_MAX_ACTIVE_KEYS := by
    rw [← hlen, e1]; simp
  unfold Upstream_HID_BotDetectKeyboard_KeyDown
  simp only [hlog]
  rw [e3, if_neg (by omega)]
  refine ⟨_, rfl, by simp [hlen], ?_⟩
  unfold liveCodes
  simp only
  rw [e1, set_append_mid]
  have hx : x.KeyCode = 0 := by simpa using e2
  simp only [List.map_append, List.map_cons, List.filter_append, List.filter_cons, hx, hc,
    ne_eq, not_true_eq_false, decide_False, not_false_eq_true, decide_True, if_true,
    Bool.false_eq_true, if_false]
  exact List.perm_middle

theorem KeyUp_ok (cfg : Config) (clk : Nat → Nat) (c : Nat) (s : State)
    (hlen : s.KeyTimerLog.length = cfg.KEYBOARD_BOTDETECT_MAX_ACTIVE_KEYS)
    (hmem : c ∈ liveCodes s) :
    ∃ s', Upstream_HID_BotDetectKeyboard_KeyUp cfg clk c s = some s' ∧
      s'.KeyTimerLog.length = cfg.KEYBOARD_BOTDETECT_MAX_ACTIVE_KEYS ∧
      (liveCodes s).Perm (c :: liveCodes s') := by
  have hc : c ≠ 0 := by
    unfold liveCodes at hmem
    simpa using (List.mem_filter.1 hmem).2
  have hex : ∃ x ∈ s.KeyTimerLog, (x.KeyCode == c) = true := by
    unfold liveCodes at hmem
    obtain ⟨x, hx, rfl⟩ := List.mem_map.1 (List.mem_filter.1 hmem).1
    exact ⟨x, hx, by simp⟩
  obtain ⟨l1, x, l2, e1, e2, e3⟩ := breakLoop_split (fun k => k == c) s.KeyTimerLog [] hex
  simp only [List.nil_append, List.length_nil, Nat.zero_add] at e3
  rw [hlen] at e3
  have hl1 : l1.length < cfg.KEYBOARD_BOTDETECT_MAX_ACTIVE_KEYS := by
    rw [← hlen, e1]; simp
  unfold Upstream_HID_BotDetectKeyboard_KeyUp
  simp only [keyUpSlot]
  rw [e3, if_neg (by omega)]
  refine ⟨_, rfl, ?_, ?_⟩
  · rw [(keyUpHistogram_frame cfg _ _).2.2.2.2]
    simp [hlen]
  · unfold liveCodes
    rw [(keyUpHistogram_frame cfg _ _).2.2.2.2]
    simp only
    rw [e1, set_append_mid]
    have hx : x.KeyCode = c := by simpa using e2
    simp only [List.map_append, List.map_cons, List.filter_append, List.filter_cons, hx, hc,
      ne_eq, not_true_eq_false, decide_False, not_false_eq_true, decide_True, if_true,
      Bool.false_eq_true, if_false]
    exact List.perm_middle

/-! ## The three event loops keep the key log consistent -/

theorem modifier_code_ne_zero (cfg : Config) (hk : validKeyCodes cfg) (i : Nat) (hi : i < 8) :
    (cfg.KEY_MODIFIER_BASE + i) % 256 ≠ 0 := by
  obtain ⟨-, h1, h2⟩ := hk
  rw [Nat.mod_eq_of_lt (by omega)]
  omega

theorem modifierCodes_length_le (cfg : Config) (n i b : Nat) :
    (modifierCodes cfg i n b).length ≤ n := by
  induction n generalizing i b with
  | zero => simp [modifierCodes]
  | succ n ih =>
    simp only [modifierCodes, List.length_append]
    have := ih (i + 1) (b / 2)
    split <;> simp <;> omega

theorem modifierStep_ok (cfg : Config) (clk : Nat → Nat) (hk : validKeyCodes cfg) (i : Nat)
    (hi : i < 8) (tm : Nat) (s : State) (R : List Nat)
    (hlen : s.KeyTimerLog.length = cfg.KEYBOARD_BOTDETECT_MAX_ACTIVE_KEYS)
    (hold : 0 < s.OldKeyboardInData.length)
    (hperm : (liveCodes s).Perm
      ((if s.OldKeyboardInData.getD 0 0 % 2 = 1 then [(cfg.KEY_MODIFIER_BASE + i) % 256] else [])
        ++ R))
    (hroom : R.length < cfg.KEYBOARD_BOTDETECT_MAX_ACTIVE_KEYS) :
    ∃ ts', modifierStep cfg clk i (tm, s) = some ts' ∧ ts'.1 = tm / 2 ∧
      ts'.2.OldKeyboardInData.getD 0 0 = s.OldKeyboardInData.getD 0 0 / 2 ∧
      0 < ts'.2.OldKeyboardInData.length ∧
      ts'.2.KeyTimerLog.length = cfg.KEYBOARD_BOTDETECT_MAX_ACTIVE_KEYS ∧
      (liveCodes ts'.2).Perm
        ((if tm % 2 = 1 then [(cfg.KEY_MODIFIER_BASE + i) % 256] else []) ++ R) := by
  have hcode := modifier_code_ne_zero cfg hk i hi
  have hset : ∀ t : State, t.OldKeyboardInData = s.OldKeyboardInData →
      ({ t with OldKeyboardInData :=
          t.OldKeyboardInData.set 0 (t.OldKeyboardInData.getD 0 0 / 2) } : State).OldKeyboardInData.getD 0 0
        = s.OldKeyboardInData.getD 0 0 / 2 ∧
      0 < ({ t with OldKeyboardInData :=
          t.OldKeyboardInData.set 0 (t.OldKeyboardInData.getD 0 0 / 2) } : State).OldKeyboardInData.length := by
    intro t ht
    simp only [ht, List.length_set]
    refine ⟨?_, hold⟩
    rw [List.getD_eq_getElem?_getD, List.getElem?_set_self hold]
    rfl
  unfold modifierStep
  simp only
  rcases Nat.mod_two_eq_zero_or_one tm with ht | ht <;>
    rcases Nat.mod_two_eq_zero_or_one (s.OldKeyboardInData.getD 0 0) with hb | hb
  · -- no change of this bit
    simp only [ht, hb, zero_ne_one, one_ne_zero, and_false, false_and, if_false] at hperm ⊢
    exact ⟨_, rfl, rfl, (hset s rfl).1, (hset s rfl).2, hlen, hperm⟩
  · -- released
    simp only [ht, hb, zero_ne_one, and_false, false_and, if_false, if_true] at hperm ⊢
    have hmem : (cfg.KEY_MODIFIER_BASE + i) % 256 ∈ liveCodes s :=
      hperm.symm.subset (by simp)
    obtain ⟨s1, e1, l1, p1⟩ := KeyUp_ok cfg clk _ s hlen hmem
    have hf := (KeyUp_frame cfg clk _ s s1 e1).1
    simp only [and_self, if_true, e1]
    refine ⟨_, rfl, rfl, (hset s1 hf).1, (hset s1 hf).2, l1, ?_⟩
    have := (p1.symm.trans hperm)
    simpa using this.cons_inv
  · -- pressed
    simp only [ht, hb, one_ne_zero, and_self, and_false, false_and, if_false, if_true,
      List.nil_append] at hperm ⊢
    obtain ⟨s1, e1, l1, p1⟩ := KeyDown_ok cfg clk _ s hlen (by rw [hperm.length_eq]; exact hroom)
      hcode
    have hf := (KeyDown_frame cfg clk _ s s1 e1).1
    simp only [e1]
    refine ⟨_, rfl, rfl, (hset s1 hf).1, (hset s1 hf).2, l1, ?_⟩
    exact p1.trans (List.Perm.cons _ hperm)
  · -- still held
    simp only [ht, hb, one_ne_zero, zero_ne_one, and_false, false_and, if_false, if_true]
      at hperm ⊢
    exact ⟨_, rfl, rfl, (hset s rfl).1, (hset s rfl).2, hlen, hperm⟩

theorem modifierLoop_ok (cfg : Config) (clk : Nat → Nat) (hk : validKeyCodes cfg) (n i : Nat)
    (hin : i + n ≤ 8) (tm : Nat) (s : State) (E : List Nat)
    (hlen : s.KeyTimerLog.length = cfg.KEYBOARD_BOTDETECT_MAX_ACTIVE_KEYS)
    (hold : 0 < s.OldKeyboardInData.length)
    (hperm : (liveCodes s).Perm (modifierCodes cfg i n (s.OldKeyboardInData.getD 0 0) ++ E))
    (hroom : E.length + n ≤ cfg.KEYBOARD_BOTDETECT_MAX_ACTIVE_KEYS) :
    ∃ ts', forLoopM (modifierStep cfg clk) i n (tm, s) = some ts' ∧
      ts'.2.KeyTimerLog.length = cfg.KEYBOARD_BOTDETECT_MAX_ACTIVE_KEYS ∧
      (liveCodes ts'.2).Perm (modifierCodes cfg i n tm ++ E) := by
  induction n generalizing i tm s E with
  | zero => exact ⟨_, rfl, hlen, hperm⟩
  | succ n ih =>
    simp only [modifierCodes, List.append_assoc] at hperm
    have hR : (modifierCodes cfg (i + 1) n (s.OldKeyboardInData.getD 0 0 / 2) ++ E).length <
        cfg.KEYBOARD_BOTDETECT_MAX_ACTIVE_KEYS := by
      have := modifierCodes_length_le cfg n (i + 1) (s.OldKeyboardInData.getD 0 0 / 2)
      simp only [List.length_append]; omega
    obtain ⟨ts1, e1, a1, a2, a3, a4, a5⟩ :=
      modifierStep_ok cfg clk hk i (by omega) tm s _ hlen hold hperm hR
    simp only [forLoopM, e1]
    have hE : ((if tm % 2 = 1 then [(cfg.KEY_MODIFIER_BASE + i) % 256] else []) ++ E).length + n ≤
        cfg.KEYBOARD_BOTDETECT_MAX_ACTIVE_KEYS := by
      simp only [List.length_append]
      split <;> simp <;> omega
    have hp1 : (liveCodes ts1.2).Perm (modifierCodes cfg (i + 1) n (ts1.2.OldKeyboardInData.getD 0 0) ++
        ((if tm % 2 = 1 then [(cfg.KEY_MODIFIER_BASE + i) % 256] else []) ++ E)) := by
      rw [a2]
      refine a5.trans ?_
      rw [← List.append_assoc, ← List.append_assoc]
      exact List.Perm.append_right _ List.perm_append_comm
    obtain ⟨ts2, e2, b1, b2⟩ := ih (i + 1) (by omega) ts1.1 ts1.2 _ a4 a3 hp1 hE
    refine ⟨ts2, e2, b1, ?_⟩
    simp only [modifierCodes, List.append_assoc]
    rw [a1] at b2
    refine b2.trans ?_
    rw [← List.append_assoc, ← List.append_assoc]
    exact List.Perm.append_right _ List.perm_append_comm

theorem mem_keyBytesFrom (d : List Nat) (x n i : Nat) :
    x ∈ keyBytesFrom d i n ↔ ∃ j, i ≤ j ∧ j < i + n ∧ d.getD j 0 = x := by
  induction n generalizing i with
  | zero =>
    simp only [keyBytesFrom, List.not_mem_nil, false_iff]
    rintro ⟨j, h1, h2, -⟩; omega
  | succ n ih =>
    simp only [keyBytesFrom, List.mem_cons, ih]
    constructor
    · rintro (h | ⟨j, h1, h2, h3⟩)
      · exact ⟨i, le_refl _, by omega, h.symm⟩
      · exact ⟨j, by omega, by omega, h3⟩
    · rintro ⟨j, h1, h2, h3⟩
      by_cases hj : j = i
      · subst hj; exact Or.inl h3.symm
      · exact Or.inr ⟨j, by omega, by omega, h3⟩

theorem breakLoop_ge_iff_not_mem (d : List Nat) (x n i : Nat) :
    breakLoop (fun j => x == d.getD j 0) i n ≥ i + n ↔ x ∉ keyBytesFrom d i n := by
  rw [mem_keyBytesFrom, ge_iff_le, ← not_lt, breakLoop_lt_iff]
  constructor
  · rintro h ⟨j, h1, h2, h3⟩
    exact h ⟨j, h1, h2, beq_iff_eq.2 h3.symm⟩
  · rintro h ⟨j, h1, h2, h3⟩
    exact h ⟨j, h1, h2, (beq_iff_eq.1 h3).symm⟩

theorem scan_not_found_iff (d : List Nat) (x : Nat) :
    breakLoop (fun j => x == d.getD j 0) 2 (HID_KEYBOARD_INPUT_DATA_LEN - 2) ≥
      HID_KEYBOARD_INPUT_DATA_LEN ↔ x ∉ keyBytes d := by
  have := breakLoop_ge_iff_not_mem d x (HID_KEYBOARD_INPUT_DATA_LEN - 2) 2
  simpa [HID_KEYBOARD_INPUT_DATA_LEN, keyBytes] using this

theorem keyBytesFrom_congr (a b : List Nat) (h : ∀ k, 1 ≤ k → a.getD k 0 = b.getD k 0)
    (n i : Nat) (hi : 1 ≤ i) : keyBytesFrom a i n = keyBytesFrom b i n := by
  induction n generalizing i with
  | zero => rfl
  | succ n ih => simp only [keyBytesFrom]; rw [h i hi, ih (i + 1) (by omega)]

theorem keyBytesFrom_length (d : List Nat) (n i : Nat) : (keyBytesFrom d i n).length = n := by
  induction n generalizing i with
  | zero => rfl
  | succ n ih => simp [keyBytesFrom, ih]

theorem keyDownScan_ok (cfg : Config) (clk : Nat → Nat) (hk : validKeyCodes cfg) (r : List Nat)
    (n i : Nat) (s : State) (E : List Nat)
    (hlen : s.KeyTimerLog.length = cfg.KEYBOARD_BOTDETECT_MAX_ACTIVE_KEYS)
    (hperm : (liveCodes s).Perm E)
    (hroom : E.length + n ≤ cfg.KEYBOARD_BOTDETECT_MAX_ACTIVE_KEYS) :
    ∃ s', forLoopM (keyDownScanStep cfg clk r) i n s = some s' ∧
      s'.KeyTimerLog.length = cfg.KEYBOARD_BOTDETECT_MAX_ACTIVE_KEYS ∧
      s'.OldKeyboardInData = s.OldKeyboardInData ∧
      (liveCodes s').Perm ((keyBytesFrom r i n).filter
        (fun c => decide (c ≥ cfg.KEY_A) && decide (c ∉ keyBytes s.OldKeyboardInData)) ++ E) := by
  induction n generalizing i s E with
  | zero => exact ⟨s, rfl, hlen, rfl, by simpa [keyBytesFrom] using hperm⟩
  | succ n ih =>
    simp only [forLoopM, keyBytesFrom]
    by_cases hc : r.getD i 0 ≥ cfg.KEY_A ∧ r.getD i 0 ∉ keyBytes s.OldKeyboardInData
    · have hstep : keyDownScanStep cfg clk r i s =
          Upstream_HID_BotDetectKeyboard_KeyDown cfg clk (r.getD i 0) s := by
        unfold keyDownScanStep
        simp only
        rw [if_pos hc.1, if_pos ((scan_not_found_iff _ _).2 hc.2)]
      obtain ⟨s1, e1, l1, p1⟩ := KeyDown_ok cfg clk (r.getD i 0) s hlen
        (by rw [hperm.length_eq]; omega) (by have := hk.1; omega)
      have hf := (KeyDown_frame cfg clk _ s s1 e1).1
      obtain ⟨s2, e2, l2, o2, p2⟩ := ih (i + 1) s1 (r.getD i 0 :: E) l1
        (p1.trans (List.Perm.cons _ hperm)) (by simp only [List.length_cons]; omega)
      rw [hstep, e1]
      refine ⟨s2, e2, l2, o2.trans hf, ?_⟩
      rw [hf] at p2
      rw [List.filter_cons_of_pos (by simpa using hc)]
      exact p2.trans List.perm_middle
    · have hstep : keyDownScanStep cfg clk r i s = some s := by
        unfold keyDownScanStep
        simp only
        by_cases h1 : r.getD i 0 ≥ cfg.KEY_A
        · rw [if_pos h1, if_neg]
          rw [scan_not_found_iff]
          exact fun h2 => hc ⟨h1, h2⟩
        · rw [if_neg h1]
      obtain ⟨s2, e2, l2, o2, p2⟩ := ih (i + 1) s E hlen hperm (by omega)
      rw [hstep]
      refine ⟨s2, e2, l2, o2, ?_⟩
      rw [List.filter_cons_of_neg (by simpa using hc)]
      exact p2

theorem keyUpScan_ok (cfg : Config) (clk : Nat → Nat) (r : List Nat)
    (n i : Nat) (s : State) (E : List Nat)
    (hlen : s.KeyTimerLog.length = cfg.KEYBOARD_BOTDETECT_MAX_ACTIVE_KEYS)
    (hperm : (liveCodes s).Perm ((keyBytesFrom s.OldKeyboardInData i n).filter
        (fun c => decide (c ≥ cfg.KEY_A) && decide (c ∉ keyBytes r)) ++ E)) :
    ∃ s', forLoopM (keyUpScanStep cfg clk r) i n s = some s' ∧
      s'.KeyTimerLog.length = cfg.KEYBOARD_BOTDETECT_MAX_ACTIVE_KEYS ∧
      s'.OldKeyboardInData = s.OldKeyboardInData ∧
      (liveCodes s').Perm E := by
  induction n generalizing i s with
  | zero => exact ⟨s, rfl, hlen, rfl, by simpa [keyBytesFrom] using hperm⟩
  | succ n ih =>
    simp only [forLoopM]
    simp only [keyBytesFrom] at hperm
    by_cases hc : s.OldKeyboardInData.getD i 0 ≥ cfg.KEY_A ∧
        s.OldKeyboardInData.getD i 0 ∉ keyBytes r
    · have hstep : keyUpScanStep cfg clk r i s =
          Upstream_HID_BotDetectKeyboard_KeyUp cfg clk (s.OldKeyboardInData.getD i 0) s := by
        unfold keyUpScanStep
        simp only
        rw [if_pos hc.1, if_pos ((scan_not_found_iff _ _).2 hc.2)]
      rw [List.filter_cons_of_pos (by simpa using hc)] at hperm
      obtain ⟨s1, e1, l1, p1⟩ := KeyUp_ok cfg clk (s.OldKeyboardInData.getD i 0) s hlen
        (hperm.symm.subset (by simp))
      have hf := (KeyUp_frame cfg clk _ s s1 e1).1
      have hp1 : (liveCodes s1).Perm ((keyBytesFrom s1.OldKeyboardInData (i + 1) n).filter
          (fun c => decide (c ≥ cfg.KEY_A) && decide (c ∉ keyBytes r)) ++ E) := by
        rw [hf]
        exact (p1.symm.trans hperm).cons_inv
      obtain ⟨s2, e2, l2, o2, p2⟩ := ih (i + 1) s1 l1 hp1
      rw [hstep, e1]
      exact ⟨s2, e2, l2, o2.trans hf, p2⟩
    · have hstep : keyUpScanStep cfg clk r i s = some s := by
        unfold keyUpScanStep
        simp only
        by_cases h1 : s.OldKeyboardInData.getD i 0 ≥ cfg.KEY_A
        · rw [if_pos h1, if_neg]
          rw [scan_not_found_iff]
          exact fun h2 => hc ⟨h1, h2⟩
        · rw [if_neg h1]
      rw [List.filter_cons_of_neg (by simpa using hc)] at hperm
      obtain ⟨s2, e2, l2, o2, p2⟩ := ih (i + 1) s hlen hperm
      rw [hstep]
      exact ⟨s2, e2, l2, o2, p2⟩

theorem filter_split (p q : Nat → Bool) (l : List Nat) :
    (l.filter p).Perm (l.filter (fun c => p c && q c) ++ l.filter (fun c => p c && !q c)) := by
  induction l with
  | nil => simp
  | cons x xs ih =>
    cases hp : p x <;> cases hq : q x <;> simp [List.filter_cons, hp, hq]
    · exact ih
    · exact ih
    · exact (List.Perm.cons x ih).trans List.perm_middle.symm
    · exact ih

theorem perm_shuffle_mid {D M U k A : List Nat} (h : A.Perm (U ++ k)) :
    (D ++ (M ++ A)).Perm (U ++ (D ++ (M ++ k))) := by
  rw [List.perm_iff_count] at h ⊢
  intro a
  have := h a
  simp only [List.count_append] at this ⊢
  omega

theorem perm_shuffle_end {D M k1 k2 A : List Nat} (h1 : A.Perm (D ++ k2)) (h2 : k1.Perm k2) :
    (D ++ (M ++ k1)).Perm (M ++ A) := by
  rw [List.perm_iff_count] at h1 h2 ⊢
  intro a
  have := h1 a
  have := h2 a
  simp only [List.count_append] at *
  omega

theorem arrayCodes_length_le (cfg : Config) (d : List Nat) : (arrayCodes cfg d).length ≤ 6 := by
  unfold arrayCodes
  refine (List.length_filter_le _ _).trans ?_
  simp [keyBytes, keyBytesFrom_length, HID_KEYBOARD_INPUT_DATA_LEN]

theorem keyBytes_congr (a b : List Nat) (h : ∀ k, 1 ≤ k → a.getD k 0 = b.getD k 0) :
    keyBytes a = keyBytes b :=
  keyBytesFrom_congr a b h _ 2 (by omega)

theorem applyReportEvents_ok (cfg : Config) (clk : Nat → Nat) (hk : validKeyCodes cfg)
    (hmax : 20 ≤ cfg.KEYBOARD_BOTDETECT_MAX_ACTIVE_KEYS) (r : List Nat) (s : State)
    (hr : validReport cfg r) (hinv : logMatchesShadow cfg s) :
    ∃ s1, applyReportEvents cfg clk r s = some s1 ∧
      s1.KeyTimerLog.length = cfg.KEYBOARD_BOTDETECT_MAX_ACTIVE_KEYS ∧
      (liveCodes s1).Perm (modifierCodes cfg 0 8 (r.getD 0 0) ++ arrayCodes cfg r) := by
  obtain ⟨hlen, hold, hnd, hperm⟩ := hinv
  have hA := arrayCodes_length_le cfg s.OldKeyboardInData
  have hM := modifierCodes_length_le cfg 8 0 (r.getD 0 0)
  -- modifier loop
  obtain ⟨ts1, e1, l1, p1⟩ := modifierLoop_ok cfg clk hk 8 0 (by omega) (r.getD 0 0) s
    (arrayCodes cfg s.OldKeyboardInData) hlen (by rw [hold]; decide) hperm (by omega)
  have f1 := forLoopM_frame (modifierStep cfg clk) Prod.snd
    (fun i a b hb => modifierStep_frame cfg clk i a b hb) _ _ _ _ e1
  have hkb1 : keyBytes ts1.2.OldKeyboardInData = keyBytes s.OldKeyboardInData :=
    keyBytes_congr _ _ f1.2.2.2.2
  -- key-down scan
  obtain ⟨s2, e2, l2, o2, p2⟩ := keyDownScan_ok cfg clk hk r (HID_KEYBOARD_INPUT_DATA_LEN - 2) 2
    ts1.2 _ l1 p1 (by simp only [List.length_append, HID_KEYBOARD_INPUT_DATA_LEN]; omega)
  rw [hkb1] at p2
  -- key-up scan
  have hsplit := filter_split (fun c => decide (c ≥ cfg.KEY_A))
    (fun c => decide (c ∉ keyBytes r)) (keyBytes s.OldKeyboardInData)
  have hkb2 : keyBytesFrom s2.OldKeyboardInData 2 (HID_KEYBOARD_INPUT_DATA_LEN - 2) =
      keyBytes s.OldKeyboardInData := by
    rw [o2]; exact hkb1
  obtain ⟨s3, e3, l3, -, p3⟩ := keyUpScan_ok cfg clk r (HID_KEYBOARD_INPUT_DATA_LEN - 2) 2 s2 _ l2
    (by rw [hkb2]; exact p2.trans (perm_shuffle_mid hsplit))
  refine ⟨s3, ?_, l3, ?_⟩
  · unfold applyReportEvents
    simp only [e1, e2, e3]
  · refine p3.trans (perm_shuffle_end (filter_split (fun c => decide (c ≥ cfg.KEY_A))
      (fun c => decide (c ∉ keyBytes s.OldKeyboardInData)) (keyBytes r)) ?_)
    have n1 : ((keyBytes s.OldKeyboardInData).filter
        (fun c => decide (c ≥ cfg.KEY_A) && !decide (c ∉ keyBytes r))).Nodup := by
      have := hnd.filter (fun c => !decide (c ∉ keyBytes r))
      rw [arrayCodes, List.filter_filter] at this
      simpa [Bool.and_comm] using this
    have n2 : ((keyBytes r).filter
        (fun c => decide (c ≥ cfg.KEY_A) && !decide (c ∉ keyBytes s.OldKeyboardInData))).Nodup := by
      have := hr.2.filter (fun c => !decide (c ∉ keyBytes s.OldKeyboardInData))
      rw [arrayCodes, List.filter_filter] at this
      simpa [Bool.and_comm] using this
    rw [List.perm_ext_iff_of_nodup n1 n2]
    intro a
    simp only [List.mem_filter, Bool.and_eq_true, decide_eq_true_eq, Bool.not_eq_true',
      decide_eq_false_iff_not, not_not]
    tauto

theorem checkBins_KeyTimerLog (cfg : Config) (s : State) :
    (checkBins cfg s).KeyTimerLog = s.KeyTimerLog := by
  rw [checkBins_eq_lockoutTriggerRule]
  unfold lockoutTriggerRule
  split
  · cases hl : s.LockoutState with
    | LOCKOUT_STATE_INACTIVE => rw [KeyboardDoLockout_of_inactive cfg s hl]
    | LOCKOUT_STATE_TEMPORARY_ACTIVE => rw [KeyboardDoLockout_of_temporary cfg s (Or.inl hl)]
    | LOCKOUT_STATE_TEMPORARY_FLASHING => rw [KeyboardDoLockout_of_temporary cfg s (Or.inr hl)]
    | LOCKOUT_STATE_PERMANENT_ACTIVE => rw [KeyboardDoLockout_of_permanent cfg s hl]
  · rfl

theorem logMatchesShadow_initial (cfg : Config) (hk : validKeyCodes cfg) :
    logMatchesShadow cfg (initialState cfg) := by
  have hA : arrayCodes cfg (initialState cfg).OldKeyboardInData = [] := by
    have h0 := hk.1
    simp only [arrayCodes, keyBytes, keyBytesFrom, initialState, HID_KEYBOARD_INPUT_DATA_LEN]
    simp
    omega
  have hL : liveCodes (initialState cfg) = [] := by
    simp [liveCodes, initialState, List.filter_eq_nil_iff]
  refine ⟨by simp [initialState], by simp [initialState], by rw [hA]; exact List.nodup_nil, ?_⟩
  rw [hA, hL]
  simp [initialState, HID_KEYBOARD_INPUT_DATA_LEN, modifierCodes]

theorem Keyboard_ok (cfg : Config) (clk : Nat → Nat) (hk : validKeyCodes cfg)
    (hmax : 20 ≤ cfg.KEYBOARD_BOTDETECT_MAX_ACTIVE_KEYS) (r : List Nat) (s : State)
    (hr : validReport cfg r) (hinv : logMatchesShadow cfg s) :
    ∃ p, Upstream_HID_BotDetectKeyboard cfg clk r s = some p ∧ logMatchesShadow cfg p.1 := by
  by_cases hroll : hasRollover r
  · exact ⟨_, Keyboard_of_hasRollover cfg clk r s hroll, hinv⟩
  · obtain ⟨s1, e1, l1, p1⟩ := applyReportEvents_ok cfg clk hk hmax r s hr hinv
    rw [Keyboard_of_not_hasRollover cfg clk r s hroll, e1]
    refine ⟨_, rfl, ?_⟩
    have hsh := updateShadow_Old cfg clk r s s1 hr.1 hinv.2.1 e1
    have hlog : (updateShadow r (checkBins cfg s1)).KeyTimerLog = s1.KeyTimerLog := by
      simp only [updateShadow]
      exact checkBins_KeyTimerLog cfg s1
    refine ⟨by rw [hlog]; exact l1, by rw [hsh]; exact hr.1, by rw [hsh]; exact hr.2, ?_⟩
    simp only [liveCodes] at p1 ⊢
    rw [hlog, hsh]
    exact p1

theorem runKeyboard_ok (cfg : Config) (clk : Nat → Nat) (hk : validKeyCodes cfg)
    (hmax : 20 ≤ cfg.KEYBOARD_BOTDETECT_MAX_ACTIVE_KEYS) (reports : List (List Nat)) (s : State)
    (hr : ∀ r ∈ reports, validReport cfg r) (hinv : logMatchesShadow cfg s) :
    ∃ s', runKeyboard cfg clk reports s = some s' ∧ logMatchesShadow cfg s' := by
  induction reports generalizing s with
  | nil => exact ⟨s, rfl, hinv⟩
  | cons r rs ih =>
    obtain ⟨p, e, hp⟩ := Keyboard_ok cfg clk hk hmax r s (hr r (List.mem_cons_self _ _)) hinv
    obtain ⟨s', e', hs'⟩ := ih p.1 (fun x hx => hr x (List.mem_cons_of_mem _ hx)) hp
    exact ⟨s', by simp only [runKeyboard, e]; exact e', hs'⟩

set_option maxRecDepth 8000

/-- C6: the `while (1);` of `KeyDown` (line 301, commented as not happening) is reached
with `KEYBOARD_BOTDETECT_MAX_ACTIVE_KEYS = 14`, the capacity for 8 modifiers and 6 keys,
by reports of 8 bytes that repeat no key code. From the initial state, a report with all
8 modifiers and keys 4..9 pressed fills the 14 records and returns; the next report, in
which key 4 is released and key 10 pressed, logs the key-down of 10 before the key-up of
4 and never returns. The same halt is reached with 3 modifiers and keys 4..9 held, a
report of rollover codes, and then keys 10..15 in place of 4..9: the sixth new key-down
finds the 14 records taken by 3 modifiers, 6 old keys and 5 new keys. -/
theorem C6_halt_reached :
    sampleConfig.KEYBOARD_BOTDETECT_MAX_ACTIVE_KEYS = 14 ∧
    validReport sampleConfig [255, 0, 4, 5, 6, 7, 8, 9] ∧
    validReport sampleConfig [255, 0, 10, 5, 6, 7, 8, 9] ∧
    (runKeyboard sampleConfig sampleClock [[255, 0, 4, 5, 6, 7, 8, 9]]
      (initialState sampleConfig)).isSome = true ∧
    runKeyboard sampleConfig sampleClock
      [[255, 0, 4, 5, 6, 7, 8, 9], [255, 0, 10, 5, 6, 7, 8, 9]]
      (initialState sampleConfig) = none ∧
    validReport sampleConfig [7, 0, 4, 5, 6, 7, 8, 9] ∧
    validReport sampleConfig [7, 0, 10, 11, 12, 13, 14, 15] ∧
    (runKeyboard sampleConfig sampleClock
      [[7, 0, 4, 5, 6, 7, 8, 9], [7, 0, 1, 1, 1, 1, 1, 1]]
      (initialState sampleConfig)).isSome = true ∧
    runKeyboard sampleConfig sampleClock
      [[7, 0, 4, 5, 6, 7, 8, 9], [7, 0, 1, 1, 1, 1, 1, 1], [7, 0, 10, 11, 12, 13, 14, 15]]
      (initialState sampleConfig) = none := by
  refine ⟨rfl, by decide, by decide, ?_, ?_, by decide, by decide, ?_, ?_⟩
  · decide
  · decide
  · decide
  · decide

/-- The capacity that the event order of `Upstream_HID_BotDetectKeyboard` needs: with at
least 20 records in `KeyTimerLog` (8 modifiers, 6 held keys and 6 new keys logged before
the held ones are released), `KEY_A` and the eight modifier codes non-zero bytes, every
sequence of 8-byte keyboard reports that repeat no key code among bytes 2..7, started
from the initial state, is processed to the end. -/
theorem runKeyboard_returns_with_20_records (cfg : Config) (clk : Nat → Nat)
    (reports : List (List Nat))
    (hk : validKeyCodes cfg) (hmax : 20 ≤ cfg.KEYBOARD_BOTDETECT_MAX_ACTIVE_KEYS)
    (hr : ∀ r ∈ reports, validReport cfg r) :
    ∃ s', runKeyboard cfg clk reports (initialState cfg) = some s' := by
  obtain ⟨s', e, -⟩ := runKeyboard_ok cfg clk hk hmax reports (initialState cfg) hr
    (logMatchesShadow_initial cfg hk)
  exact ⟨s', e⟩

/-- With 20 records the two reports that halt the 14-record log are processed to the
end. -/
theorem runKeyboard_returns_with_20_records_sample :
    (runKeyboard { sampleConfig with KEYBOARD_BOTDETECT_MAX_ACTIVE_KEYS := 20 } sampleClock
      [[255, 0, 4, 5, 6, 7, 8, 9], [255, 0, 10, 5, 6, 7, 8, 9]]
      (initialState { sampleConfig with KEYBOARD_BOTDETECT_MAX_ACTIVE_KEYS := 20 })).isSome =
      true := by
  obtain ⟨s', h⟩ := runKeyboard_returns_with_20_records
    { sampleConfig with KEYBOARD_BOTDETECT_MAX_ACTIVE_KEYS := 20 } sampleClock
    [[255, 0, 4, 5, 6, 7, 8, 9], [255, 0, 10, 5, 6, 7, 8, 9]] (by decide) (by decide) (by decide)
  rw [h]
  rfl

/-- The bound 20 of `runKeyboard_returns_with_20_records` is the least one: with 19
records, 8 modifiers and keys 4..9 held, then keys 10..15 instead of 4..9 in the next
report, reach the `while (1);` of `KeyDown` at the sixth new key. -/
theorem halt_reachable_with_19_records :
    validReport { sampleConfig with KEYBOARD_BOTDETECT_MAX_ACTIVE_KEYS := 19 }
      [255, 0, 4, 5, 6, 7, 8, 9] ∧
    validReport { sampleConfig with KEYBOARD_BOTDETECT_MAX_ACTIVE_KEYS := 19 }
      [255, 0, 10, 11, 12, 13, 14, 15] ∧
    runKeyboard { sampleConfig with KEYBOARD_BOTDETECT_MAX_ACTIVE_KEYS := 19 } sampleClock
      [[255, 0, 4, 5, 6, 7, 8, 9], [255, 0, 10, 11, 12, 13, 14, 15]]
      (initialState { sampleConfig with KEYBOARD_BOTDETECT_MAX_ACTIVE_KEYS := 19 }) = none := by
  refine ⟨by decide, by decide, ?_⟩
  decide

/-! ## The two lockout triggers -/

/-- The mouse lockout trigger fired in `INACTIVE`, field by field. -/
theorem MouseDoLockout_of_inactive (cfg : Config) (s : State)
    (h : s.LockoutState = .LOCKOUT_STATE_INACTIVE) :
    Upstream_HID_BotDetectMouse_DoLockout cfg s =
      { s with
        MouseVelocityHistory :=
          zeroFill cfg.MOUSE_BOTDETECT_VELOCITY_HISTORY_SIZE s.MouseVelocityHistory,
        ConstantAccelerationCounter := 0,
        TemporaryLockoutTimeMs := 0,
        LockoutState := .LOCKOUT_STATE_TEMPORARY_ACTIVE,
        LED_Log := s.LED_Log ++ [.LED_STATUS_FLASH_BOTDETECT] } := by
  unfold Upstream_HID_BotDetectMouse_DoLockout
  rw [if_neg (by rw [h]; decide), if_neg (by rw [h]; decide)]
  rfl

/-- The mouse lockout trigger fired in a temporary phase. -/
theorem MouseDoLockout_of_temporary (cfg : Config) (s : State)
    (h : s.LockoutState = .LOCKOUT_STATE_TEMPORARY_ACTIVE ∨
      s.LockoutState = .LOCKOUT_STATE_TEMPORARY_FLASHING) :
    Upstream_HID_BotDetectMouse_DoLockout cfg s =
      { s with LockoutState := .LOCKOUT_STATE_PERMANENT_ACTIVE } := by
  unfold Upstream_HID_BotDetectMouse_DoLockout
  rw [if_neg (by rcases h with h | h <;> rw [h] <;> decide), if_pos h]

/-- C16: both lockout triggers, field by field. In `INACTIVE` the trigger sets
`LockoutState = TEMPORARY_ACTIVE` and `TemporaryLockoutTimeMs = 0`, calls
`LED_SetState(LED_STATUS_FLASH_BOTDETECT)` and zeroes the counters of its own channel
only (keyboard: the four histograms, not the drain counters; mouse: the velocity history
and `ConstantAccelerationCounter`), every other field being as before. In
`TEMPORARY_ACTIVE` or `TEMPORARY_FLASHING` it sets `LockoutState = PERMANENT_ACTIVE` and
changes nothing else. In `PERMANENT_ACTIVE` it changes nothing. -/
theorem C16_lockout_trigger_transition (cfg : Config) (s : State) (hwf : s.WF cfg) :
    (s.LockoutState = .LOCKOUT_STATE_INACTIVE →
      Upstream_HID_BotDetectKeyboard_DoLockout cfg s =
        { s with
          KeyDelayFastBinArray := List.replicate cfg.KEYBOARD_BOTDETECT_FAST_BIN_COUNT 0,
          KeyDowntimeFastBinArray := List.replicate cfg.KEYBOARD_BOTDETECT_FAST_BIN_COUNT 0,
          KeyDelaySlowBinArray := List.replicate cfg.KEYBOARD_BOTDETECT_SLOW_BIN_COUNT 0,
          KeyDowntimeSlowBinArray := List.replicate cfg.KEYBOARD_BOTDETECT_SLOW_BIN_COUNT 0,
          TemporaryLockoutTimeMs := 0,
          LockoutState := .LOCKOUT_STATE_TEMPORARY_ACTIVE,
          LED_Log := s.LED_Log ++ [.LED_STATUS_FLASH_BOTDETECT] } ∧
      Upstream_HID_BotDetectMouse_DoLockout cfg s =
        { s with
          MouseVelocityHistory :=
            List.replicate cfg.MOUSE_BOTDETECT_VELOCITY_HISTORY_SIZE 0,
          ConstantAccelerationCounter := 0,
          TemporaryLockoutTimeMs := 0,
          LockoutState := .LOCKOUT_STATE_TEMPORARY_ACTIVE,
          LED_Log := s.LED_Log ++ [.LED_STATUS_FLASH_BOTDETECT] }) ∧
    (s.LockoutState = .LOCKOUT_STATE_TEMPORARY_ACTIVE ∨
        s.LockoutState = .LOCKOUT_STATE_TEMPORARY_FLASHING →
      Upstream_HID_BotDetectKeyboard_DoLockout cfg s =
        { s with LockoutState := .LOCKOUT_STATE_PERMANENT_ACTIVE } ∧
      Upstream_HID_BotDetectMouse_DoLockout cfg s =
        { s with LockoutState := .LOCKOUT_STATE_PERMANENT_ACTIVE }) ∧
    (s.LockoutState = .LOCKOUT_STATE_PERMANENT_ACTIVE →
      Upstream_HID_BotDetectKeyboard_DoLockout cfg s = s ∧
      Upstream_HID_BotDetectMouse_DoLockout cfg s = s) := by
  obtain ⟨-, -, w1, w2, w3, w4, w5⟩ := hwf
  refine ⟨fun h => ⟨?_, ?_⟩, fun h => ⟨KeyboardDoLockout_of_temporary cfg s h,
    MouseDoLockout_of_temporary cfg s h⟩, fun h => ⟨KeyboardDoLockout_of_permanent cfg s h,
    MouseDoLockout_of_permanent cfg s h⟩⟩
  · rw [KeyboardDoLockout_of_inactive cfg s h, zeroFill_eq _ _ w1, zeroFill_eq _ _ w2,
      zeroFill_eq _ _ w3, zeroFill_eq _ _ w4]
  · rw [MouseDoLockout_of_inactive cfg s h, zeroFill_eq _ _ w5]

/-- Witness of C16: in `sampleBusyState` the keyboard trigger zeroes the histograms and
keeps the drain counters and the mouse history; the mouse trigger zeroes the mouse history
and counter and keeps the keyboard histograms; fired again in the state the first trigger
left, either one only sets `PERMANENT_ACTIVE`. -/
theorem C16_lockout_trigger_transition_witness :
    ((Upstream_HID_BotDetectKeyboard_DoLockout sampleConfig sampleBusyState).LockoutState =
        .LOCKOUT_STATE_TEMPORARY_ACTIVE ∧
      (Upstream_HID_BotDetectKeyboard_DoLockout sampleConfig sampleBusyState).KeyDelayFastBinArray =
        [0, 0, 0, 0, 0, 0, 0, 0] ∧
      (Upstream_HID_BotDetectKeyboard_DoLockout sampleConfig
        sampleBusyState).KeyDelayFastBinDrainDivideCount = 3 ∧
      (Upstream_HID_BotDetectKeyboard_DoLockout sampleConfig sampleBusyState).MouseVelocityHistory =
        [10, 12, 14, 16, 18, 20, 22, 24]) ∧
    ((Upstream_HID_BotDetectMouse_DoLockout sampleConfig sampleBusyState).LockoutState =
        .LOCKOUT_STATE_TEMPORARY_ACTIVE ∧
      (Upstream_HID_BotDetectMouse_DoLockout sampleConfig sampleBusyState).MouseVelocityHistory =
        [0, 0, 0, 0, 0, 0, 0, 0] ∧
      (Upstream_HID_BotDetectMouse_DoLockout sampleConfig
        sampleBusyState).ConstantAccelerationCounter = 0 ∧
      (Upstream_HID_BotDetectMouse_DoLockout sampleConfig sampleBusyState).KeyDelayFastBinArray =
        [1, 2, 6, 0, 0, 0, 0, 0]) ∧
    Upstream_HID_BotDetectMouse_DoLockout sampleConfig
        { sampleBusyState with LockoutState := .LOCKOUT_STATE_TEMPORARY_FLASHING } =
      { sampleBusyState with LockoutState := .LOCKOUT_STATE_PERMANENT_ACTIVE } := by
  have h1 := (C16_lockout_trigger_transition sampleConfig sampleBusyState (by decide)).1 rfl
  have h2 := ((C16_lockout_trigger_transition sampleConfig
    { sampleBusyState with LockoutState := .LOCKOUT_STATE_TEMPORARY_FLASHING }
    (by decide)).2.1 (Or.inr rfl)).2
  refine ⟨?_, ?_, h2⟩
  · rw [h1.1]; exact ⟨rfl, rfl, rfl, rfl⟩
  · rw [h1.2]; exact ⟨rfl, rfl, rfl, rfl⟩

/-! ## Mouse: acceleration events and quiescence -/

/-- The mouse entry point is lines 393-427 followed by `mouseTail`. -/
theorem Mouse_eq_mouseTail (cfg : Config) (clk : Nat → Nat) (m : List Nat) (s : State) :
    Upstream_HID_BotDetectMouse cfg clk m s =
      mouseTail cfg clk m (HAL_GetTick clk s) (mouseVelocity cfg m) (mouseDivisor cfg clk s)
        (mouseRawAcceleration cfg clk m s) (mouseAfterQuiescence cfg clk s) := rfl

theorem AccelEventStop_eq (cfg : Config) (t : Nat) (s : State) :
    Upstream_HID_BotDetectMouse_AccelEventStop cfg t s =
      { (if sub32 t s.AccelerationEventStartTime <
            cfg.MOUSE_BOTDETECT_LOCKOUT_MINIMUM_ACCEL_TIME_MS
          then Upstream_HID_BotDetectMouse_DoLockout cfg s else s) with
        AccelerationEventPolarityActive := 0 } := rfl

/-- C17: the acceleration-event test of lines 430-446. With no event active, an event
starts iff `|rawAcceleration| > MOUSE_BOTDETECT_ACCEL_EVENT_THRESHOLD` (strictly), with
the sign of `rawAcceleration` as polarity; otherwise the state is unchanged. With an event
of polarity 1 (or -1) active, the event is stopped at `now` and a new one of the
opposite polarity started iff `rawAcceleration < -THRESHOLD` (or `> THRESHOLD`);
otherwise the state, polarity and start time included, is unchanged. The stop at `now`
calls the mouse lockout trigger iff the stopped event lasted less than
`MOUSE_BOTDETECT_LOCKOUT_MINIMUM_ACCEL_TIME_MS`, that is iff
`(now - AccelerationEventStartTime) mod 2^32` is below it. -/
theorem C17_acceleration_event_tracking (cfg : Config) (clk : Nat → Nat) (now : Nat)
    (rawAcceleration : Int) (s : State) :
    (s.AccelerationEventPolarityActive = 0 →
      (|rawAcceleration| > (cfg.MOUSE_BOTDETECT_ACCEL_EVENT_THRESHOLD : Int) →
        mouseAccelEvent cfg clk now rawAcceleration s =
          { s with TickReads := s.TickReads + 1,
                   AccelerationEventStartTime := HAL_GetTick clk s,
                   AccelerationEventPolarityActive := rawAcceleration.sign }) ∧
      (¬ |rawAcceleration| > (cfg.MOUSE_BOTDETECT_ACCEL_EVENT_THRESHOLD : Int) →
        mouseAccelEvent cfg clk now rawAcceleration s = s)) ∧
    (s.AccelerationEventPolarityActive = 1 →
      (rawAcceleration < -(cfg.MOUSE_BOTDETECT_ACCEL_EVENT_THRESHOLD : Int) →
        mouseAccelEvent cfg clk now rawAcceleration s =
          Upstream_HID_BotDetectMouse_AccelEventStart clk rawAcceleration
            (Upstream_HID_BotDetectMouse_AccelEventStop cfg now s) ∧
        (mouseAccelEvent cfg clk now rawAcceleration s).AccelerationEventPolarityActive = -1) ∧
      (¬ rawAcceleration < -(cfg.MOUSE_BOTDETECT_ACCEL_EVENT_THRESHOLD : Int) →
        mouseAccelEvent cfg clk now rawAcceleration s = s)) ∧
    (s.AccelerationEventPolarityActive = -1 →
      (rawAcceleration > (cfg.MOUSE_BOTDETECT_ACCEL_EVENT_THRESHOLD : Int) →
        mouseAccelEvent cfg clk now rawAcceleration s =
          Upstream_HID_BotDetectMouse_AccelEventStart clk rawAcceleration
            (Upstream_HID_BotDetectMouse_AccelEventStop cfg now s) ∧
        (mouseAccelEvent cfg clk now rawAcceleration s).AccelerationEventPolarityActive = 1) ∧
      (¬ rawAcceleration > (cfg.MOUSE_BOTDETECT_ACCEL_EVENT_THRESHOLD : Int) →
        mouseAccelEvent cfg clk now rawAcceleration s = s)) ∧
    ((s.AccelerationEventPolarityActive = 1 ∧
        rawAcceleration < -(cfg.MOUSE_BOTDETECT_ACCEL_EVENT_THRESHOLD : Int)) ∨
      (s.AccelerationEventPolarityActive = -1 ∧
        rawAcceleration > (cfg.MOUSE_BOTDETECT_ACCEL_EVENT_THRESHOLD : Int)) →
      (mouseAccelEvent cfg clk now rawAcceleration s).LockoutState =
        (if sub32 now s.AccelerationEventStartTime <
            cfg.MOUSE_BOTDETECT_LOCKOUT_MINIMUM_ACCEL_TIME_MS
          then Upstream_HID_BotDetectMouse_DoLockout cfg s else s).LockoutState) := by
  have habs : |rawAcceleration| > (cfg.MOUSE_BOTDETECT_ACCEL_EVENT_THRESHOLD : Int) ↔
      rawAcceleration.natAbs > cfg.MOUSE_BOTDETECT_ACCEL_EVENT_THRESHOLD := by
    rw [Int.abs_eq_natAbs]; omega
  refine ⟨fun h0 => ⟨fun ha => ?_, fun ha => ?_⟩, fun h1 => ⟨fun ha => ?_, fun ha => ?_⟩,
    fun h1 => ⟨fun ha => ?_, fun ha => ?_⟩, fun hflip => ?_⟩
  · unfold mouseAccelEvent
    rw [if_pos h0, if_pos (habs.1 ha)]
    unfold Upstream_HID_BotDetectMouse_AccelEventStart
    have hs : (if rawAcceleration > 0 then (1 : Int) else -1) = rawAcceleration.sign := by
      have hne : rawAcceleration.natAbs ≠ 0 := by have := habs.1 ha; omega
      split
      · rename_i hp; exact (Int.sign_eq_one_of_pos hp).symm
      · rename_i hp
        exact (Int.sign_eq_neg_one_of_neg (by omega)).symm
    rw [hs]
  · unfold mouseAccelEvent
    rw [if_pos h0, if_neg (fun hc => ha (habs.2 hc))]
  · have hm : mouseAccelEvent cfg clk now rawAcceleration s =
        Upstream_HID_BotDetectMouse_AccelEventStart clk rawAcceleration
          (Upstream_HID_BotDetectMouse_AccelEventStop cfg now s) := by
      unfold mouseAccelEvent
      rw [if_neg (by rw [h1]; decide), if_pos (Or.inl ⟨h1, ha⟩)]
    refine ⟨hm, ?_⟩
    rw [hm]
    unfold Upstream_HID_BotDetectMouse_AccelEventStart
    simp only
    rw [if_neg (by omega)]
  · unfold mouseAccelEvent
    rw [if_neg (by rw [h1]; decide), if_neg]
    rintro (⟨-, h⟩ | ⟨h, -⟩)
    · exact ha h
    · rw [h1] at h; exact absurd h (by decide)
  · have hm : mouseAccelEvent cfg clk now rawAcceleration s =
        Upstream_HID_BotDetectMouse_AccelEventStart clk rawAcceleration
          (Upstream_HID_BotDetectMouse_AccelEventStop cfg now s) := by
      unfold mouseAccelEvent
      rw [if_neg (by rw [h1]; decide), if_pos (Or.inr ⟨h1, ha⟩)]
    refine ⟨hm, ?_⟩
    rw [hm]
    unfold Upstream_HID_BotDetectMouse_AccelEventStart
    simp only
    rw [if_pos (by omega)]
  · unfold mouseAccelEvent
    rw [if_neg (by rw [h1]; decide), if_neg]
    rintro (⟨h, -⟩ | ⟨-, h⟩)
    · rw [h1] at h; exact absurd h (by decide)
    · exact ha h
  · have hne : ¬ s.AccelerationEventPolarityActive = 0 := by
      rcases hflip with ⟨h, -⟩ | ⟨h, -⟩ <;> rw [h] <;> decide
    unfold mouseAccelEvent
    rw [if_neg hne, if_pos hflip]
    rfl

/-- Witness of C17, threshold 20: from no event, `rawAcceleration = 21` starts an event
of polarity 1 and `rawAcceleration = 20` starts none; with an event of polarity 1 active,
`rawAcceleration = -21` ends in polarity -1 and `rawAcceleration = -20` changes nothing.
An event of polarity 1 started at `t = 95` and flipped at `now = 100` lasted 5 ms, less
than the minimum 20 ms, and the stop trips the lockout. -/
theorem C17_acceleration_event_tracking_witness :
    (mouseAccelEvent sampleConfig sampleClock 100 21
        (initialState sampleConfig)).AccelerationEventPolarityActive = 1 ∧
    mouseAccelEvent sampleConfig sampleClock 100 20 (initialState sampleConfig) =
      initialState sampleConfig ∧
    (mouseAccelEvent sampleConfig sampleClock 100 (-21)
        { initialState sampleConfig with
          AccelerationEventPolarityActive := 1 }).AccelerationEventPolarityActive = -1 ∧
    mouseAccelEvent sampleConfig sampleClock 100 (-20)
        { initialState sampleConfig with AccelerationEventPolarityActive := 1 } =
      { initialState sampleConfig with AccelerationEventPolarityActive := 1 } ∧
    (mouseAccelEvent sampleConfig sampleClock 100 (-21) sampleIdleMouseState).LockoutState =
      .LOCKOUT_STATE_TEMPORARY_ACTIVE := by
  refine ⟨?_, ?_, ?_, ?_, ?_⟩
  · rw [((C17_acceleration_event_tracking sampleConfig sampleClock 100 21
      (initialState sampleConfig)).1 rfl).1 (by norm_num [sampleConfig])]
    rfl
  · exact ((C17_acceleration_event_tracking sampleConfig sampleClock 100 20
      (initialState sampleConfig)).1 rfl).2 (by norm_num [sampleConfig])
  · exact (((C17_acceleration_event_tracking sampleConfig sampleClock 100 (-21)
      { initialState sampleConfig with AccelerationEventPolarityActive := 1 }).2.1 rfl).1
      (by norm_num [sampleConfig])).2
  · exact ((C17_acceleration_event_tracking sampleConfig sampleClock 100 (-20)
      { initialState sampleConfig with AccelerationEventPolarityActive := 1 }).2.1 rfl).2
      (by norm_num [sampleConfig])
  · rw [(C17_acceleration_event_tracking sampleConfig sampleClock 100 (-21)
      sampleIdleMouseState).2.2.2 (Or.inl ⟨rfl, by norm_num [sampleConfig]⟩)]
    decide

theorem sub32_zero (v : Nat) : sub32 v 0 = v % 4294967296 := by
  unfold sub32
  simp

theorem toInt32_mod (v : Nat) : toInt32 (v % 4294967296) = toInt32 v := by
  unfold toInt32
  simp

theorem toInt32_of_lt (v : Nat) (h : v < 2147483648) : toInt32 v = (v : Int) := by
  unfold toInt32
  rw [Nat.mod_eq_of_lt (by omega), if_pos h]

/-- C18: the quiescence branch of lines 417-425. For every mouse report arriving with
`moveDelay > MOUSE_BOTDETECT_MOVE_DELAY_LIMIT`, the divisor `moveDelay` of line 429 is
`MOUSE_BOTDETECT_MOVE_DELAY_LIMIT`, `PreviousRawVelocity` is 0 at line 427 so that
`rawAcceleration` is the raw velocity (as `int32_t`), and the event polarity is 0 before
the start/flip test. An event in progress is stopped with stop time `LastMouseMoveTime`:
the mouse lockout trigger is called iff
`(LastMouseMoveTime - AccelerationEventStartTime) mod 2^32 <
MOUSE_BOTDETECT_LOCKOUT_MINIMUM_ACCEL_TIME_MS`. -/
theorem C18_mouse_quiescence (cfg : Config) (clk : Nat → Nat) (m : List Nat) (s : State)
    (h : mouseMoveDelay cfg (HAL_GetTick clk s) (mouseEntry s) >
      cfg.MOUSE_BOTDETECT_MOVE_DELAY_LIMIT) :
    mouseDivisor cfg clk s = cfg.MOUSE_BOTDETECT_MOVE_DELAY_LIMIT ∧
    (mouseAfterQuiescence cfg clk s).PreviousRawVelocity = 0 ∧
    mouseRawAcceleration cfg clk m s = toInt32 (mouseVelocity cfg m) ∧
    (mouseVelocity cfg m < 2147483648 →
      mouseRawAcceleration cfg clk m s = (mouseVelocity cfg m : Int)) ∧
    (mouseAfterQuiescence cfg clk s).AccelerationEventPolarityActive = 0 ∧
    (s.AccelerationEventPolarityActive ≠ 0 →
      mouseAfterQuiescence cfg clk s =
        Upstream_HID_BotDetectMouse_AccelEventStop cfg s.LastMouseMoveTime
          { mouseEntry s with PreviousRawVelocity := 0 } ∧
      (sub32 s.LastMouseMoveTime s.AccelerationEventStartTime <
          cfg.MOUSE_BOTDETECT_LOCKOUT_MINIMUM_ACCEL_TIME_MS →
        mouseAfterQuiescence cfg clk s =
          { Upstream_HID_BotDetectMouse_DoLockout cfg
              { mouseEntry s with PreviousRawVelocity := 0 } with
            AccelerationEventPolarityActive := 0 }) ∧
      (¬ sub32 s.LastMouseMoveTime s.AccelerationEventStartTime <
          cfg.MOUSE_BOTDETECT_LOCKOUT_MINIMUM_ACCEL_TIME_MS →
        mouseAfterQuiescence cfg clk s =
          { mouseEntry s with PreviousRawVelocity := 0,
                              AccelerationEventPolarityActive := 0 })) ∧
    (s.AccelerationEventPolarityActive = 0 →
      mouseAfterQuiescence cfg clk s = { mouseEntry s with PreviousRawVelocity := 0 }) ∧
    Upstream_HID_BotDetectMouse cfg clk m s =
      mouseTail cfg clk m (HAL_GetTick clk s) (mouseVelocity cfg m)
        cfg.MOUSE_BOTDETECT_MOVE_DELAY_LIMIT (toInt32 (mouseVelocity cfg m))
        (mouseAfterQuiescence cfg clk s) := by
  have hq : mouseQuiescence cfg (mouseMoveDelay cfg (HAL_GetTick clk s) (mouseEntry s))
      (mouseEntry s) =
      (cfg.MOUSE_BOTDETECT_MOVE_DELAY_LIMIT,
        if s.AccelerationEventPolarityActive ≠ 0
        then Upstream_HID_BotDetectMouse_AccelEventStop cfg s.LastMouseMoveTime
          { mouseEntry s with PreviousRawVelocity := 0 }
        else { mouseEntry s with PreviousRawVelocity := 0 }) := by
    unfold mouseQuiescence
    rw [if_pos h]
    rfl
  have hd : mouseDivisor cfg clk s = cfg.MOUSE_BOTDETECT_MOVE_DELAY_LIMIT := by
    unfold mouseDivisor; rw [hq]
  have ha : mouseAfterQuiescence cfg clk s =
      if s.AccelerationEventPolarityActive ≠ 0
      then Upstream_HID_BotDetectMouse_AccelEventStop cfg s.LastMouseMoveTime
        { mouseEntry s with PreviousRawVelocity := 0 }
      else { mouseEntry s with PreviousRawVelocity := 0 } := by
    unfold mouseAfterQuiescence; rw [hq]
  have hprv : (mouseAfterQuiescence cfg clk s).PreviousRawVelocity = 0 := by
    rw [ha]
    split
    · rw [AccelEventStop_eq]
      simp only
      split
      · cases hl : s.LockoutState with
        | LOCKOUT_STATE_INACTIVE =>
          rw [MouseDoLockout_of_inactive cfg _ (by simpa [mouseEntry] using hl)]
        | LOCKOUT_STATE_TEMPORARY_ACTIVE =>
          rw [MouseDoLockout_of_temporary cfg _ (Or.inl (by simpa [mouseEntry] using hl))]
        | LOCKOUT_STATE_TEMPORARY_FLASHING =>
          rw [MouseDoLockout_of_temporary cfg _ (Or.inr (by simpa [mouseEntry] using hl))]
        | LOCKOUT_STATE_PERMANENT_ACTIVE =>
          rw [MouseDoLockout_of_permanent cfg _ (by simpa [mouseEntry] using hl)]
      · rfl
    · rfl
  have hraw : mouseRawAcceleration cfg clk m s = toInt32 (mouseVelocity cfg m) := by
    unfold mouseRawAcceleration
    rw [hprv, sub32_zero, toInt32_mod]
  refine ⟨hd, hprv, hraw, fun hv => by rw [hraw, toInt32_of_lt _ hv], ?_, ?_, ?_, ?_⟩
  · rw [ha]
    split
    · rfl
    · rename_i hp
      simpa [mouseEntry] using hp
  · intro hp
    rw [ha, if_pos hp]
    refine ⟨rfl, fun hlt => ?_, fun hlt => ?_⟩
    · rw [AccelEventStop_eq]
      simp only [mouseEntry]
      rw [if_pos hlt]
    · rw [AccelEventStop_eq]
      simp only [mouseEntry]
      rw [if_neg hlt]
  · intro hp
    rw [ha, if_neg (by simpa using hp)]
  · rw [Mouse_eq_mouseTail, hd, hraw]

/-- Witness of C18: in `sampleIdleMouseState` a report arriving at `t = 205` has
`moveDelay = 11 = MOUSE_BOTDETECT_MOVE_DELAY_LIMIT + 1`; the divisor is 10, the raw
acceleration of the report `dX = 3, dY = 4` is its raw velocity 40, the polarity is
reset, and the trigger fires because the event lasted `100 - 95 = 5 < 20` ms up to the
last movement (up to `now` it would have lasted 110 ms). -/
theorem C18_mouse_quiescence_witness :
    mouseMoveDelay sampleConfig (HAL_GetTick sampleIdleClock sampleIdleMouseState)
      (mouseEntry sampleIdleMouseState) = 11 ∧
    mouseDivisor sampleConfig sampleIdleClock sampleIdleMouseState = 10 ∧
    mouseRawAcceleration sampleConfig sampleIdleClock [1, 3, 4, 0] sampleIdleMouseState = 40 ∧
    (mouseAfterQuiescence sampleConfig sampleIdleClock
      sampleIdleMouseState).AccelerationEventPolarityActive = 0 ∧
    (mouseAfterQuiescence sampleConfig sampleIdleClock sampleIdleMouseState).LockoutState =
      .LOCKOUT_STATE_TEMPORARY_ACTIVE := by
  have h := C18_mouse_quiescence sampleConfig sampleIdleClock [1, 3, 4, 0] sampleIdleMouseState
    (by decide)
  refine ⟨by decide, h.1, ?_, h.2.2.2.2.1, ?_⟩
  · rw [h.2.2.2.1 (by decide)]
    decide
  · rw [(h.2.2.2.2.2.1 (by decide)).2.1 (by decide)]
    rfl

theorem sub32_self (x : Nat) (h : x < 4294967296) : sub32 x x = 0 := by
  unfold sub32
  rw [Nat.mod_eq_of_lt h, show x + (4294967296 - x) = 4294967296 by omega]

/-- A mouse report read in the same millisecond as the last recorded movement has
`moveDelay = 0` at line 429, whatever the constants: line 413 rounds `0 + BINTERVAL / 2`
down to 0 poll intervals and the quiescence test only bounds `moveDelay` from above. -/
theorem mouseDivisor_same_millisecond (cfg : Config) (clk : Nat → Nat) (s : State)
    (h : HAL_GetTick clk s = s.LastMouseMoveTime) : mouseDivisor cfg clk s = 0 := by
  have hlt : s.LastMouseMoveTime < 4294967296 := by
    rw [← h]; unfold HAL_GetTick; exact Nat.mod_lt _ (by decide)
  have hmd : mouseMoveDelay cfg (HAL_GetTick clk s) (mouseEntry s) = 0 := by
    unfold mouseMoveDelay
    simp only [mouseEntry]
    rw [h, sub32_self _ hlt]
    have h0 : toInt32 0 = 0 := by decide
    rw [h0, zero_add]
    have hq : Int.tdiv ((cfg.HID_FS_BINTERVAL / 2 : Nat) : Int) (cfg.HID_FS_BINTERVAL : Int) =
        ((cfg.HID_FS_BINTERVAL / 2 / cfg.HID_FS_BINTERVAL : Nat) : Int) := by
      rw [Int.tdiv_eq_ediv (by omega) (by omega)]
      norm_cast
    rw [hq]
    have hz : cfg.HID_FS_BINTERVAL / 2 / cfg.HID_FS_BINTERVAL = 0 := by
      rcases Nat.eq_zero_or_pos cfg.HID_FS_BINTERVAL with h0 | hpos
      · rw [h0]
      · exact Nat.div_eq_of_lt (by omega)
    rw [hz]
    decide
  unfold mouseDivisor mouseQuiescence
  rw [hmd, if_neg (by omega)]

/-- C19 fails on the code: a mouse report read at `t = 100` when the last movement was
recorded at `t = 100` divides `velocity` by `moveDelay = 0` at line 429. With a quotient
of 0 for the zero divisor, the motion `dX = 3, dY = 4` of the report is erased. -/
theorem C19_divisor_is_zero :
    mouseDivisor sampleConfig sampleClock
      { initialState sampleConfig with LastMouseMoveTime := 100 } = 0 ∧
    (Upstream_HID_BotDetectMouse sampleConfig sampleClock [1, 3, 4, 0]
      { initialState sampleConfig with LastMouseMoveTime := 100 }).2 = [1, 0, 0, 0] :=
  ⟨mouseDivisor_same_millisecond sampleConfig sampleClock
    { initialState sampleConfig with LastMouseMoveTime := 100 } rfl, by decide⟩

/-! ## A warning always precedes permanent lockout -/

theorem AccelEventStop_of_inactive (cfg : Config) (t : Nat) (s : State)
    (h : s.LockoutState = .LOCKOUT_STATE_INACTIVE) :
    atMostWarned (Upstream_HID_BotDetectMouse_AccelEventStop cfg t s) := by
  rw [AccelEventStop_eq]
  split
  · rw [MouseDoLockout_of_inactive cfg s h]
    exact Or.inr ⟨rfl, rfl⟩
  · exact Or.inl h

theorem mouseQuiescence_of_inactive (cfg : Config) (d : Nat) (s : State)
    (h : s.LockoutState = .LOCKOUT_STATE_INACTIVE) :
    atMostWarned (mouseQuiescence cfg d s).2 := by
  unfold mouseQuiescence
  split
  · simp only
    split
    · exact AccelEventStop_of_inactive cfg _ _ h
    · exact Or.inl h
  · exact Or.inl h

theorem mouseAccelEvent_of_atMostWarned (cfg : Config) (clk : Nat → Nat) (now : Nat) (a : Int)
    (s : State) (h : atMostWarned s) :
    (mouseAccelEvent cfg clk now a s).LockoutState = .LOCKOUT_STATE_INACTIVE ∨
    (mouseAccelEvent cfg clk now a s).LockoutState = .LOCKOUT_STATE_TEMPORARY_ACTIVE := by
  have hP : s.LockoutState = .LOCKOUT_STATE_INACTIVE ∨
      s.LockoutState = .LOCKOUT_STATE_TEMPORARY_ACTIVE := by
    rcases h with h | ⟨h, -⟩
    · exact Or.inl h
    · exact Or.inr h
  unfold mouseAccelEvent
  split
  · split
    · exact hP
    · exact hP
  · rename_i hpol
    split
    · rcases h with h | ⟨-, h⟩
      · rcases AccelEventStop_of_inactive cfg now s h with h2 | ⟨h2, -⟩
        · exact Or.inl h2
        · exact Or.inr h2
      · exact absurd h hpol
    · exact hP

theorem Mouse_of_inactive (cfg : Config) (clk : Nat → Nat) (m : List Nat) (s : State)
    (h : s.LockoutState = .LOCKOUT_STATE_INACTIVE) :
    (Upstream_HID_BotDetectMouse cfg clk m s).1.LockoutState = .LOCKOUT_STATE_INACTIVE ∨
    (Upstream_HID_BotDetectMouse cfg clk m s).1.LockoutState =
      .LOCKOUT_STATE_TEMPORARY_ACTIVE := by
  have hq : atMostWarned (mouseAfterQuiescence cfg clk s) :=
    mouseQuiescence_of_inactive cfg _ (mouseEntry s) h
  have h3 : ∀ v a, (mouseAccelEvent cfg clk (HAL_GetTick clk s) a
      { mouseAfterQuiescence cfg clk s with PreviousRawVelocity := v }).LockoutState =
        .LOCKOUT_STATE_INACTIVE ∨
      (mouseAccelEvent cfg clk (HAL_GetTick clk s) a
      { mouseAfterQuiescence cfg clk s with PreviousRawVelocity := v }).LockoutState =
        .LOCKOUT_STATE_TEMPORARY_ACTIVE := by
    intro v a
    exact mouseAccelEvent_of_atMostWarned cfg clk _ a _ hq
  rw [Mouse_eq_mouseTail]
  unfold mouseTail
  simp only
  split
  · simp only [mouseConstantAcceleration_LockoutState]
    exact h3 _ _
  · exact h3 _ _

theorem lockoutTriggerRule_of_inactive (cfg : Config) (s : State)
    (h : s.LockoutState = .LOCKOUT_STATE_INACTIVE) :
    (lockoutTriggerRule cfg s).LockoutState = .LOCKOUT_STATE_INACTIVE ∨
    (lockoutTriggerRule cfg s).LockoutState = .LOCKOUT_STATE_TEMPORARY_ACTIVE := by
  unfold lockoutTriggerRule
  split
  · rw [KeyboardDoLockout_of_inactive cfg s h]
    exact Or.inr rfl
  · exact Or.inl h

/-- C20: a warning always precedes permanent lockout. From a state with
`LockoutState = INACTIVE`, one call of `Upstream_HID_BotDetectKeyboard` (when it returns),
of `Upstream_HID_BotDetectMouse` or of `Upstream_HID_BotDetect_Systick` ends in `INACTIVE`
or in `TEMPORARY_ACTIVE`, never in `PERMANENT_ACTIVE`: each report makes at most one
escalation step. -/
theorem C20_warning_before_permanent (cfg : Config) (clk : Nat → Nat) (s : State)
    (h : s.LockoutState = .LOCKOUT_STATE_INACTIVE) :
    (∀ r p, Upstream_HID_BotDetectKeyboard cfg clk r s = some p →
      (p.1.LockoutState = .LOCKOUT_STATE_INACTIVE ∨
        p.1.LockoutState = .LOCKOUT_STATE_TEMPORARY_ACTIVE) ∧
      p.1.LockoutState ≠ .LOCKOUT_STATE_PERMANENT_ACTIVE) ∧
    (∀ m, ((Upstream_HID_BotDetectMouse cfg clk m s).1.LockoutState = .LOCKOUT_STATE_INACTIVE ∨
        (Upstream_HID_BotDetectMouse cfg clk m s).1.LockoutState =
          .LOCKOUT_STATE_TEMPORARY_ACTIVE) ∧
      (Upstream_HID_BotDetectMouse cfg clk m s).1.LockoutState ≠
        .LOCKOUT_STATE_PERMANENT_ACTIVE) ∧
    Upstream_HID_BotDetect_Systick cfg s = s := by
  have hne : ∀ l : LockoutStateTypeDef, (l = .LOCKOUT_STATE_INACTIVE ∨
      l = .LOCKOUT_STATE_TEMPORARY_ACTIVE) → l ≠ .LOCKOUT_STATE_PERMANENT_ACTIVE := by
    intro l hl
    rcases hl with hl | hl <;> rw [hl] <;> decide
  refine ⟨?_, fun m => ⟨Mouse_of_inactive cfg clk m s h, hne _ (Mouse_of_inactive cfg clk m s h)⟩,
    ?_⟩
  · intro r p hp
    have key : p.1.LockoutState = .LOCKOUT_STATE_INACTIVE ∨
        p.1.LockoutState = .LOCKOUT_STATE_TEMPORARY_ACTIVE := by
      by_cases hroll : hasRollover r
      · rw [Keyboard_of_hasRollover cfg clk r s hroll] at hp
        simp only [Option.some.injEq] at hp
        rw [← hp]; exact Or.inl h
      · rw [Keyboard_of_not_hasRollover cfg clk r s hroll] at hp
        split at hp
        · simp at hp
        · rename_i s1 he
          simp only [Option.some.injEq] at hp
          have h1 : s1.LockoutState = .LOCKOUT_STATE_INACTIVE := by
            rw [(applyReportEvents_frame cfg clk r s s1 he).1]; exact h
          rw [← hp, checkBins_eq_lockoutTriggerRule]
          exact lockoutTriggerRule_of_inactive cfg s1 h1
    exact ⟨key, hne _ key⟩
  · unfold Upstream_HID_BotDetect_Systick
    rw [if_neg (by rw [h]; decide), if_neg (by rw [h]; decide)]

/-- Witness of C20: from `INACTIVE`, a keyboard report processed with a fast bin and a
slow bin above the threshold, and a mouse report whose quiescence stop fires the trigger
just before a new event starts, both return without `PERMANENT_ACTIVE`. -/
theorem C20_warning_before_permanent_witness :
    (Upstream_HID_BotDetectKeyboard sampleConfig sampleClock [0, 0, 4, 0, 0, 0, 0, 0]
        sampleOverThresholdState).isSome = true ∧
    (Upstream_HID_BotDetectKeyboard sampleConfig sampleClock [0, 0, 4, 0, 0, 0, 0, 0]
        sampleOverThresholdState).map (fun p => p.1.LockoutState) ≠
      some .LOCKOUT_STATE_PERMANENT_ACTIVE ∧
    (Upstream_HID_BotDetectMouse sampleConfig sampleIdleClock [1, 30, 40, 0]
        sampleIdleMouseState).1.LockoutState ≠ .LOCKOUT_STATE_PERMANENT_ACTIVE := by
  have hk := (C20_warning_before_permanent sampleConfig sampleClock sampleOverThresholdState
    rfl).1 [0, 0, 4, 0, 0, 0, 0, 0]
  have hm := ((C20_warning_before_permanent sampleConfig sampleIdleClock sampleIdleMouseState
    rfl).2.1 [1, 30, 40, 0]).2
  refine ⟨by decide, ?_, hm⟩
  cases h : Upstream_HID_BotDetectKeyboard sampleConfig sampleClock [0, 0, 4, 0, 0, 0, 0, 0]
      sampleOverThresholdState with
  | none => simp
  | some p =>
    have := (hk p h).2
    simpa using this

/-! ## Bin selection -/

theorem drainStep_eq (i : Nat) (d : List Nat) : drainStep i d = d.set i (d.getD i 0 - 1) := by
  unfold drainStep
  split
  · rfl
  · rename_i h
    have h0 : d.getD i 0 = 0 := by omega
    rw [h0]
    apply List.ext_getElem?
    intro k
    rw [List.getElem?_set]
    split
    · rename_i hk
      subst hk
      split
      · rename_i hl
        rw [List.getD_eq_getElem?_getD, List.getElem?_eq_getElem hl] at h0
        rw [List.getElem?_eq_getElem hl]
        simpa using h0
      · rename_i hl
        exact List.getElem?_eq_none (by omega)
    · rfl

theorem forLoop_drainStep_getElem? (n lo : Nat) (d : List Nat) (k : Nat) :
    (forLoop drainStep lo n d)[k]? =
      if lo ≤ k ∧ k < lo + n then d[k]?.map (fun x => x - 1) else d[k]? := by
  induction n generalizing lo d with
  | zero =>
    simp only [forLoop]
    rw [if_neg (by omega)]
  | succ n ih =>
    simp only [forLoop]
    rw [ih, drainStep_eq, List.getElem?_set]
    by_cases hk : lo = k
    · subst hk
      have c1 : ¬ (lo + 1 ≤ lo ∧ lo < lo + 1 + n) := by omega
      have c2 : lo ≤ lo ∧ lo < lo + (n + 1) := ⟨le_refl _, by omega⟩
      rw [if_neg c1, if_pos c2, if_pos rfl]
      by_cases hl : lo < d.length
      · rw [if_pos hl, List.getD_eq_getElem?_getD, List.getElem?_eq_getElem hl]
        rfl
      · rw [if_neg hl, List.getElem?_eq_none (by omega)]
        rfl
    · rw [if_neg hk]
      by_cases h1 : lo + 1 ≤ k ∧ k < lo + 1 + n
      · rw [if_pos h1, if_pos (by omega)]
      · rw [if_neg h1, if_neg (by omega)]

theorem forLoop_drainStep_eq_map (n : Nat) (d : List Nat) (h : d.length = n) :
    forLoop drainStep 0 n d = d.map (fun x => x - 1) := by
  apply List.ext_getElem?
  intro k
  rw [forLoop_drainStep_getElem?, List.getElem?_map]
  by_cases hk : k < n
  · rw [if_pos (by omega)]
  · rw [if_neg (by omega), List.getElem?_eq_none (by omega)]
    rfl

/-- The block `bins[idx]++; drainCount++; if (drainCount >= divider) ...` of `KeyDown` and
`KeyUp` on an array of `binCount` bins: the selected bin is incremented as a `uint8_t`,
and when the drain fires every positive bin loses 1 and the count restarts at 0. -/
theorem incrementAndDrain_eq (n div idx : Nat) (bins : List Nat) (cnt : Nat)
    (h : bins.length = n) :
    incrementAndDrain n div idx bins cnt =
      if (cnt + 1) % 256 ≥ div
      then ((bins.set idx ((bins.getD idx 0 + 1) % 256)).map (fun x => x - 1), 0)
      else (bins.set idx ((bins.getD idx 0 + 1) % 256), (cnt + 1) % 256) := by
  unfold incrementAndDrain
  simp only
  split
  · rw [forLoop_drainStep_eq_map _ _ (by simp [h])]
  · rfl

theorem sub32_add (last e : Nat) (h2 : e < 4294967296) :
    sub32 ((last + e) % 4294967296) last = e := by
  unfold sub32
  omega

/-- C15: bin selection of `KeyDown`. With `keyDelay = (now - LastKeyDownTime) mod 2^32`
(the true elapsed time also across the clock wrap), a returning `KeyDown` leaves
`LastKeyDownTime = now`; when `keyDelay < FAST_BIN_COUNT * FAST_BIN_WIDTH_MS` it
increments `KeyDelayFastBinArray[keyDelay / FAST_BIN_WIDTH_MS]` (a `uint8_t` increment,
followed by the drain of the fast bins when the drain count reaches the divider) and
leaves the slow bins and their drain count untouched; otherwise it increments
`KeyDelaySlowBinArray[(keyDelay mod (SLOW_BIN_COUNT * SLOW_BIN_WIDTH_MS)) /
SLOW_BIN_WIDTH_MS]` in the same way and leaves the fast bins untouched. A key delay of 0
selects fast bin 0 (when the fast range is not empty) and a key delay of exactly
`FAST_BIN_COUNT * FAST_BIN_WIDTH_MS` takes the slow path. -/
theorem C15_keydown_bin_selection (cfg : Config) (clk : Nat → Nat) (keyCode : Nat)
    (s s' : State) (hwf : s.WF cfg)
    (h : Upstream_HID_BotDetectKeyboard_KeyDown cfg clk keyCode s = some s') :
    s'.LastKeyDownTime = HAL_GetTick clk s ∧
    (∀ e, e < 4294967296 →
      HAL_GetTick clk s = (s.LastKeyDownTime + e) % 4294967296 → keyDownDelay clk s = e) ∧
    (keyDownDelay clk s <
        cfg.KEYBOARD_BOTDETECT_FAST_BIN_WIDTH_MS * cfg.KEYBOARD_BOTDETECT_FAST_BIN_COUNT →
      keyDownDelay clk s / cfg.KEYBOARD_BOTDETECT_FAST_BIN_WIDTH_MS <
        cfg.KEYBOARD_BOTDETECT_FAST_BIN_COUNT ∧
      s'.KeyDelayFastBinArray =
        (if (s.KeyDelayFastBinDrainDivideCount + 1) % 256 ≥
            cfg.KEYBOARD_BOTDETECT_FAST_BIN_DRAIN_DIVIDER
         then (s.KeyDelayFastBinArray.set
            (keyDownDelay clk s / cfg.KEYBOARD_BOTDETECT_FAST_BIN_WIDTH_MS)
            ((s.KeyDelayFastBinArray.getD
              (keyDownDelay clk s / cfg.KEYBOARD_BOTDETECT_FAST_BIN_WIDTH_MS) 0 + 1) % 256)).map
              (fun x => x - 1)
         else s.KeyDelayFastBinArray.set
            (keyDownDelay clk s / cfg.KEYBOARD_BOTDETECT_FAST_BIN_WIDTH_MS)
            ((s.KeyDelayFastBinArray.getD
              (keyDownDelay clk s / cfg.KEYBOARD_BOTDETECT_FAST_BIN_WIDTH_MS) 0 + 1) % 256)) ∧
      s'.KeyDelaySlowBinArray = s.KeyDelaySlowBinArray ∧
      s'.KeyDelaySlowBinDrainDivideCount = s.KeyDelaySlowBinDrainDivideCount) ∧
    (¬ keyDownDelay clk s <
        cfg.KEYBOARD_BOTDETECT_FAST_BIN_WIDTH_MS * cfg.KEYBOARD_BOTDETECT_FAST_BIN_COUNT →
      (0 < cfg.KEYBOARD_BOTDETECT_SLOW_BIN_WIDTH_MS * cfg.KEYBOARD_BOTDETECT_SLOW_BIN_COUNT →
        keyDownDelay clk s %
          (cfg.KEYBOARD_BOTDETECT_SLOW_BIN_WIDTH_MS * cfg.KEYBOARD_BOTDETECT_SLOW_BIN_COUNT) /
          cfg.KEYBOARD_BOTDETECT_SLOW_BIN_WIDTH_MS < cfg.KEYBOARD_BOTDETECT_SLOW_BIN_COUNT) ∧
      s'.KeyDelaySlowBinArray =
        (if (s.KeyDelaySlowBinDrainDivideCount + 1) % 256 ≥
            cfg.KEYBOARD_BOTDETECT_SLOW_BIN_DRAIN_DIVIDER
         then (s.KeyDelaySlowBinArray.set
            (keyDownDelay clk s %
              (cfg.KEYBOARD_BOTDETECT_SLOW_BIN_WIDTH_MS * cfg.KEYBOARD_BOTDETECT_SLOW_BIN_COUNT) /
              cfg.KEYBOARD_BOTDETECT_SLOW_BIN_WIDTH_MS)
            ((s.KeyDelaySlowBinArray.getD
              (keyDownDelay clk s %
                (cfg.KEYBOARD_BOTDETECT_SLOW_BIN_WIDTH_MS * cfg.KEYBOARD_BOTDETECT_SLOW_BIN_COUNT) /
                cfg.KEYBOARD_BOTDETECT_SLOW_BIN_WIDTH_MS) 0 + 1) % 256)).map (fun x => x - 1)
         else s.KeyDelaySlowBinArray.set
            (keyDownDelay clk s %
              (cfg.KEYBOARD_BOTDETECT_SLOW_BIN_WIDTH_MS * cfg.KEYBOARD_BOTDETECT_SLOW_BIN_COUNT) /
              cfg.KEYBOARD_BOTDETECT_SLOW_BIN_WIDTH_MS)
            ((s.KeyDelaySlowBinArray.getD
              (keyDownDelay clk s %
                (cfg.KEYBOARD_BOTDETECT_SLOW_BIN_WIDTH_MS * cfg.KEYBOARD_BOTDETECT_SLOW_BIN_COUNT) /
                cfg.KEYBOARD_BOTDETECT_SLOW_BIN_WIDTH_MS) 0 + 1) % 256)) ∧
      s'.KeyDelayFastBinArray = s.KeyDelayFastBinArray ∧
      s'.KeyDelayFastBinDrainDivideCount = s.KeyDelayFastBinDrainDivideCount) ∧
    (keyDownDelay clk s = 0 →
      0 < cfg.KEYBOARD_BOTDETECT_FAST_BIN_WIDTH_MS * cfg.KEYBOARD_BOTDETECT_FAST_BIN_COUNT →
      keyDownDelay clk s <
        cfg.KEYBOARD_BOTDETECT_FAST_BIN_WIDTH_MS * cfg.KEYBOARD_BOTDETECT_FAST_BIN_COUNT ∧
      keyDownDelay clk s / cfg.KEYBOARD_BOTDETECT_FAST_BIN_WIDTH_MS = 0) ∧
    (keyDownDelay clk s =
        cfg.KEYBOARD_BOTDETECT_FAST_BIN_WIDTH_MS * cfg.KEYBOARD_BOTDETECT_FAST_BIN_COUNT →
      ¬ keyDownDelay clk s <
        cfg.KEYBOARD_BOTDETECT_FAST_BIN_WIDTH_MS * cfg.KEYBOARD_BOTDETECT_FAST_BIN_COUNT) := by
  obtain ⟨-, -, w1, w2, -, -, -⟩ := hwf
  obtain ⟨i, rfl⟩ := KeyDown_eq cfg clk keyCode s s' h
  refine ⟨?_, ?_, ?_, ?_, ?_, ?_⟩
  · simp only [keyDownHistogram]
  · intro e h2 h3
    unfold keyDownDelay
    rw [h3]
    exact sub32_add _ _ h2
  · intro hf
    have hf' : sub32 (HAL_GetTick clk s) s.LastKeyDownTime <
        cfg.KEYBOARD_BOTDETECT_FAST_BIN_WIDTH_MS * cfg.KEYBOARD_BOTDETECT_FAST_BIN_COUNT := hf
    refine ⟨fast_index_lt hf, ?_, ?_, ?_⟩
    · simp only [keyDownHistogram, keyDownDelay]
      rw [if_pos hf']
      simp only [incrementAndDrain_eq _ _ _ _ _ w1]
      split <;> rfl
    · simp only [keyDownHistogram]
      rw [if_pos hf']
    · simp only [keyDownHistogram]
      rw [if_pos hf']
  · intro hf
    have hf' : ¬ sub32 (HAL_GetTick clk s) s.LastKeyDownTime <
        cfg.KEYBOARD_BOTDETECT_FAST_BIN_WIDTH_MS * cfg.KEYBOARD_BOTDETECT_FAST_BIN_COUNT := hf
    refine ⟨fun hpos => slow_index_lt hpos, ?_, ?_, ?_⟩
    · simp only [keyDownHistogram, keyDownDelay]
      rw [if_neg hf']
      simp only [incrementAndDrain_eq _ _ _ _ _ w2]
      split <;> rfl
    · simp only [keyDownHistogram]
      rw [if_neg hf']
    · simp only [keyDownHistogram]
      rw [if_neg hf']
  · intro h0 hpos
    rw [h0]
    exact ⟨hpos, Nat.zero_div _⟩
  · intro he
    omega

/-- Witness of C15: a `KeyDown` read at `t = 10` when the last key-down was at
`t = 2^32 - 6` has key delay 16, increments fast bin 2 (width 8), touches no slow bin and
leaves `LastKeyDownTime = 10`. -/
theorem C15_keydown_bin_selection_witness :
    keyDownDelay sampleWrapClock sampleWrapState = 16 ∧
    (Upstream_HID_BotDetectKeyboard_KeyDown sampleConfig sampleWrapClock 4 sampleWrapState).map
      (fun t => (t.LastKeyDownTime, t.KeyDelayFastBinArray, t.KeyDelaySlowBinArray)) =
    some (10, [0, 0, 1, 0, 0, 0, 0, 0], [0, 0, 0, 0, 0, 0, 0, 0]) := by
  cases h : Upstream_HID_BotDetectKeyboard_KeyDown sampleConfig sampleWrapClock 4
      sampleWrapState with
  | none => exact absurd h (by decide)
  | some t =>
    obtain ⟨h1, h2, h3, -, -, -⟩ := C15_keydown_bin_selection sampleConfig sampleWrapClock 4
      sampleWrapState t (by decide) h
    have hd := h2 16 (by decide) (by decide)
    obtain ⟨-, h4, h5, -⟩ := h3 (by rw [hd]; decide)
    refine ⟨hd, ?_⟩
    rw [Option.map_some', h1, h4, h5, hd]
    decide

/-! ## A lone key press -/

theorem keyDownHistogram_downtime (cfg : Config) (now : Nat) (s : State) :
    (keyDownHistogram cfg now s).KeyDowntimeFastBinArray = s.KeyDowntimeFastBinArray ∧
    (keyDownHistogram cfg now s).KeyDowntimeSlowBinArray = s.KeyDowntimeSlowBinArray ∧
    (keyDownHistogram cfg now s).KeyDowntimeFastBinDrainDivideCount =
      s.KeyDowntimeFastBinDrainDivideCount ∧
    (keyDownHistogram cfg now s).KeyDowntimeSlowBinDrainDivideCount =
      s.KeyDowntimeSlowBinDrainDivideCount ∧
    (keyDownHistogram cfg now s).TickReads = s.TickReads := by
  unfold keyDownHistogram
  dsimp only
  split <;> simp

theorem getD_replicate_zero (n i : Nat) : (List.replicate n 0).getD i 0 = 0 := by
  rw [List.getD_eq_getElem?_getD]
  by_cases h : i < n
  · simp [List.getElem?_replicate, h]
  · simp [List.getElem?_replicate, h]

theorem breakLoop_first (p : Nat → Bool) (n : Nat) (hn : 0 < n) (h : p 0 = true) :
    breakLoop p 0 n = 0 := by
  cases n with
  | zero => omega
  | succ n => simp [breakLoop, h]

theorem sub32_mod_add (t d : Nat) :
    sub32 ((t + d) % 4294967296) (t % 4294967296) = d % 4294967296 := by
  unfold sub32
  omega

/-- The first `KeyDown` after start-up takes record 0 of `KeyTimerLog`. -/
theorem KeyDown_initial (cfg : Config) (clk : Nat → Nat) (c : Nat)
    (hmax : 0 < cfg.KEYBOARD_BOTDETECT_MAX_ACTIVE_KEYS) :
    Upstream_HID_BotDetectKeyboard_KeyDown cfg clk c (initialState cfg) =
      some { keyDownHistogram cfg (clk 0 % 4294967296)
          { initialState cfg with TickReads := 1 } with
        KeyTimerLog := (initialState cfg).KeyTimerLog.set 0 ⟨c, clk 0 % 4294967296⟩ } := by
  have hlog : (keyDownHistogram cfg (HAL_GetTick clk (initialState cfg))
      { initialState cfg with TickReads := (initialState cfg).TickReads + 1 }).KeyTimerLog =
      (initialState cfg).KeyTimerLog := (keyDownHistogram_frame cfg _ _).2.2.2.2
  unfold Upstream_HID_BotDetectKeyboard_KeyDown
  simp only [hlog]
  rw [breakLoop_first _ _ hmax (by
    cases hm : cfg.KEYBOARD_BOTDETECT_MAX_ACTIVE_KEYS with
    | zero => omega
    | succ k => simp [initialState, hm, List.replicate])]
  rw [if_neg (by omega)]
  rfl

theorem firstKeyDownState_fields (cfg : Config) (clk : Nat → Nat) (c : Nat) :
    (firstKeyDownState cfg clk c).KeyTimerLog =
      (initialState cfg).KeyTimerLog.set 0 ⟨c, clk 0 % 4294967296⟩ ∧
    (firstKeyDownState cfg clk c).TickReads = 1 ∧
    (firstKeyDownState cfg clk c).KeyDowntimeFastBinArray =
      List.replicate cfg.KEYBOARD_BOTDETECT_FAST_BIN_COUNT 0 ∧
    (firstKeyDownState cfg clk c).KeyDowntimeSlowBinArray =
      List.replicate cfg.KEYBOARD_BOTDETECT_SLOW_BIN_COUNT 0 ∧
    (firstKeyDownState cfg clk c).KeyDowntimeFastBinDrainDivideCount = 0 ∧
    (firstKeyDownState cfg clk c).KeyDowntimeSlowBinDrainDivideCount = 0 := by
  exact ⟨rfl, (keyDownHistogram_downtime cfg _ _).2.2.2.2, (keyDownHistogram_downtime cfg _ _).1,
    (keyDownHistogram_downtime cfg _ _).2.1, (keyDownHistogram_downtime cfg _ _).2.2.1,
    (keyDownHistogram_downtime cfg _ _).2.2.2.1⟩

theorem firstRecord_of_firstKeyDownState (cfg : Config) (clk : Nat → Nat) (c : Nat)
    (hmax : 0 < cfg.KEYBOARD_BOTDETECT_MAX_ACTIVE_KEYS) :
    (firstKeyDownState cfg clk c).KeyTimerLog.getD 0 default = ⟨c, clk 0 % 4294967296⟩ := by
  rw [(firstKeyDownState_fields cfg clk c).1]
  cases hm : cfg.KEYBOARD_BOTDETECT_MAX_ACTIVE_KEYS with
  | zero => omega
  | succ k => simp [initialState, hm, List.replicate]

/-- The `KeyUp` of the key whose `KeyDown` was the first event after start-up. -/
theorem KeyUp_after_first (cfg : Config) (clk : Nat → Nat) (c : Nat)
    (hmax : 0 < cfg.KEYBOARD_BOTDETECT_MAX_ACTIVE_KEYS) :
    Upstream_HID_BotDetectKeyboard_KeyUp cfg clk c (firstKeyDownState cfg clk c) =
      some (keyUpHistogram cfg (sub32 (clk 1 % 4294967296) (clk 0 % 4294967296))
        { firstKeyDownState cfg clk c with
          KeyTimerLog := (firstKeyDownState cfg clk c).KeyTimerLog.set 0 ⟨0, clk 0 % 4294967296⟩,
          TickReads := 2 }) := by
  have hrec := firstRecord_of_firstKeyDownState cfg clk c hmax
  have hslot : keyUpSlot cfg c (firstKeyDownState cfg clk c) = 0 := by
    unfold keyUpSlot
    exact breakLoop_first _ _ hmax (by rw [hrec]; simp)
  have hdt : keyUpDowntime cfg clk c (firstKeyDownState cfg clk c) =
      sub32 (clk 1 % 4294967296) (clk 0 % 4294967296) := by
    unfold keyUpDowntime HAL_GetTick
    rw [hslot, hrec, (firstKeyDownState_fields cfg clk c).2.1]
  unfold Upstream_HID_BotDetectKeyboard_KeyUp
  simp only [hslot, hdt, hrec, (firstKeyDownState_fields cfg clk c).2.1]
  rw [if_neg (by omega)]

/-- C13: a lone key press. From the initial state, with both drain dividers at least 2,
a `KeyDown` of a key read at time `t` followed by its `KeyUp` read at time `t + d` both
return, and with `d` taken modulo `2^32` exactly one downtime bin goes from 0 to 1 while
every other downtime bin stays 0: `KeyDowntimeFastBinArray[d / FAST_BIN_WIDTH_MS]` when
`d < FAST_BIN_COUNT * FAST_BIN_WIDTH_MS`, otherwise (the slow range not being empty)
`KeyDowntimeSlowBinArray[(d mod (SLOW_BIN_COUNT * SLOW_BIN_WIDTH_MS)) / SLOW_BIN_WIDTH_MS]`.
Afterwards every record of `KeyTimerLog` is free again. -/
theorem C13_lone_key_press (cfg : Config) (clk : Nat → Nat) (keyCode t d : Nat)
    (hmax : 0 < cfg.KEYBOARD_BOTDETECT_MAX_ACTIVE_KEYS)
    (hdf : 2 ≤ cfg.KEYBOARD_BOTDETECT_FAST_BIN_DRAIN_DIVIDER)
    (hds : 2 ≤ cfg.KEYBOARD_BOTDETECT_SLOW_BIN_DRAIN_DIVIDER)
    (h0 : clk 0 = t) (h1 : clk 1 = t + d) :
    ∃ s1 s2, Upstream_HID_BotDetectKeyboard_KeyDown cfg clk keyCode (initialState cfg) = some s1 ∧
      Upstream_HID_BotDetectKeyboard_KeyUp cfg clk keyCode s1 = some s2 ∧
      (d % 4294967296 <
          cfg.KEYBOARD_BOTDETECT_FAST_BIN_WIDTH_MS * cfg.KEYBOARD_BOTDETECT_FAST_BIN_COUNT →
        d % 4294967296 / cfg.KEYBOARD_BOTDETECT_FAST_BIN_WIDTH_MS <
          cfg.KEYBOARD_BOTDETECT_FAST_BIN_COUNT ∧
        s2.KeyDowntimeFastBinArray =
          (List.replicate cfg.KEYBOARD_BOTDETECT_FAST_BIN_COUNT 0).set
            (d % 4294967296 / cfg.KEYBOARD_BOTDETECT_FAST_BIN_WIDTH_MS) 1 ∧
        s2.KeyDowntimeSlowBinArray = List.replicate cfg.KEYBOARD_BOTDETECT_SLOW_BIN_COUNT 0) ∧
      (¬ d % 4294967296 <
          cfg.KEYBOARD_BOTDETECT_FAST_BIN_WIDTH_MS * cfg.KEYBOARD_BOTDETECT_FAST_BIN_COUNT →
        0 < cfg.KEYBOARD_BOTDETECT_SLOW_BIN_WIDTH_MS * cfg.KEYBOARD_BOTDETECT_SLOW_BIN_COUNT →
        d % 4294967296 %
            (cfg.KEYBOARD_BOTDETECT_SLOW_BIN_WIDTH_MS * cfg.KEYBOARD_BOTDETECT_SLOW_BIN_COUNT) /
            cfg.KEYBOARD_BOTDETECT_SLOW_BIN_WIDTH_MS < cfg.KEYBOARD_BOTDETECT_SLOW_BIN_COUNT ∧
        s2.KeyDowntimeSlowBinArray =
          (List.replicate cfg.KEYBOARD_BOTDETECT_SLOW_BIN_COUNT 0).set
            (d % 4294967296 %
              (cfg.KEYBOARD_BOTDETECT_SLOW_BIN_WIDTH_MS * cfg.KEYBOARD_BOTDETECT_SLOW_BIN_COUNT) /
              cfg.KEYBOARD_BOTDETECT_SLOW_BIN_WIDTH_MS) 1 ∧
        s2.KeyDowntimeFastBinArray = List.replicate cfg.KEYBOARD_BOTDETECT_FAST_BIN_COUNT 0) ∧
      s2.KeyTimerLog.length = cfg.KEYBOARD_BOTDETECT_MAX_ACTIVE_KEYS ∧
      ∀ e ∈ s2.KeyTimerLog, e.KeyCode = 0 := by
  obtain ⟨f1, f2, f3, f4, f5, f6⟩ := firstKeyDownState_fields cfg clk keyCode
  have hdt : sub32 (clk 1 % 4294967296) (clk 0 % 4294967296) = d % 4294967296 := by
    rw [h0, h1]; exact sub32_mod_add t d
  refine ⟨firstKeyDownState cfg clk keyCode, _, KeyDown_initial cfg clk keyCode hmax,
    KeyUp_after_first cfg clk keyCode hmax, ?_, ?_, ?_, ?_⟩
  · intro hf
    rw [hdt]
    refine ⟨fast_index_lt hf, ?_, ?_⟩
    · simp only [keyUpHistogram]
      rw [if_pos hf]
      simp only [f3, f5]
      rw [incrementAndDrain_eq _ _ _ _ _ (by simp), if_neg (by omega), getD_replicate_zero]
    · simp only [keyUpHistogram]
      rw [if_pos hf]
      exact f4
  · intro hf hpos
    rw [hdt]
    refine ⟨slow_index_lt hpos, ?_, ?_⟩
    · simp only [keyUpHistogram]
      rw [if_neg hf]
      simp only [f4, f6]
      rw [incrementAndDrain_eq _ _ _ _ _ (by simp), if_neg (by omega), getD_replicate_zero]
    · simp only [keyUpHistogram]
      rw [if_neg hf]
      exact f3
  · rw [(keyUpHistogram_frame cfg _ _).2.2.2.2]
    simp only [f1, List.length_set]
    simp [initialState]
  · rw [(keyUpHistogram_frame cfg _ _).2.2.2.2]
    simp only [f1, List.set_set]
    intro e he
    rcases List.mem_or_eq_of_mem_set he with he | he
    · simp only [initialState] at he
      rw [List.eq_of_mem_replicate he]
    · rw [he]

/-- Witness of C13: key 4 pressed at `t = 1000` and released at `t = 1080` (fast range
64 ms, slow bins 32 ms wide) puts 1 in slow downtime bin 2 and leaves every fast downtime
bin at 0. -/
theorem C13_lone_key_press_witness :
    ((Upstream_HID_BotDetectKeyboard_KeyDown sampleConfig samplePressClock 4
        (initialState sampleConfig)).bind
      (Upstream_HID_BotDetectKeyboard_KeyUp sampleConfig samplePressClock 4)).map
      (fun t => (t.KeyDowntimeFastBinArray, t.KeyDowntimeSlowBinArray)) =
    some ([0, 0, 0, 0, 0, 0, 0, 0], [0, 0, 1, 0, 0, 0, 0, 0]) := by
  obtain ⟨s1, s2, e1, e2, -, hslow, -, -⟩ := C13_lone_key_press sampleConfig samplePressClock
    4 1000 80 (by decide) (by decide) (by decide) rfl rfl
  obtain ⟨-, h2, h3⟩ := hslow (by decide) (by decide)
  rw [e1, Option.some_bind, e2, Option.map_some', h2, h3]
  decide

/-! ## Event extraction -/

theorem keyDownHistogram_setOld (cfg : Config) (now : Nat) (s : State) (o : List Nat) :
    keyDownHistogram cfg now { s with OldKeyboardInData := o } =
      { keyDownHistogram cfg now s with OldKeyboardInData := o } := by
  unfold keyDownHistogram
  dsimp only
  split <;> rfl

theorem keyUpHistogram_setOld (cfg : Config) (d : Nat) (s : State) (o : List Nat) :
    keyUpHistogram cfg d { s with OldKeyboardInData := o } =
      { keyUpHistogram cfg d s with OldKeyboardInData := o } := by
  unfold keyUpHistogram
  dsimp only
  split <;> rfl

theorem KeyDown_setOld (cfg : Config) (clk : Nat → Nat) (c : Nat) (s : State) (o : List Nat) :
    Upstream_HID_BotDetectKeyboard_KeyDown cfg clk c { s with OldKeyboardInData := o } =
      (Upstream_HID_BotDetectKeyboard_KeyDown cfg clk c s).map
        (fun t => { t with OldKeyboardInData := o }) := by
  unfold Upstream_HID_BotDetectKeyboard_KeyDown
  simp only [HAL_GetTick]
  have e := keyDownHistogram_setOld cfg (clk s.TickReads % 4294967296)
    { s with TickReads := s.TickReads + 1 } o
  simp only at e
  rw [e]
  simp only
  split <;> rfl

theorem KeyUp_setOld (cfg : Config) (clk : Nat → Nat) (c : Nat) (s : State) (o : List Nat) :
    Upstream_HID_BotDetectKeyboard_KeyUp cfg clk c { s with OldKeyboardInData := o } =
      (Upstream_HID_BotDetectKeyboard_KeyUp cfg clk c s).map
        (fun t => { t with OldKeyboardInData := o }) := by
  unfold Upstream_HID_BotDetectKeyboard_KeyUp
  simp only [HAL_GetTick, keyUpSlot, keyUpDowntime]
  generalize breakLoop (fun i => (s.KeyTimerLog.getD i default).KeyCode == c) 0
    cfg.KEYBOARD_BOTDETECT_MAX_ACTIVE_KEYS = i
  split
  · rfl
  · rw [Option.map_some']
    have e := keyUpHistogram_setOld cfg
      (sub32 (clk s.TickReads % 4294967296) (s.KeyTimerLog.getD i default).KeyDownStart)
      { s with KeyTimerLog := s.KeyTimerLog.set i ⟨0, (s.KeyTimerLog.getD i default).KeyDownStart⟩,
               TickReads := s.TickReads + 1 } o
    simp only at e
    rw [← e]

theorem applyEvent_setOld (cfg : Config) (clk : Nat → Nat) (e : KeyEvent) (s : State)
    (o : List Nat) :
    applyEvent cfg clk e { s with OldKeyboardInData := o } =
      (applyEvent cfg clk e s).map (fun t => { t with OldKeyboardInData := o }) := by
  cases e with
  | KeyDown c => exact KeyDown_setOld cfg clk c s o
  | KeyUp c => exact KeyUp_setOld cfg clk c s o

theorem applyEvents_setOld (cfg : Config) (clk : Nat → Nat) (es : List KeyEvent) (s : State)
    (o : List Nat) :
    applyEvents cfg clk es { s with OldKeyboardInData := o } =
      (applyEvents cfg clk es s).map (fun t => { t with OldKeyboardInData := o }) := by
  induction es generalizing s with
  | nil => rfl
  | cons e es ih =>
    simp only [applyEvents, applyEvent_setOld]
    cases applyEvent cfg clk e s with
    | none => rfl
    | some s1 => simp only [Option.map_some']; exact ih s1

theorem applyEvents_append (cfg : Config) (clk : Nat → Nat) (es fs : List KeyEvent) (s : State) :
    applyEvents cfg clk (es ++ fs) s =
      (applyEvents cfg clk es s).bind (applyEvents cfg clk fs) := by
  induction es generalizing s with
  | nil => rfl
  | cons e es ih =>
    simp only [List.cons_append, applyEvents]
    cases applyEvent cfg clk e s with
    | none => rfl
    | some s1 => exact ih s1

theorem applyEvent_Old (cfg : Config) (clk : Nat → Nat) (e : KeyEvent) (s t : State)
    (h : applyEvent cfg clk e s = some t) : t.OldKeyboardInData = s.OldKeyboardInData := by
  cases e with
  | KeyDown c => exact (KeyDown_frame cfg clk c s t h).1
  | KeyUp c => exact (KeyUp_frame cfg clk c s t h).1

theorem applyEvents_Old (cfg : Config) (clk : Nat → Nat) (es : List KeyEvent) (s t : State)
    (h : applyEvents cfg clk es s = some t) : t.OldKeyboardInData = s.OldKeyboardInData := by
  induction es generalizing s with
  | nil =>
    simp only [applyEvents, Option.some.injEq] at h
    rw [h]
  | cons e es ih =>
    simp only [applyEvents] at h
    split at h
    · simp at h
    · rename_i s1 he
      rw [ih s1 h, applyEvent_Old cfg clk e s s1 he]

theorem getD_set_zero_half (o : List Nat) :
    (o.set 0 (o.getD 0 0 / 2)).getD 0 0 = o.getD 0 0 / 2 := by
  cases o with
  | nil => rfl
  | cons x xs => rfl

theorem modifierStep_eq (cfg : Config) (clk : Nat → Nat) (i tm : Nat) (s : State) :
    modifierStep cfg clk i (tm, s) =
      (applyEvents cfg clk
        (if tm % 2 = 1 ∧ s.OldKeyboardInData.getD 0 0 % 2 = 0 then
            [KeyEvent.KeyDown ((cfg.KEY_MODIFIER_BASE + i) % 256)]
          else if tm % 2 = 0 ∧ s.OldKeyboardInData.getD 0 0 % 2 = 1 then
            [KeyEvent.KeyUp ((cfg.KEY_MODIFIER_BASE + i) % 256)]
          else []) s).map
        (fun t => (tm / 2,
          { t with
            OldKeyboardInData := s.OldKeyboardInData.set 0 (s.OldKeyboardInData.getD 0 0 / 2) })) := by
  unfold modifierStep
  simp only
  by_cases c1 : tm % 2 = 1 ∧ s.OldKeyboardInData.getD 0 0 % 2 = 0
  · rw [if_pos c1, if_pos c1]
    simp only [applyEvents, applyEvent]
    cases hd : Upstream_HID_BotDetectKeyboard_KeyDown cfg clk
        ((cfg.KEY_MODIFIER_BASE + i) % 256) s with
    | none => rfl
    | some s1 =>
      have hf := (KeyDown_frame cfg clk _ s s1 hd).1
      simp only
      rw [if_neg (by omega)]
      simp only [hf, Option.map_some']
  · rw [if_neg c1, if_neg c1]
    simp only
    by_cases c2 : tm % 2 = 0 ∧ s.OldKeyboardInData.getD 0 0 % 2 = 1
    · rw [if_pos c2, if_pos c2]
      simp only [applyEvents, applyEvent]
      cases hu : Upstream_HID_BotDetectKeyboard_KeyUp cfg clk
          ((cfg.KEY_MODIFIER_BASE + i) % 256) s with
      | none => rfl
      | some s1 =>
        have hf := (KeyUp_frame cfg clk _ s s1 hu).1
        simp only [hf, Option.map_some']
    · rw [if_neg c2, if_neg c2]
      rfl

theorem modifierLoop_eq (cfg : Config) (clk : Nat → Nat) (r0 s0 : Nat) (n i tm : Nat)
    (s : State) (htm : tm = r0 / 2 ^ i) (hb : s.OldKeyboardInData.getD 0 0 = s0 / 2 ^ i) :
    forLoopM (modifierStep cfg clk) i n (tm, s) =
      (applyEvents cfg clk (modifierEventsFrom cfg r0 s0 i n) s).map
        (fun t => (tm / 2 ^ n,
          { t with OldKeyboardInData := shiftShadowByte n s.OldKeyboardInData })) := by
  induction n generalizing i tm s with
  | zero =>
    simp only [forLoopM, modifierEventsFrom, applyEvents, Option.map_some', pow_zero,
      Nat.div_one, shiftShadowByte]
  | succ n ih =>
    have hev : (if tm % 2 = 1 ∧ s.OldKeyboardInData.getD 0 0 % 2 = 0 then
            [KeyEvent.KeyDown ((cfg.KEY_MODIFIER_BASE + i) % 256)]
          else if tm % 2 = 0 ∧ s.OldKeyboardInData.getD 0 0 % 2 = 1 then
            [KeyEvent.KeyUp ((cfg.KEY_MODIFIER_BASE + i) % 256)]
          else []) = modifierEvent cfg r0 s0 i := by
      unfold modifierEvent
      rw [htm, hb]
    simp only [forLoopM, modifierEventsFrom, applyEvents_append]
    rw [modifierStep_eq, hev]
    cases h1 : applyEvents cfg clk (modifierEvent cfg r0 s0 i) s with
    | none => rfl
    | some t1 =>
      simp only [Option.map_some', Option.some_bind]
      have hdiv : ∀ x : Nat, x / 2 / 2 ^ n = x / 2 ^ (n + 1) := by
        intro x
        rw [Nat.div_div_eq_div_mul, pow_succ, Nat.mul_comm]
      rw [ih (i + 1) (tm / 2) _ (by rw [htm, Nat.div_div_eq_div_mul, pow_succ]) (by
            simp only
            rw [getD_set_zero_half, hb, Nat.div_div_eq_div_mul, pow_succ])]
      rw [applyEvents_setOld]
      cases applyEvents cfg clk (modifierEventsFrom cfg r0 s0 (i + 1) n) t1 with
      | none => rfl
      | some t2 =>
        simp only [Option.map_some', hdiv, shiftShadowByte]

theorem keyDownScan_eq (cfg : Config) (clk : Nat → Nat) (r : List Nat) (n i : Nat) (s : State) :
    forLoopM (keyDownScanStep cfg clk r) i n s =
      applyEvents cfg clk (((keyBytesFrom r i n).filter
        (fun c => decide (c ≥ cfg.KEY_A) && decide (c ∉ keyBytes s.OldKeyboardInData))).map
        KeyEvent.KeyDown) s := by
  induction n generalizing i s with
  | zero => rfl
  | succ n ih =>
    simp only [forLoopM, keyBytesFrom]
    by_cases hc : r.getD i 0 ≥ cfg.KEY_A ∧ r.getD i 0 ∉ keyBytes s.OldKeyboardInData
    · have hstep : keyDownScanStep cfg clk r i s =
          Upstream_HID_BotDetectKeyboard_KeyDown cfg clk (r.getD i 0) s := by
        unfold keyDownScanStep
        simp only
        rw [if_pos hc.1, if_pos ((scan_not_found_iff _ _).2 hc.2)]
      rw [hstep, List.filter_cons_of_pos (by simpa using hc)]
      simp only [List.map_cons, applyEvents, applyEvent]
      cases hd : Upstream_HID_BotDetectKeyboard_KeyDown cfg clk (r.getD i 0) s with
      | none => rfl
      | some s1 =>
        simp only
        rw [ih (i + 1) s1, (KeyDown_frame cfg clk _ s s1 hd).1]
    · have hstep : keyDownScanStep cfg clk r i s = some s := by
        unfold keyDownScanStep
        simp only
        by_cases h1 : r.getD i 0 ≥ cfg.KEY_A
        · rw [if_pos h1, if_neg]
          rw [scan_not_found_iff]
          exact fun h2 => hc ⟨h1, h2⟩
        · rw [if_neg h1]
      rw [hstep, List.filter_cons_of_neg (by simpa using hc)]
      exact ih (i + 1) s

theorem keyUpScan_eq (cfg : Config) (clk : Nat → Nat) (r : List Nat) (n i : Nat) (s : State) :
    forLoopM (keyUpScanStep cfg clk r) i n s =
      applyEvents cfg clk (((keyBytesFrom s.OldKeyboardInData i n).filter
        (fun c => decide (c ≥ cfg.KEY_A) && decide (c ∉ keyBytes r))).map
        KeyEvent.KeyUp) s := by
  induction n generalizing i s with
  | zero => rfl
  | succ n ih =>
    simp only [forLoopM, keyBytesFrom]
    by_cases hc : s.OldKeyboardInData.getD i 0 ≥ cfg.KEY_A ∧
        s.OldKeyboardInData.getD i 0 ∉ keyBytes r
    · have hstep : keyUpScanStep cfg clk r i s =
          Upstream_HID_BotDetectKeyboard_KeyUp cfg clk (s.OldKeyboardInData.getD i 0) s := by
        unfold keyUpScanStep
        simp only
        rw [if_pos hc.1, if_pos ((scan_not_found_iff _ _).2 hc.2)]
      rw [hstep, List.filter_cons_of_pos (by simpa using hc)]
      simp only [List.map_cons, applyEvents, applyEvent]
      cases hd : Upstream_HID_BotDetectKeyboard_KeyUp cfg clk (s.OldKeyboardInData.getD i 0) s with
      | none => rfl
      | some s1 =>
        simp only
        rw [ih (i + 1) s1, (KeyUp_frame cfg clk _ s s1 hd).1]
    · have hstep : keyUpScanStep cfg clk r i s = some s := by
        unfold keyUpScanStep
        simp only
        by_cases h1 : s.OldKeyboardInData.getD i 0 ≥ cfg.KEY_A
        · rw [if_pos h1, if_neg]
          rw [scan_not_found_iff]
          exact fun h2 => hc ⟨h1, h2⟩
        · rw [if_neg h1]
      rw [hstep, List.filter_cons_of_neg (by simpa using hc)]
      exact ih (i + 1) s

theorem shiftShadowByte_getD (n : Nat) (o : List Nat) (k : Nat) (hk : 1 ≤ k) :
    (shiftShadowByte n o).getD k 0 = o.getD k 0 := by
  induction n generalizing o with
  | zero => rfl
  | succ n ih =>
    simp only [shiftShadowByte]
    rw [ih]
    simp only [List.getD_eq_getElem?_getD]
    rw [List.getElem?_set_ne (by omega)]

theorem keyBytes_shiftShadowByte (n : Nat) (o : List Nat) :
    keyBytes (shiftShadowByte n o) = keyBytes o :=
  keyBytes_congr _ _ (fun k hk => shiftShadowByte_getD n o k hk)

/-- The three event loops of lines 94-141 apply the events of `extractEvents` in order;
of the state they change nothing else than byte 0 of the shadow, shifted out by line 107. -/
theorem applyReportEvents_eq_applyEvents (cfg : Config) (clk : Nat → Nat) (r : List Nat)
    (s : State) :
    applyReportEvents cfg clk r s =
      (applyEvents cfg clk (extractEvents cfg r s.OldKeyboardInData) s).map
        (fun t => { t with
          OldKeyboardInData := shiftShadowByte 8 s.OldKeyboardInData }) := by
  unfold applyReportEvents extractEvents
  rw [modifierLoop_eq cfg clk (r.getD 0 0) (s.OldKeyboardInData.getD 0 0) 8 0 (r.getD 0 0) s
    (by simp) (by simp), applyEvents_append]
  cases h1 : applyEvents cfg clk
      (modifierEventsFrom cfg (r.getD 0 0) (s.OldKeyboardInData.getD 0 0) 0 8) s with
  | none => rfl
  | some t1 =>
    simp only [Option.map_some', Option.some_bind]
    rw [applyEvents_append, keyDownScan_eq]
    simp only [keyBytes_shiftShadowByte]
    rw [applyEvents_setOld]
    have e1 : keyBytesFrom r 2 (HID_KEYBOARD_INPUT_DATA_LEN - 2) = keyBytes r := rfl
    rw [e1]
    cases h2 : applyEvents cfg clk ((List.filter (fun c => decide (c ≥ cfg.KEY_A) &&
        decide (c ∉ keyBytes s.OldKeyboardInData)) (keyBytes r)).map KeyEvent.KeyDown) t1 with
    | none => rfl
    | some t2 =>
      simp only [Option.map_some', Option.some_bind]
      rw [keyUpScan_eq]
      simp only
      have e2 : keyBytesFrom (shiftShadowByte 8 s.OldKeyboardInData) 2
          (HID_KEYBOARD_INPUT_DATA_LEN - 2) = keyBytes s.OldKeyboardInData :=
        keyBytes_shiftShadowByte 8 s.OldKeyboardInData
      rw [e2, applyEvents_setOld]

/-- C14: event extraction equals its reference definition. For every report without
rollover code and every state, the events that `Upstream_HID_BotDetectKeyboard` applies
are those of `extractEvents`, in that order: the modifier events of bits 0..7 ascending
(key-down of `KEY_MODIFIER_BASE + i` on a 0 to 1 edge against the shadow, key-up on a 1 to
0 edge), then a key-down for each report slot 2..7 whose code is `>= KEY_A` and in no
shadow slot, then a key-up for each shadow slot 2..7 whose code is `>= KEY_A` and in no
report slot; codes below `KEY_A` give no event. Besides the events, the loops only shift
byte 0 of the shadow out; the bin check, the shadow update and the suppression follow. -/
theorem C14_event_extraction (cfg : Config) (clk : Nat → Nat) (r : List Nat) (s : State)
    (hroll : ¬ hasRollover r) :
    applyReportEvents cfg clk r s =
      (applyEvents cfg clk (extractEvents cfg r s.OldKeyboardInData) s).map
        (fun t => { t with OldKeyboardInData := shiftShadowByte 8 s.OldKeyboardInData }) ∧
    Upstream_HID_BotDetectKeyboard cfg clk r s =
      (applyEvents cfg clk (extractEvents cfg r s.OldKeyboardInData) s).map
        (fun t =>
          (updateShadow r (checkBins cfg
              { t with OldKeyboardInData := shiftShadowByte 8 s.OldKeyboardInData }),
            if hostSuppressed (updateShadow r (checkBins cfg
              { t with OldKeyboardInData := shiftShadowByte 8 s.OldKeyboardInData }))
            then zeroFill HID_KEYBOARD_INPUT_DATA_LEN r else r)) := by
  refine ⟨applyReportEvents_eq_applyEvents cfg clk r s, ?_⟩
  rw [Keyboard_of_not_hasRollover cfg clk r s hroll, applyReportEvents_eq_applyEvents]
  cases applyEvents cfg clk (extractEvents cfg r s.OldKeyboardInData) s with
  | none => rfl
  | some t => rfl

/-- Witness of C14: against the shadow `[1, 0, 4, 5, 0, 0, 0, 0]` the report
`[2, 0, 5, 6, 0, 0, 0, 0]` applies, in this order, the key-up of modifier 0 (code 224),
the key-down of modifier 1 (code 225), the key-down of 6 and the key-up of 4, and all
four calls return. -/
theorem C14_event_extraction_witness :
    applyReportEvents sampleConfig sampleClock [2, 0, 5, 6, 0, 0, 0, 0] sampleHeldState =
      (applyEvents sampleConfig sampleClock
        [.KeyUp 224, .KeyDown 225, .KeyDown 6, .KeyUp 4] sampleHeldState).map
        (fun t => { t with OldKeyboardInData := [0, 0, 4, 5, 0, 0, 0, 0] }) ∧
    (applyEvents sampleConfig sampleClock
        [.KeyUp 224, .KeyDown 225, .KeyDown 6, .KeyUp 4] sampleHeldState).isSome = true := by
  have hev : extractEvents sampleConfig [2, 0, 5, 6, 0, 0, 0, 0]
      sampleHeldState.OldKeyboardInData = [.KeyUp 224, .KeyDown 225, .KeyDown 6, .KeyUp 4] := by
    decide
  have hsh : shiftShadowByte 8 sampleHeldState.OldKeyboardInData = [0, 0, 4, 5, 0, 0, 0, 0] := by
    decide
  refine ⟨?_, by decide⟩
  rw [(C14_event_extraction sampleConfig sampleClock [2, 0, 5, 6, 0, 0, 0, 0] sampleHeldState
    (by decide)).1, hev, hsh]

/-! ## A repeated report -/

theorem modifierEventsFrom_self (cfg : Config) (b : Nat) (n : Nat) :
    ∀ i, modifierEventsFrom cfg b b i n = [] := by
  induction n with
  | zero => intro i; rfl
  | succ n ih =>
    intro i
    unfold modifierEventsFrom
    rw [ih (i + 1), List.append_nil]
    unfold modifierEvent
    rw [if_neg (by omega), if_neg (by omega)]

theorem extractEvents_self (cfg : Config) (r : List Nat) : extractEvents cfg r r = [] := by
  unfold extractEvents
  rw [modifierEventsFrom_self]
  have hf : (keyBytes r).filter
      (fun c => decide (c ≥ cfg.KEY_A) && decide (c ∉ keyBytes r)) = [] := by
    rw [List.filter_eq_nil_iff]
    intro c hc
    simp [hc]
  rw [hf]
  rfl

/-- After the bin check nothing is left to zero. -/
theorem checkBins_settled (cfg : Config) (s : State) : binCheckSettled cfg (checkBins cfg s) := by
  rw [checkBins_eq_lockoutTriggerRule]
  unfold lockoutTriggerRule binCheckSettled
  by_cases h : anyBinExceeds cfg s
  · rw [if_pos h]
    right
    cases hl : s.LockoutState with
    | LOCKOUT_STATE_INACTIVE =>
      rw [KeyboardDoLockout_of_inactive cfg s hl]
      simp
    | LOCKOUT_STATE_TEMPORARY_ACTIVE =>
      rw [KeyboardDoLockout_of_temporary cfg s (Or.inl hl)]
      simp
    | LOCKOUT_STATE_TEMPORARY_FLASHING =>
      rw [KeyboardDoLockout_of_temporary cfg s (Or.inr hl)]
      simp
    | LOCKOUT_STATE_PERMANENT_ACTIVE =>
      rw [KeyboardDoLockout_of_permanent cfg s hl, hl]
      simp
  · rw [if_neg h]
    exact Or.inl h

/-- On a settled state the bin check leaves the keyboard statistics alone. -/
theorem checkBins_of_settled (cfg : Config) (s : State) (h : binCheckSettled cfg s) :
    sameKeyboardStatistics s (checkBins cfg s) ∧
    (checkBins cfg s).OldKeyboardInData = s.OldKeyboardInData := by
  rw [checkBins_eq_lockoutTriggerRule]
  unfold lockoutTriggerRule
  by_cases he : anyBinExceeds cfg s
  · rw [if_pos he]
    rcases h with h | h
    · exact absurd he h
    · cases hl : s.LockoutState with
      | LOCKOUT_STATE_INACTIVE => exact absurd hl h
      | LOCKOUT_STATE_TEMPORARY_ACTIVE =>
        rw [KeyboardDoLockout_of_temporary cfg s (Or.inl hl)]
        exact ⟨⟨rfl, rfl, rfl, rfl, rfl, rfl, rfl, rfl, rfl, rfl, rfl⟩, rfl⟩
      | LOCKOUT_STATE_TEMPORARY_FLASHING =>
        rw [KeyboardDoLockout_of_temporary cfg s (Or.inr hl)]
        exact ⟨⟨rfl, rfl, rfl, rfl, rfl, rfl, rfl, rfl, rfl, rfl, rfl⟩, rfl⟩
      | LOCKOUT_STATE_PERMANENT_ACTIVE =>
        rw [KeyboardDoLockout_of_permanent cfg s hl]
        exact ⟨⟨rfl, rfl, rfl, rfl, rfl, rfl, rfl, rfl, rfl, rfl, rfl⟩, rfl⟩
  · rw [if_neg he]
    exact ⟨⟨rfl, rfl, rfl, rfl, rfl, rfl, rfl, rfl, rfl, rfl, rfl⟩, rfl⟩

/-- A report processed against a shadow equal to it and a settled state applies no event
and leaves the keyboard statistics alone. -/
theorem Keyboard_of_shadow_eq (cfg : Config) (clk : Nat → Nat) (r : List Nat) (u : State)
    (hroll : ¬ hasRollover r) (hu : u.OldKeyboardInData = r) (hq : binCheckSettled cfg u) :
    ∃ p, Upstream_HID_BotDetectKeyboard cfg clk r u = some p ∧
      sameKeyboardStatistics u p.1 := by
  rw [Keyboard_of_not_hasRollover cfg clk r u hroll, applyReportEvents_eq_applyEvents, hu,
    extractEvents_self]
  refine ⟨_, rfl, ?_⟩
  exact (checkBins_of_settled cfg { u with OldKeyboardInData := shiftShadowByte 8 r } hq).1

/-- C12: a repeated report is idempotent. If a keyboard report `r` (8 bytes, against an
8-byte shadow) is processed by `Upstream_HID_BotDetectKeyboard` and the call returns, then
processing `r` again, as received, on the resulting state returns as well, applies no
key-down or key-up event (with rollover code the event loops are skipped, otherwise the
event list of `r` against the new shadow is empty; the clock is not read), and leaves the
four histograms, the four drain counters, `KeyTimerLog` and `LastKeyDownTime`
unchanged. -/
theorem C12_repeated_report_idempotent (cfg : Config) (clk : Nat → Nat) (r : List Nat)
    (s : State) (p1 : State × List Nat)
    (hr : r.length = HID_KEYBOARD_INPUT_DATA_LEN)
    (hs : s.OldKeyboardInData.length = HID_KEYBOARD_INPUT_DATA_LEN)
    (h1 : Upstream_HID_BotDetectKeyboard cfg clk r s = some p1) :
    ∃ p2, Upstream_HID_BotDetectKeyboard cfg clk r p1.1 = some p2 ∧
      (hasRollover r ∨ extractEvents cfg r p1.1.OldKeyboardInData = []) ∧
      sameKeyboardStatistics p1.1 p2.1 := by
  by_cases hroll : hasRollover r
  · rw [Keyboard_of_hasRollover cfg clk r p1.1 hroll]
    exact ⟨_, rfl, Or.inl hroll, rfl, rfl, rfl, rfl, rfl, rfl, rfl, rfl, rfl, rfl, rfl⟩
  · have hsh := Keyboard_shadow cfg clk r s p1 hr hs h1
    rw [if_neg hroll] at hsh
    have hq : binCheckSettled cfg p1.1 := by
      rw [Keyboard_of_not_hasRollover cfg clk r s hroll] at h1
      split at h1
      · simp at h1
      · rename_i s1 he
        simp only [Option.some.injEq] at h1
        rw [← h1]
        exact checkBins_settled cfg s1
    obtain ⟨p, hp, hst⟩ := Keyboard_of_shadow_eq cfg clk r p1.1 hroll hsh hq
    refine ⟨p, hp, Or.inr ?_, hst⟩
    rw [hsh]
    exact extractEvents_self cfg r

/-- Witness of C12: from the initial state of `sampleConfig` the report
`[2, 0, 4, 0, 0, 0, 0, 0]` returns, and processing it a second time leaves the fast delay
histogram, `KeyTimerLog`, `LastKeyDownTime` and the number of clock reads as the first
call left them. -/
theorem C12_repeated_report_idempotent_witness :
    (Upstream_HID_BotDetectKeyboard sampleConfig sampleClock [2, 0, 4, 0, 0, 0, 0, 0]
        (initialState sampleConfig)).isSome = true ∧
    ((Upstream_HID_BotDetectKeyboard sampleConfig sampleClock [2, 0, 4, 0, 0, 0, 0, 0]
        (initialState sampleConfig)).bind
      (fun p1 => Upstream_HID_BotDetectKeyboard sampleConfig sampleClock
        [2, 0, 4, 0, 0, 0, 0, 0] p1.1)).map
      (fun p => (p.1.KeyDelayFastBinArray, p.1.KeyTimerLog, p.1.LastKeyDownTime, p.1.TickReads)) =
    (Upstream_HID_BotDetectKeyboard sampleConfig sampleClock [2, 0, 4, 0, 0, 0, 0, 0]
        (initialState sampleConfig)).map
      (fun p => (p.1.KeyDelayFastBinArray, p.1.KeyTimerLog, p.1.LastKeyDownTime, p.1.TickReads)) := by
  refine ⟨by decide, ?_⟩
  cases h : Upstream_HID_BotDetectKeyboard sampleConfig sampleClock [2, 0, 4, 0, 0, 0, 0, 0]
      (initialState sampleConfig) with
  | none => exact absurd h (by decide)
  | some p1 =>
    obtain ⟨p2, h2, -, hst⟩ := C12_repeated_report_idempotent sampleConfig sampleClock
      [2, 0, 4, 0, 0, 0, 0, 0] (initialState sampleConfig) p1 rfl rfl h
    simp only [Option.some_bind, h2, Option.map_some']
    rw [hst.1, hst.2.2.2.2.2.2.2.2.1, hst.2.2.2.2.2.2.2.2.2.1, hst.2.2.2.2.2.2.2.2.2.2]

/-! ## Bot chatter -/

/-- With a free record in `KeyTimerLog`, `KeyDown` returns for every key code. -/
theorem KeyDown_returns (cfg : Config) (clk : Nat → Nat) (c : Nat) (s : State)
    (hlen : s.KeyTimerLog.length = cfg.KEYBOARD_BOTDETECT_MAX_ACTIVE_KEYS)
    (hroom : (liveCodes s).length < cfg.KEYBOARD_BOTDETECT_MAX_ACTIVE_KEYS) :
    ∃ s', Upstream_HID_BotDetectKeyboard_KeyDown cfg clk c s = some s' ∧
      s'.KeyTimerLog.length = cfg.KEYBOARD_BOTDETECT_MAX_ACTIVE_KEYS ∧
      (liveCodes s').length ≤ (liveCodes s).length + 1 := by
  by_cases hc : c = 0
  · subst hc
    have hlog : (keyDownHistogram cfg (HAL_GetTick clk s)
        { s with TickReads := s.TickReads + 1 }).KeyTimerLog = s.KeyTimerLog :=
      (keyDownHistogram_frame cfg _ _).2.2.2.2
    obtain ⟨l1, x, l2, e1, e2, e3⟩ := breakLoop_split (fun c => c == 0) s.KeyTimerLog []
      (exists_free_of_length_lt _ (by unfold liveCodes at hroom; omega))
    simp only [List.nil_append, List.length_nil, Nat.zero_add] at e3
    rw [hlen] at e3
    have hl1 : l1.length < cfg.KEYBOARD_BOTDETECT_MAX_ACTIVE_KEYS := by
      rw [← hlen, e1]; simp
    unfold Upstream_HID_BotDetectKeyboard_KeyDown
    simp only [hlog]
    rw [e3, if_neg (by omega)]
    refine ⟨_, rfl, by simp [hlen], ?_⟩
    unfold liveCodes
    simp only
    rw [e1, set_append_mid]
    have hx : x.KeyCode = 0 := by simpa using e2
    simp [List.filter_cons, hx]
  · obtain ⟨s', h, hl, hp⟩ := KeyDown_ok cfg clk c s hlen hroom hc
    exact ⟨s', h, hl, by rw [hp.length_eq]; simp⟩

theorem keyDownHistogram_chatter (cfg : Config) (now k : Nat) (s : State)
    (hw : cfg.KEYBOARD_BOTDETECT_FAST_BIN_WIDTH_MS = 8)
    (hn : cfg.KEYBOARD_BOTDETECT_FAST_BIN_COUNT = 8)
    (hd : cfg.KEYBOARD_BOTDETECT_FAST_BIN_DRAIN_DIVIDER = 4)
    (hk : k ≤ 6) (f1 : s.KeyDelayFastBinArray = chatterBins k)
    (f2 : s.KeyDelayFastBinDrainDivideCount = k % 4)
    (hdelay : sub32 now s.LastKeyDownTime = 16) :
    (keyDownHistogram cfg now s).KeyDelayFastBinArray = chatterBins (k + 1) ∧
    (keyDownHistogram cfg now s).KeyDelayFastBinDrainDivideCount = (k + 1) % 4 ∧
    (keyDownHistogram cfg now s).KeyDelaySlowBinArray = s.KeyDelaySlowBinArray ∧
    (keyDownHistogram cfg now s).LastKeyDownTime = now := by
  have hlen : s.KeyDelayFastBinArray.length = 8 := by rw [f1]; simp [chatterBins]
  have hlt : sub32 now s.LastKeyDownTime <
      cfg.KEYBOARD_BOTDETECT_FAST_BIN_WIDTH_MS * cfg.KEYBOARD_BOTDETECT_FAST_BIN_COUNT := by
    rw [hdelay, hw, hn]; decide
  simp only [keyDownHistogram]
  rw [if_pos hlt]
  simp only [hdelay, hw, hn, hd, incrementAndDrain_eq 8 4 _ _ _ hlen, f1, f2]
  refine ⟨?_, ?_, trivial, trivial⟩
  · interval_cases k <;> decide
  · interval_cases k <;> decide

/-- A `KeyDown` at key delay 16 takes the chatter from `k` to `k + 1` key-downs. -/
theorem KeyDown_chatter (cfg : Config) (clk : Nat → Nat) (c k : Nat) (s : State)
    (hw : cfg.KEYBOARD_BOTDETECT_FAST_BIN_WIDTH_MS = 8)
    (hn : cfg.KEYBOARD_BOTDETECT_FAST_BIN_COUNT = 8)
    (hd : cfg.KEYBOARD_BOTDETECT_FAST_BIN_DRAIN_DIVIDER = 4)
    (hk : k ≤ 6) (hs : chatterState cfg k s) (hdelay : keyDownDelay clk s = 16)
    (hroom : (liveCodes s).length < cfg.KEYBOARD_BOTDETECT_MAX_ACTIVE_KEYS) :
    ∃ s', Upstream_HID_BotDetectKeyboard_KeyDown cfg clk c s = some s' ∧
      chatterState cfg (k + 1) s' ∧
      s'.LastKeyDownTime = HAL_GetTick clk s ∧ s'.TickReads = s.TickReads + 1 ∧
      s'.OldKeyboardInData = s.OldKeyboardInData ∧
      (liveCodes s').length ≤ (liveCodes s).length + 1 := by
  obtain ⟨f1, f2, f3, f4, f5, f6, f7, f8⟩ := hs
  obtain ⟨s', h, hl, hlive⟩ := KeyDown_returns cfg clk c s f8 hroom
  obtain ⟨i, hs'⟩ := KeyDown_eq cfg clk c s s' h
  have hc := keyDownHistogram_chatter cfg (HAL_GetTick clk s) k
    { s with TickReads := s.TickReads + 1 } hw hn hd hk f1 f2 hdelay
  have hf := keyDownHistogram_frame cfg (HAL_GetTick clk s)
    { s with TickReads := s.TickReads + 1 }
  have hdn := keyDownHistogram_downtime cfg (HAL_GetTick clk s)
    { s with TickReads := s.TickReads + 1 }
  refine ⟨s', h, ⟨?_, ?_, ?_, ?_, ?_, ?_, ?_, hl⟩, ?_, ?_, ?_, hlive⟩ <;> rw [hs']
  · exact hc.1
  · exact hc.2.1
  · exact hc.2.2.1.trans f3
  · exact hdn.1.trans f4
  · exact hdn.2.1.trans f5
  · exact hf.2.1.trans f6
  · exact (congrArg List.length hf.1).trans f7
  · exact hc.2.2.2
  · exact hdn.2.2.2.2
  · exact hf.1

theorem oneKeyDown_events (cfg : Config) (shadow r : List Nat) (h : oneKeyDown cfg shadow r) :
    ∃ c, extractEvents cfg r shadow = [.KeyDown c] := by
  obtain ⟨-, -, hl, ha⟩ := h
  cases he : extractEvents cfg r shadow with
  | nil => simp [he] at hl
  | cons e es =>
    cases es with
    | cons e1 es => simp [he] at hl
    | nil =>
      cases e with
      | KeyDown c => exact ⟨c, rfl⟩
      | KeyUp c => simp [he, isKeyDown] at ha

theorem chatterBins_getD_le (j i : Nat) : (chatterBins j).getD i 0 ≤ j - j / 4 := by
  rcases i with _ | _ | _ | _ | _ | _ | _ | _ | i <;> simp [chatterBins]

/-- Up to six key-downs into the chatter no bin exceeds the threshold 5. -/
theorem chatter_not_exceeds (cfg : Config) (j : Nat) (u : State)
    (ht : cfg.KEYBOARD_BOTDETECT_LOCKOUT_BIN_THRESHOLD = 5) (hj : j ≤ 6)
    (g1 : u.KeyDelayFastBinArray = chatterBins j)
    (g3 : u.KeyDelaySlowBinArray = List.replicate cfg.KEYBOARD_BOTDETECT_SLOW_BIN_COUNT 0)
    (g4 : u.KeyDowntimeFastBinArray = List.replicate cfg.KEYBOARD_BOTDETECT_FAST_BIN_COUNT 0)
    (g5 : u.KeyDowntimeSlowBinArray = List.replicate cfg.KEYBOARD_BOTDETECT_SLOW_BIN_COUNT 0) :
    ¬ anyBinExceeds cfg u := by
  unfold anyBinExceeds
  rw [g1, g3, g4, g5, ht]
  simp only [getD_replicate_zero]
  have := chatterBins_getD_le j
  rintro (⟨i, -, h | h⟩ | ⟨i, -, h | h⟩)
  · have := this i; omega
  · omega
  · omega
  · omega

/-- The seventh key-down of the chatter brings bin 2 above the threshold 5. -/
theorem chatter_exceeds (cfg : Config) (u : State)
    (ht : cfg.KEYBOARD_BOTDETECT_LOCKOUT_BIN_THRESHOLD = 5)
    (hn : cfg.KEYBOARD_BOTDETECT_FAST_BIN_COUNT = 8)
    (g1 : u.KeyDelayFastBinArray = chatterBins 7) : anyBinExceeds cfg u := by
  unfold anyBinExceeds
  rw [g1, ht, hn]
  exact Or.inl ⟨2, by decide, Or.inl (by decide)⟩

/-- A report that carries one key-down at key delay 16, processed `k` key-downs into the
chatter: up to the sixth key-down the report passes and the chatter goes on; the seventh
brings bin 2 to 6 and trips the temporary lockout. -/
theorem Keyboard_chatter (cfg : Config) (clk : Nat → Nat) (r : List Nat) (k : Nat) (s : State)
    (hw : cfg.KEYBOARD_BOTDETECT_FAST_BIN_WIDTH_MS = 8)
    (hn : cfg.KEYBOARD_BOTDETECT_FAST_BIN_COUNT = 8)
    (hd : cfg.KEYBOARD_BOTDETECT_FAST_BIN_DRAIN_DIVIDER = 4)
    (ht : cfg.KEYBOARD_BOTDETECT_LOCKOUT_BIN_THRESHOLD = 5)
    (hk : k ≤ 6) (hs : chatterState cfg k s) (hr : oneKeyDown cfg s.OldKeyboardInData r)
    (hdelay : keyDownDelay clk s = 16)
    (hroom : (liveCodes s).length < cfg.KEYBOARD_BOTDETECT_MAX_ACTIVE_KEYS) :
    ∃ u p, applyReportEvents cfg clk r s = some u ∧
      u.KeyDelayFastBinArray = chatterBins (k + 1) ∧
      Upstream_HID_BotDetectKeyboard cfg clk r s = some p ∧
      p.1.OldKeyboardInData = r ∧ p.1.TickReads = s.TickReads + 1 ∧
      p.1.LastKeyDownTime = HAL_GetTick clk s ∧
      (liveCodes p.1).length ≤ (liveCodes s).length + 1 ∧
      (k < 6 → chatterState cfg (k + 1) p.1 ∧ p.2 = r) ∧
      (k = 6 → p.1.LockoutState = .LOCKOUT_STATE_TEMPORARY_ACTIVE ∧
        p.2 = List.replicate 8 0 ∧ p.1.KeyDelayFastBinArray = List.replicate 8 0) := by
  obtain ⟨c, hc⟩ := oneKeyDown_events cfg _ r hr
  obtain ⟨s', h, hcs, hL, hT, -, hlive⟩ := KeyDown_chatter cfg clk c k s hw hn hd hk hs hdelay hroom
  obtain ⟨g1, g2, g3, g4, g5, g6, -, g8⟩ := hcs
  have hex : ∃ u, applyReportEvents cfg clk r s = some u ∧
      u.KeyDelayFastBinArray = chatterBins (k + 1) ∧
      u.KeyDelayFastBinDrainDivideCount = (k + 1) % 4 ∧
      u.KeyDelaySlowBinArray = List.replicate cfg.KEYBOARD_BOTDETECT_SLOW_BIN_COUNT 0 ∧
      u.KeyDowntimeFastBinArray = List.replicate cfg.KEYBOARD_BOTDETECT_FAST_BIN_COUNT 0 ∧
      u.KeyDowntimeSlowBinArray = List.replicate cfg.KEYBOARD_BOTDETECT_SLOW_BIN_COUNT 0 ∧
      u.LockoutState = .LOCKOUT_STATE_INACTIVE ∧
      u.KeyTimerLog = s'.KeyTimerLog ∧ u.TickReads = s'.TickReads ∧
      u.LastKeyDownTime = s'.LastKeyDownTime := by
    refine ⟨{ s' with OldKeyboardInData := shiftShadowByte 8 s.OldKeyboardInData }, ?_,
      g1, g2, g3, g4, g5, g6, rfl, rfl, rfl⟩
    rw [applyReportEvents_eq_applyEvents, hc]
    simp only [applyEvents, applyEvent, h, Option.map_some']
  obtain ⟨u, hev, e1, e2, e3, e4, e5, e6, eLog, eT, eL⟩ := hex
  have hkb : Upstream_HID_BotDetectKeyboard cfg clk r s =
      some (updateShadow r (checkBins cfg u),
        if hostSuppressed (updateShadow r (checkBins cfg u))
        then zeroFill HID_KEYBOARD_INPUT_DATA_LEN r else r) := by
    rw [Keyboard_of_not_hasRollover cfg clk r s hr.2.1, hev]
  have hsh := Keyboard_shadow cfg clk r s _ hr.1 hs.2.2.2.2.2.2.1 hkb
  rw [if_neg hr.2.1] at hsh
  have hliveu : (liveCodes u).length ≤ (liveCodes s).length + 1 := by
    unfold liveCodes at hlive ⊢
    rw [eLog]
    exact hlive
  refine ⟨u, _, hev, e1, hkb, hsh, ?_⟩
  rw [checkBins_eq_lockoutTriggerRule] at hsh ⊢
  unfold lockoutTriggerRule at hsh ⊢
  by_cases hk6 : k < 6
  · have hne := chatter_not_exceeds cfg (k + 1) u ht (by omega) e1 e3 e4 e5
    rw [if_neg hne] at hsh ⊢
    have hsup : hostSuppressed (updateShadow r u) = false := by
      simp [hostSuppressed, updateShadow, e6]
    rw [hsup]
    refine ⟨eT.trans hT, eL.trans hL, hliveu,
      fun _ => ⟨⟨e1, e2, e3, e4, e5, e6, ?_, eLog.symm ▸ g8⟩, rfl⟩, fun h6 => ?_⟩
    · rw [hsh]
      exact hr.1
    · omega
  · have hk7 : k = 6 := by omega
    subst hk7
    rw [if_pos (chatter_exceeds cfg u ht hn e1), KeyboardDoLockout_of_inactive cfg u e6]
    refine ⟨eT.trans hT, eL.trans hL, hliveu, fun h6 => absurd h6 (by decide),
      fun _ => ⟨rfl, ?_, ?_⟩⟩
    · rw [if_pos (by simp [hostSuppressed, updateShadow])]
      exact zeroFill_eq _ r hr.1
    · simp only [updateShadow]
      rw [hn]
      exact zeroFill_eq 8 _ (by rw [e1]; simp [chatterBins])

/-- A run of reports that carry one key-down each, 16 ms apart, started `k` key-downs
into the chatter and ending at most six key-downs into it: every call returns, every
report passes and the chatter has advanced by the number of reports. -/
theorem runKeyboard_chatter (cfg : Config) (clk : Nat → Nat)
    (hw : cfg.KEYBOARD_BOTDETECT_FAST_BIN_WIDTH_MS = 8)
    (hn : cfg.KEYBOARD_BOTDETECT_FAST_BIN_COUNT = 8)
    (hd : cfg.KEYBOARD_BOTDETECT_FAST_BIN_DRAIN_DIVIDER = 4)
    (ht : cfg.KEYBOARD_BOTDETECT_LOCKOUT_BIN_THRESHOLD = 5)
    (rs rest : List (List Nat)) :
    ∀ (k : Nat) (s : State), k + rs.length ≤ 6 → chatterState cfg k s →
      oneKeyDownEach cfg s.OldKeyboardInData (rs ++ rest) →
      (liveCodes s).length + rs.length ≤ cfg.KEYBOARD_BOTDETECT_MAX_ACTIVE_KEYS →
      (∀ j < rs.length, clk (s.TickReads + j) = s.LastKeyDownTime + 16 * (j + 1)) →
      s.LastKeyDownTime + 16 * rs.length < 4294967296 →
      ∃ t, runKeyboard cfg clk rs s = some t ∧ chatterState cfg (k + rs.length) t ∧
        oneKeyDownEach cfg t.OldKeyboardInData rest ∧
        t.TickReads = s.TickReads + rs.length ∧
        t.LastKeyDownTime = s.LastKeyDownTime + 16 * rs.length ∧
        (liveCodes t).length ≤ (liveCodes s).length + rs.length := by
  induction rs with
  | nil =>
    intro k s _ hs hrs _ _ _
    exact ⟨s, rfl, hs, hrs, rfl, rfl, le_refl _⟩
  | cons r rs ih =>
    intro k s hk hs hrs hroom hclk hL
    simp only [List.length_cons] at hk hroom hclk hL
    have hrs' : oneKeyDown cfg s.OldKeyboardInData r ∧ oneKeyDownEach cfg r (rs ++ rest) := hrs
    have hnow : HAL_GetTick clk s = s.LastKeyDownTime + 16 := by
      unfold HAL_GetTick
      have := hclk 0 (by omega)
      rw [Nat.add_zero] at this
      rw [this]
      omega
    have hdelay : keyDownDelay clk s = 16 := by
      unfold keyDownDelay
      rw [hnow]
      unfold sub32
      omega
    obtain ⟨u, p, -, -, hkb, hold, hT, hLast, hlive, hlt, -⟩ :=
      Keyboard_chatter cfg clk r k s hw hn hd ht (by omega) hs hrs'.1 hdelay (by omega)
    obtain ⟨hcs, -⟩ := hlt (by omega)
    obtain ⟨t, hrun, hct, hrest, htT, htL, htlive⟩ := ih (k + 1) p.1 (by omega) hcs
      (by rw [hold]; exact hrs'.2) (by omega)
      (by
        intro j hj
        have := hclk (j + 1) (by omega)
        rw [hT, hLast, hnow, Nat.add_assoc, Nat.add_comm 1 j, this]
        omega)
      (by rw [hLast, hnow]; omega)
    refine ⟨t, ?_, ?_, hrest, ?_, ?_, ?_⟩
    · simp only [runKeyboard, hkb]
      exact hrun
    · have : k + (r :: rs).length = k + 1 + rs.length := by rw [List.length_cons]; omega
      rw [this]
      exact hct
    · rw [htT, hT, List.length_cons]; omega
    · rw [htL, hLast, hnow, List.length_cons]; omega
    · rw [List.length_cons]; omega

/-- C11 does not hold as written: with `FAST_BIN_WIDTH_MS = 8`, `FAST_BIN_COUNT = 8`,
`FAST_BIN_DRAIN_DIVIDER = 4` and `LOCKOUT_BIN_THRESHOLD = 5`, from the initial state
(zeroed histograms and drain counters, `INACTIVE`), six reports that carry one key-down
each, every one at a key delay of exactly 16 ms, leave `KeyDelayFastBinArray[2] = 5`, not
6: the drain fires on the fourth key-down. The report carrying the sixth key-down does
not trip the lockout: the state stays `INACTIVE` and the report is handed on as
received. -/
theorem C11_counterexample :
    sampleConfig.KEYBOARD_BOTDETECT_FAST_BIN_WIDTH_MS = 8 ∧
    sampleConfig.KEYBOARD_BOTDETECT_FAST_BIN_COUNT = 8 ∧
    sampleConfig.KEYBOARD_BOTDETECT_FAST_BIN_DRAIN_DIVIDER = 4 ∧
    sampleConfig.KEYBOARD_BOTDETECT_LOCKOUT_BIN_THRESHOLD = 5 ∧
    oneKeyDownEach sampleConfig (initialState sampleConfig).OldKeyboardInData
      (chatterReports.take 6) ∧
    (∀ n < 6, (runKeyboard sampleConfig chatterClock (chatterReports.take n)
      (initialState sampleConfig)).map (keyDownDelay chatterClock) = some 16) ∧
    ((runKeyboard sampleConfig chatterClock (chatterReports.take 5)
        (initialState sampleConfig)).bind
      (fun t => Upstream_HID_BotDetectKeyboard sampleConfig chatterClock
        [0, 0, 4, 5, 6, 7, 8, 9] t)).map
      (fun p => (p.1.KeyDelayFastBinArray, p.1.LockoutState, p.1.TickReads, p.2)) =
    some ([0, 0, 5, 0, 0, 0, 0, 0], .LOCKOUT_STATE_INACTIVE, 6, [0, 0, 4, 5, 6, 7, 8, 9]) := by
  refine ⟨rfl, rfl, rfl, rfl, by decide, by decide, by decide⟩

/-- C11, amended: the bot-chatter scenario. With `FAST_BIN_WIDTH_MS = 8`,
`FAST_BIN_COUNT = 8`, `FAST_BIN_DRAIN_DIVIDER = 4` and `LOCKOUT_BIN_THRESHOLD = 5`, start
from zeroed histograms and a zero fast key-delay drain count in state `INACTIVE`, with
room in `KeyTimerLog`, and process reports `rs` followed by `r` that carry one key-down
each, every key-down exactly 16 ms after the one before. For at most six reports `rs`,
every call returns, and after them `KeyDelayFastBinArray` holds `n - n / 4` in bin 2
(`n` the number of key-downs: the drain fires on every fourth) and 0 elsewhere, the state
is `INACTIVE` and the next key delay is 16. While `r` carries the sixth key-down or an
earlier one, it is handed on as received and the state stays `INACTIVE`. After six
key-downs bin 2 holds 5; the seventh key-down brings it to 6, and the report carrying it
trips the lockout: `LockoutState = TEMPORARY_ACTIVE`, the report is zeroed and the
trigger resets the histogram to zero. -/
theorem C11_bot_chatter (cfg : Config) (clk : Nat → Nat) (s : State)
    (rs : List (List Nat)) (r : List Nat)
    (hw : cfg.KEYBOARD_BOTDETECT_FAST_BIN_WIDTH_MS = 8)
    (hn : cfg.KEYBOARD_BOTDETECT_FAST_BIN_COUNT = 8)
    (hd : cfg.KEYBOARD_BOTDETECT_FAST_BIN_DRAIN_DIVIDER = 4)
    (ht : cfg.KEYBOARD_BOTDETECT_LOCKOUT_BIN_THRESHOLD = 5)
    (hz1 : s.KeyDelayFastBinArray = List.replicate cfg.KEYBOARD_BOTDETECT_FAST_BIN_COUNT 0)
    (hz2 : s.KeyDelaySlowBinArray = List.replicate cfg.KEYBOARD_BOTDETECT_SLOW_BIN_COUNT 0)
    (hz3 : s.KeyDowntimeFastBinArray = List.replicate cfg.KEYBOARD_BOTDETECT_FAST_BIN_COUNT 0)
    (hz4 : s.KeyDowntimeSlowBinArray = List.replicate cfg.KEYBOARD_BOTDETECT_SLOW_BIN_COUNT 0)
    (hcnt : s.KeyDelayFastBinDrainDivideCount = 0)
    (hin : s.LockoutState = .LOCKOUT_STATE_INACTIVE)
    (hold : s.OldKeyboardInData.length = HID_KEYBOARD_INPUT_DATA_LEN)
    (hlen : s.KeyTimerLog.length = cfg.KEYBOARD_BOTDETECT_MAX_ACTIVE_KEYS)
    (hroom : (liveCodes s).length + rs.length + 1 ≤ cfg.KEYBOARD_BOTDETECT_MAX_ACTIVE_KEYS)
    (hclk : ∀ j ≤ rs.length, clk (s.TickReads + j) = s.LastKeyDownTime + 16 * (j + 1))
    (hL : s.LastKeyDownTime + 16 * (rs.length + 1) < 4294967296)
    (hrs : oneKeyDownEach cfg s.OldKeyboardInData (rs ++ [r]))
    (hn6 : rs.length ≤ 6) :
    ∃ t u p, runKeyboard cfg clk rs s = some t ∧
      t.KeyDelayFastBinArray = (List.replicate 8 0).set 2 (rs.length - rs.length / 4) ∧
      t.LockoutState = .LOCKOUT_STATE_INACTIVE ∧
      keyDownDelay clk t = 16 ∧
      applyReportEvents cfg clk r t = some u ∧
      u.KeyDelayFastBinArray =
        (List.replicate 8 0).set 2 (rs.length + 1 - (rs.length + 1) / 4) ∧
      Upstream_HID_BotDetectKeyboard cfg clk r t = some p ∧
      (rs.length < 6 → p.1.LockoutState = .LOCKOUT_STATE_INACTIVE ∧ p.2 = r ∧
        p.1.KeyDelayFastBinArray = u.KeyDelayFastBinArray) ∧
      (rs.length = 6 → t.KeyDelayFastBinArray.getD 2 0 = 5 ∧
        u.KeyDelayFastBinArray.getD 2 0 = 6 ∧
        p.1.LockoutState = .LOCKOUT_STATE_TEMPORARY_ACTIVE ∧
        p.2 = List.replicate 8 0 ∧ p.1.KeyDelayFastBinArray = List.replicate 8 0) := by
  have hs0 : chatterState cfg 0 s := by
    refine ⟨?_, hcnt, hz2, hz3, hz4, hin, hold, hlen⟩
    rw [hz1, hn]
    decide
  obtain ⟨t, hrun, hct, hrest, htT, htL, htlive⟩ := runKeyboard_chatter cfg clk hw hn hd ht
    rs [r] 0 s (by omega) hs0 hrs (by omega) (fun j hj => hclk j (by omega)) (by omega)
  rw [Nat.zero_add] at hct
  have hnow : HAL_GetTick clk t = t.LastKeyDownTime + 16 := by
    unfold HAL_GetTick
    rw [htT, hclk rs.length (le_refl _), htL]
    omega
  have hdelay : keyDownDelay clk t = 16 := by
    unfold keyDownDelay
    rw [hnow]
    unfold sub32
    omega
  obtain ⟨u, p, hev, hu, hkb, -, -, -, -, hlt, heq⟩ := Keyboard_chatter cfg clk r rs.length t
    hw hn hd ht hn6 hct hrest.1 hdelay (by omega)
  refine ⟨t, u, p, hrun, hct.1, hct.2.2.2.2.2.1, hdelay, hev, hu, hkb, ?_, ?_⟩
  · intro h6
    obtain ⟨hc1, hp2⟩ := hlt h6
    exact ⟨hc1.2.2.2.2.2.1, hp2, hc1.1.trans hu.symm⟩
  · intro h6
    obtain ⟨a1, a2, a3⟩ := heq h6
    refine ⟨?_, ?_, a1, a2, a3⟩
    · rw [hct.1, h6]; decide
    · rw [hu, h6]; decide

/-- Witness of C11, amended: from the initial state of `sampleConfig`, with successive
clock reads 16 ms apart, the reports that press keys 4..9 one by one leave bin 2 at 5 and
the state `INACTIVE`; the seventh report, which adds modifier bit 0, brings the bin to 6
and is answered by `TEMPORARY_ACTIVE`, a zeroed report and a zeroed histogram. -/
theorem C11_bot_chatter_witness :
    (runKeyboard sampleConfig chatterClock (chatterReports.take 6)
        (initialState sampleConfig)).map
      (fun t => (t.KeyDelayFastBinArray, t.LockoutState)) =
      some ([0, 0, 5, 0, 0, 0, 0, 0], .LOCKOUT_STATE_INACTIVE) ∧
    ((runKeyboard sampleConfig chatterClock (chatterReports.take 6)
        (initialState sampleConfig)).bind
      (fun t => applyReportEvents sampleConfig chatterClock [1, 0, 4, 5, 6, 7, 8, 9] t)).map
      (fun u => u.KeyDelayFastBinArray) = some [0, 0, 6, 0, 0, 0, 0, 0] ∧
    ((runKeyboard sampleConfig chatterClock (chatterReports.take 6)
        (initialState sampleConfig)).bind
      (fun t => Upstream_HID_BotDetectKeyboard sampleConfig chatterClock
        [1, 0, 4, 5, 6, 7, 8, 9] t)).map
      (fun p => (p.1.LockoutState, p.2, p.1.KeyDelayFastBinArray)) =
      some (.LOCKOUT_STATE_TEMPORARY_ACTIVE, [0, 0, 0, 0, 0, 0, 0, 0],
        [0, 0, 0, 0, 0, 0, 0, 0]) := by
  obtain ⟨t, u, p, hrun, h1, h2, -, hev, hu, hkb, -, h7⟩ :=
    C11_bot_chatter sampleConfig chatterClock (initialState sampleConfig)
      (chatterReports.take 6) [1, 0, 4, 5, 6, 7, 8, 9] rfl rfl rfl rfl rfl rfl rfl rfl rfl rfl
      rfl rfl (by decide) (by intro j _; simp [chatterClock, initialState])
      (by decide) (by decide) (by decide)
  obtain ⟨-, -, a1, a2, a3⟩ := h7 rfl
  rw [hrun]
  simp only [Option.map_some', Option.some_bind, hev, hkb, h1, h2, hu, a1, a2, a3]
  decide

/-! ## Histogram subscripts -/

theorem sub32_lt (a b : Nat) : sub32 a b < 4294967296 := by
  unfold sub32
  exact Nat.mod_lt _ (by decide)

/-- The subscript of a delay is below the bin count of its path. -/
theorem binSubscript_lt (cfg : Config) (d : Nat)
    (hsw : 0 < cfg.KEYBOARD_BOTDETECT_SLOW_BIN_WIDTH_MS)
    (hsn : 0 < cfg.KEYBOARD_BOTDETECT_SLOW_BIN_COUNT) :
    ((binSubscript cfg d).1 = true →
      (binSubscript cfg d).2 < cfg.KEYBOARD_BOTDETECT_FAST_BIN_COUNT) ∧
    ((binSubscript cfg d).1 = false →
      (binSubscript cfg d).2 < cfg.KEYBOARD_BOTDETECT_SLOW_BIN_COUNT) := by
  unfold binSubscript
  split
  · rename_i h
    exact ⟨fun _ => fast_index_lt h, fun hf => by simp at hf⟩
  · exact ⟨fun hf => by simp at hf, fun _ => slow_index_lt (Nat.mul_pos hsw hsn)⟩

/-- The key-delay histograms after `keyDownHistogram`, by the subscript of the delay. -/
theorem keyDownHistogram_subscript (cfg : Config) (now : Nat) (s : State) :
    ((keyDownHistogram cfg now s).KeyDelayFastBinArray,
      (keyDownHistogram cfg now s).KeyDelayFastBinDrainDivideCount,
      (keyDownHistogram cfg now s).KeyDelaySlowBinArray,
      (keyDownHistogram cfg now s).KeyDelaySlowBinDrainDivideCount) =
    if (binSubscript cfg (sub32 now s.LastKeyDownTime)).1 = true then
      ((incrementAndDrain cfg.KEYBOARD_BOTDETECT_FAST_BIN_COUNT
          cfg.KEYBOARD_BOTDETECT_FAST_BIN_DRAIN_DIVIDER
          (binSubscript cfg (sub32 now s.LastKeyDownTime)).2
          s.KeyDelayFastBinArray s.KeyDelayFastBinDrainDivideCount).1,
        (incrementAndDrain cfg.KEYBOARD_BOTDETECT_FAST_BIN_COUNT
          cfg.KEYBOARD_BOTDETECT_FAST_BIN_DRAIN_DIVIDER
          (binSubscript cfg (sub32 now s.LastKeyDownTime)).2
          s.KeyDelayFastBinArray s.KeyDelayFastBinDrainDivideCount).2,
        s.KeyDelaySlowBinArray, s.KeyDelaySlowBinDrainDivideCount)
    else
      (s.KeyDelayFastBinArray, s.KeyDelayFastBinDrainDivideCount,
        (incrementAndDrain cfg.KEYBOARD_BOTDETECT_SLOW_BIN_COUNT
          cfg.KEYBOARD_BOTDETECT_SLOW_BIN_DRAIN_DIVIDER
          (binSubscript cfg (sub32 now s.LastKeyDownTime)).2
          s.KeyDelaySlowBinArray s.KeyDelaySlowBinDrainDivideCount).1,
        (incrementAndDrain cfg.KEYBOARD_BOTDETECT_SLOW_BIN_COUNT
          cfg.KEYBOARD_BOTDETECT_SLOW_BIN_DRAIN_DIVIDER
          (binSubscript cfg (sub32 now s.LastKeyDownTime)).2
          s.KeyDelaySlowBinArray s.KeyDelaySlowBinDrainDivideCount).2) := by
  unfold keyDownHistogram binSubscript
  dsimp only
  by_cases h : sub32 now s.LastKeyDownTime <
      cfg.KEYBOARD_BOTDETECT_FAST_BIN_WIDTH_MS * cfg.KEYBOARD_BOTDETECT_FAST_BIN_COUNT
  · simp only [if_pos h, if_true]
  · simp only [if_neg h, Bool.false_eq_true, if_false]

/-- The downtime histograms after `keyUpHistogram`, by the subscript of the downtime. -/
theorem keyUpHistogram_subscript (cfg : Config) (d : Nat) (s : State) :
    ((keyUpHistogram cfg d s).KeyDowntimeFastBinArray,
      (keyUpHistogram cfg d s).KeyDowntimeFastBinDrainDivideCount,
      (keyUpHistogram cfg d s).KeyDowntimeSlowBinArray,
      (keyUpHistogram cfg d s).KeyDowntimeSlowBinDrainDivideCount) =
    if (binSubscript cfg d).1 = true then
      ((incrementAndDrain cfg.KEYBOARD_BOTDETECT_FAST_BIN_COUNT
          cfg.KEYBOARD_BOTDETECT_FAST_BIN_DRAIN_DIVIDER (binSubscript cfg d).2
          s.KeyDowntimeFastBinArray s.KeyDowntimeFastBinDrainDivideCount).1,
        (incrementAndDrain cfg.KEYBOARD_BOTDETECT_FAST_BIN_COUNT
          cfg.KEYBOARD_BOTDETECT_FAST_BIN_DRAIN_DIVIDER (binSubscript cfg d).2
          s.KeyDowntimeFastBinArray s.KeyDowntimeFastBinDrainDivideCount).2,
        s.KeyDowntimeSlowBinArray, s.KeyDowntimeSlowBinDrainDivideCount)
    else
      (s.KeyDowntimeFastBinArray, s.KeyDowntimeFastBinDrainDivideCount,
        (incrementAndDrain cfg.KEYBOARD_BOTDETECT_SLOW_BIN_COUNT
          cfg.KEYBOARD_BOTDETECT_SLOW_BIN_DRAIN_DIVIDER (binSubscript cfg d).2
          s.KeyDowntimeSlowBinArray s.KeyDowntimeSlowBinDrainDivideCount).1,
        (incrementAndDrain cfg.KEYBOARD_BOTDETECT_SLOW_BIN_COUNT
          cfg.KEYBOARD_BOTDETECT_SLOW_BIN_DRAIN_DIVIDER (binSubscript cfg d).2
          s.KeyDowntimeSlowBinArray s.KeyDowntimeSlowBinDrainDivideCount).2) := by
  unfold keyUpHistogram binSubscript
  dsimp only
  by_cases h : d <
      cfg.KEYBOARD_BOTDETECT_FAST_BIN_WIDTH_MS * cfg.KEYBOARD_BOTDETECT_FAST_BIN_COUNT
  · simp only [if_pos h, if_true]
  · simp only [if_neg h, Bool.false_eq_true, if_false]

/-- C21: histogram indexing is in range. For positive slow bin width and slow bin count
(the fast path needs no assumption: its guard `delay < FAST_BIN_WIDTH_MS * FAST_BIN_COUNT`
already forces a positive width and count) and histograms of their declared lengths, the
subscript computed from any delay is below `FAST_BIN_COUNT`, and inside both fast
histograms, on the fast path, and below `SLOW_BIN_COUNT`, and inside both slow histograms,
on the slow path. The key delay of `KeyDown` (for every clock value and `LastKeyDownTime`)
and the downtime of `KeyUp` (for every clock value and `KeyDownStart`) are 32-bit values,
and a returning `KeyDown` or `KeyUp` updates exactly the histogram of that path at that
subscript, so no histogram access is out of bounds. -/
theorem C21_bin_index_in_range (cfg : Config) (clk : Nat → Nat) (keyCode : Nat) (s : State)
    (hsw : 0 < cfg.KEYBOARD_BOTDETECT_SLOW_BIN_WIDTH_MS)
    (hsn : 0 < cfg.KEYBOARD_BOTDETECT_SLOW_BIN_COUNT) (hwf : s.WF cfg) :
    (∀ d,
      ((binSubscript cfg d).1 = true →
        (binSubscript cfg d).2 < cfg.KEYBOARD_BOTDETECT_FAST_BIN_COUNT ∧
        (binSubscript cfg d).2 < s.KeyDelayFastBinArray.length ∧
        (binSubscript cfg d).2 < s.KeyDowntimeFastBinArray.length) ∧
      ((binSubscript cfg d).1 = false →
        (binSubscript cfg d).2 < cfg.KEYBOARD_BOTDETECT_SLOW_BIN_COUNT ∧
        (binSubscript cfg d).2 < s.KeyDelaySlowBinArray.length ∧
        (binSubscript cfg d).2 < s.KeyDowntimeSlowBinArray.length)) ∧
    keyDownDelay clk s < 4294967296 ∧
    keyUpDowntime cfg clk keyCode s < 4294967296 ∧
    (∀ s', Upstream_HID_BotDetectKeyboard_KeyDown cfg clk keyCode s = some s' →
      (s'.KeyDelayFastBinArray, s'.KeyDelayFastBinDrainDivideCount,
        s'.KeyDelaySlowBinArray, s'.KeyDelaySlowBinDrainDivideCount) =
      if (binSubscript cfg (keyDownDelay clk s)).1 = true then
        ((incrementAndDrain cfg.KEYBOARD_BOTDETECT_FAST_BIN_COUNT
            cfg.KEYBOARD_BOTDETECT_FAST_BIN_DRAIN_DIVIDER
            (binSubscript cfg (keyDownDelay clk s)).2
            s.KeyDelayFastBinArray s.KeyDelayFastBinDrainDivideCount).1,
          (incrementAndDrain cfg.KEYBOARD_BOTDETECT_FAST_BIN_COUNT
            cfg.KEYBOARD_BOTDETECT_FAST_BIN_DRAIN_DIVIDER
            (binSubscript cfg (keyDownDelay clk s)).2
            s.KeyDelayFastBinArray s.KeyDelayFastBinDrainDivideCount).2,
          s.KeyDelaySlowBinArray, s.KeyDelaySlowBinDrainDivideCount)
      else
        (s.KeyDelayFastBinArray, s.KeyDelayFastBinDrainDivideCount,
          (incrementAndDrain cfg.KEYBOARD_BOTDETECT_SLOW_BIN_COUNT
            cfg.KEYBOARD_BOTDETECT_SLOW_BIN_DRAIN_DIVIDER
            (binSubscript cfg (keyDownDelay clk s)).2
            s.KeyDelaySlowBinArray s.KeyDelaySlowBinDrainDivideCount).1,
          (incrementAndDrain cfg.KEYBOARD_BOTDETECT_SLOW_BIN_COUNT
            cfg.KEYBOARD_BOTDETECT_SLOW_BIN_DRAIN_DIVIDER
            (binSubscript cfg (keyDownDelay clk s)).2
            s.KeyDelaySlowBinArray s.KeyDelaySlowBinDrainDivideCount).2)) ∧
    (∀ s', Upstream_HID_BotDetectKeyboard_KeyUp cfg clk keyCode s = some s' →
      (s'.KeyDowntimeFastBinArray, s'.KeyDowntimeFastBinDrainDivideCount,
        s'.KeyDowntimeSlowBinArray, s'.KeyDowntimeSlowBinDrainDivideCount) =
      if (binSubscript cfg (keyUpDowntime cfg clk keyCode s)).1 = true then
        ((incrementAndDrain cfg.KEYBOARD_BOTDETECT_FAST_BIN_COUNT
            cfg.KEYBOARD_BOTDETECT_FAST_BIN_DRAIN_DIVIDER
            (binSubscript cfg (keyUpDowntime cfg clk keyCode s)).2
            s.KeyDowntimeFastBinArray s.KeyDowntimeFastBinDrainDivideCount).1,
          (incrementAndDrain cfg.KEYBOARD_BOTDETECT_FAST_BIN_COUNT
            cfg.KEYBOARD_BOTDETECT_FAST_BIN_DRAIN_DIVIDER
            (binSubscript cfg (keyUpDowntime cfg clk keyCode s)).2
            s.KeyDowntimeFastBinArray s.KeyDowntimeFastBinDrainDivideCount).2,
          s.KeyDowntimeSlowBinArray, s.KeyDowntimeSlowBinDrainDivideCount)
      else
        (s.KeyDowntimeFastBinArray, s.KeyDowntimeFastBinDrainDivideCount,
          (incrementAndDrain cfg.KEYBOARD_BOTDETECT_SLOW_BIN_COUNT
            cfg.KEYBOARD_BOTDETECT_SLOW_BIN_DRAIN_DIVIDER
            (binSubscript cfg (keyUpDowntime cfg clk keyCode s)).2
            s.KeyDowntimeSlowBinArray s.KeyDowntimeSlowBinDrainDivideCount).1,
          (incrementAndDrain cfg.KEYBOARD_BOTDETECT_SLOW_BIN_COUNT
            cfg.KEYBOARD_BOTDETECT_SLOW_BIN_DRAIN_DIVIDER
            (binSubscript cfg (keyUpDowntime cfg clk keyCode s)).2
            s.KeyDowntimeSlowBinArray s.KeyDowntimeSlowBinDrainDivideCount).2)) := by
  obtain ⟨-, -, w1, w2, w3, w4, -⟩ := hwf
  refine ⟨?_, sub32_lt _ _, sub32_lt _ _, ?_, ?_⟩
  · intro d
    have hlt := binSubscript_lt cfg d hsw hsn
    refine ⟨fun h => ?_, fun h => ?_⟩
    · have := hlt.1 h
      exact ⟨this, by rw [w1]; exact this, by rw [w3]; exact this⟩
    · have := hlt.2 h
      exact ⟨this, by rw [w2]; exact this, by rw [w4]; exact this⟩
  · intro s' h
    obtain ⟨i, rfl⟩ := KeyDown_eq cfg clk keyCode s s' h
    exact keyDownHistogram_subscript cfg (HAL_GetTick clk s)
      { s with TickReads := s.TickReads + 1 }
  · intro s' h
    obtain ⟨l, rfl⟩ := KeyUp_eq cfg clk keyCode s s' h
    exact keyUpHistogram_subscript cfg (keyUpDowntime cfg clk keyCode s)
      { s with KeyTimerLog := l, TickReads := s.TickReads + 1 }

/-- Witness of C21: key 4, held since `t = 0`, is released when the clock reads
`2^32 - 1`. The downtime is the largest 32-bit value, its subscript is 7 on the slow path
(8 slow bins), inside `KeyDowntimeSlowBinArray`, and the call puts 1 in that bin. -/
theorem C21_bin_index_in_range_witness :
    keyUpDowntime sampleConfig sampleLastTickClock 4 sampleLongHoldState = 4294967295 ∧
    binSubscript sampleConfig 4294967295 = (false, 7) ∧
    (binSubscript sampleConfig 4294967295).2 <
      sampleLongHoldState.KeyDowntimeSlowBinArray.length ∧
    (Upstream_HID_BotDetectKeyboard_KeyUp sampleConfig sampleLastTickClock 4
        sampleLongHoldState).map (fun t => t.KeyDowntimeSlowBinArray) =
      some [0, 0, 0, 0, 0, 0, 0, 1] := by
  have hc := C21_bin_index_in_range sampleConfig sampleLastTickClock 4 sampleLongHoldState
    (by decide) (by decide) (by decide)
  have hd : keyUpDowntime sampleConfig sampleLastTickClock 4 sampleLongHoldState =
      4294967295 := by decide
  have hb : binSubscript sampleConfig 4294967295 = (false, 7) := by decide
  refine ⟨hd, hb, ((hc.1 4294967295).2 (by rw [hb])).2.2, ?_⟩
  cases h : Upstream_HID_BotDetectKeyboard_KeyUp sampleConfig sampleLastTickClock 4
      sampleLongHoldState with
  | none => exact absurd h (by decide)
  | some t =>
    have ht := hc.2.2.2.2 t h
    rw [hd, hb] at ht
    rw [Option.map_some']
    have h3 := congrArg (fun q => q.2.2.1) ht
    simp only at h3
    rw [h3]
    decide

end BotDetect
